import Mathlib

/-!
# PrimePicks backend: catalog cache facade and checkout pipeline

A shallow embedding of `src/services/productService.js` (TTL cache and catalog
gateway), `src/routes/checkout.js` (checkout pipeline and order status update),
`src/routes/cart.js` (cart store and enrichment) and the route `GET /:id` of
`src/routes/products.js`, followed by the properties proved about them.

Conventions of the embedding
* `Date.now()` is an explicit `Nat` argument (milliseconds).
* `Math.random()` is an explicit stream of rational draws.
* `axios.get` is an explicit response argument; the URLs requested are logged.
* The Prisma store is an explicit record of lists that is passed through.
* JavaScript numbers are exact rationals.
-/

namespace PrimePicks

/-! ## JavaScript values -/

/-- JavaScript values that can be stored in the cache or travel in a JSON body. -/
inductive JsVal where
  | undefined
  | null
  | bool (b : Bool)
  | num (q : ℚ)
  | str (s : String)
  | arr (xs : List JsVal)
  | obj (fields : List (String × JsVal))

/-- JavaScript truthiness, as tested by `if (x)`, `!x` and `x || y`:
`undefined`, `null`, `false`, `0` and `""` are falsy, arrays and objects are truthy. -/
def JsVal.truthy : JsVal → Bool
  | .undefined => false
  | .null => false
  | .bool b => b
  | .num q => decide (q ≠ 0)
  | .str s => decide (s ≠ "")
  | .arr _ => true
  | .obj _ => true

/-! ## `Map` with string keys -/

/-- A JavaScript `Map` keyed by strings, kept in insertion order. -/
abbrev JsMap (β : Type) := List (String × β)

/-- The method `Map.prototype.get`: the value stored under `key`, if any. -/
def JsMap.get {β : Type} : JsMap β → String → Option β
  | [], _ => none
  | (k, v) :: rest, key => if k = key then some v else JsMap.get rest key

/-- The method `Map.prototype.set`: overwrite in place, or append a new entry. -/
def JsMap.set {β : Type} : JsMap β → String → β → JsMap β
  | [], key, v => [(key, v)]
  | (k, w) :: rest, key, v =>
    if k = key then (key, v) :: rest else (k, w) :: JsMap.set rest key v

/-- The method `Map.prototype.delete`: drop the entry stored under `key`. -/
def JsMap.delete {β : Type} : JsMap β → String → JsMap β
  | [], _ => []
  | (k, w) :: rest, key =>
    if k = key then JsMap.delete rest key else (k, w) :: JsMap.delete rest key

/-! ## TTL cache (`productService.js`, lines 5-10 and 207-226) -/

/-- One cache entry `{ data, timestamp }`. -/
structure CacheEntry where
  data : JsVal
  timestamp : Nat

/-- The state of the `ProductService` singleton: `apiUrl` and `cache`. -/
structure ProductService where
  apiUrl : String
  cache : JsMap CacheEntry

/-- The field `this.cacheTimeout = 5 * 60 * 1000`, set once by the constructor. -/
def cacheTimeout : Nat := 5 * 60 * 1000

/-- The test `Date.now() - cached.timestamp < this.cacheTimeout`. -/
def CacheEntry.fresh (e : CacheEntry) (now : Nat) : Bool :=
  decide ((now : Int) - (e.timestamp : Int) < (cacheTimeout : Int))

/-- The method `getFromCache(key)` at time `now`: the returned value and the state afterwards. -/
def ProductService.getFromCache (svc : ProductService) (key : String) (now : Nat) :
    JsVal × ProductService :=
  match svc.cache.get key with
  | some cached =>
    if cached.fresh now then (cached.data, svc)
    else (JsVal.null, { svc with cache := svc.cache.delete key })
  | none => (JsVal.null, { svc with cache := svc.cache.delete key })

/-- The method `setCache(key, data)` at time `now`. -/
def ProductService.setCache (svc : ProductService) (key : String) (data : JsVal) (now : Nat) :
    ProductService :=
  { svc with cache := svc.cache.set key { data := data, timestamp := now } }

/-- The method `clearCache()`. -/
def ProductService.clearCache (svc : ProductService) : ProductService :=
  { svc with cache := [] }

/-- A call of one of the two keyed cache methods, with the clock reading it observes. -/
inductive CacheCall where
  | get (key : String) (now : Nat)
  | set (key : String) (data : JsVal) (now : Nat)

/-- The key a cache call addresses. -/
def CacheCall.key : CacheCall → String
  | .get key _ => key
  | .set key _ _ => key

/-- The state after a cache call. -/
def CacheCall.run (svc : ProductService) : CacheCall → ProductService
  | .get key now => (svc.getFromCache key now).2
  | .set key data now => svc.setCache key data now

/-- The state after a sequence of cache calls, run left to right. -/
def runCalls (svc : ProductService) (calls : List CacheCall) : ProductService :=
  calls.foldl CacheCall.run svc

/-! ## Catalog gateway (`productService.js`, lines 12-205) -/

/-- The outcome of `await axios.get(url)`: the promise rejects, or it resolves with a
response whose `data` is given. -/
inductive HttpResult (α : Type) where
  | rejected
  | resolved (data : α)

/-- A raw catalog record as the external API sends it. `brand` and `images` may be absent
(the code guards both), and so may `category` (the code does not guard it). -/
structure RawProduct where
  id : Int
  title : String
  brand : Option String
  price : ℚ
  category : Option String
  images : Option (List String)
  description : String
  stock : Int
  rating : ℚ
  discountPercentage : ℚ
  thumbnail : String

/-- The body of a listing response: an object whose `products` array may be absent. -/
structure ListBody where
  products : Option (List RawProduct)

/-- The method `String.prototype.includes`: `sub` occurs in `s` as a substring. -/
def jsIncludes (s sub : String) : Bool :=
  s.data.tails.any (fun t => sub.data.isPrefixOf t)

/-- The call `xs.slice(0, e)`: a negative `e` counts from the end of the array. -/
def jsSliceTo {α : Type} (xs : List α) (e : Int) : List α :=
  if e < 0 then xs.take ((xs.length : Int) + e).toNat else xs.take e.toNat

/-- The helper `determineGender(category)`; `category` may be `undefined`. -/
def determineGender (category : Option String) : String :=
  let menCategories := ["mens-shoes", "mens-watches", "mens-shirts", "mens-bags"]
  let womenCategories := ["womens-shoes", "womens-watches", "womens-dresses", "womens-bags"]
  match category with
  | some c =>
    if menCategories.contains c then "men"
    else if womenCategories.contains c then "women"
    else "unisex"
  | none => "unisex"

/-- The helper `generateSizes(category)` on a string. -/
def generateSizes (category : String) : List String :=
  if jsIncludes category "shoes" || jsIncludes category "watches" then
    ["6", "7", "8", "9", "10", "11", "12"]
  else if jsIncludes category "shirts" || jsIncludes category "dresses" then
    ["XS", "S", "M", "L", "XL", "XXL"]
  else ["One Size"]

/-- The palette `commonColors` of `generateColors`. -/
def commonColors : List String :=
  ["black", "white", "red", "blue", "green", "yellow", "pink", "purple"]

/-- The helper `generateColors(category)`, where `r` is the value of `Math.random()`:
`commonColors.slice(0, Math.floor(r * 4) + 2)`. The category is not used. -/
def generateColors (_category : String) (r : ℚ) : List String :=
  jsSliceTo commonColors (⌊r * 4⌋ + 2)

/-- An array of strings as a JavaScript value. -/
def jsStrings (xs : List String) : JsVal :=
  JsVal.arr (xs.map JsVal.str)

/-- The expression `product.brand || 'Unknown'`. -/
def brandOrUnknown (brand : Option String) : String :=
  match brand with
  | some b => if b ≠ "" then b else "Unknown"
  | none => "Unknown"

/-- The expression
`product.images && product.images.length > 0 ? product.images[0] : null`. -/
def firstImage (images : Option (List String)) : JsVal :=
  match images with
  | some (img :: _) => JsVal.str img
  | _ => JsVal.null

/-- The object literal built for each record of a listing (lines 25-41, 62-78, 137-153),
with `r` the draw `generateColors` makes. `none` stands for the `TypeError` raised by
`category.includes` when `category` is `undefined`. -/
def transformProduct (product : RawProduct) (r : ℚ) : Option JsVal :=
  match product.category with
  | none => none
  | some category =>
    some (JsVal.obj [
      ("id", JsVal.num product.id),
      ("name", JsVal.str product.title),
      ("brand", JsVal.str (brandOrUnknown product.brand)),
      ("price", JsVal.num product.price),
      ("gender", JsVal.str (determineGender product.category)),
      ("category", JsVal.str category),
      ("image", firstImage product.images),
      ("description", JsVal.str product.description),
      ("sizes", jsStrings (generateSizes category)),
      ("colors", jsStrings (generateColors category r)),
      ("inStock", JsVal.bool (decide (product.stock > 0))),
      ("stock", JsVal.num product.stock),
      ("rating", JsVal.num product.rating),
      ("discountPercentage", JsVal.num product.discountPercentage),
      ("thumbnail", JsVal.str product.thumbnail)])

/-- The object literal built by `getProductById` (lines 99-116), which also carries
`images: product.images || []`. -/
def transformProductDetail (product : RawProduct) (r : ℚ) : Option JsVal :=
  match product.category with
  | none => none
  | some category =>
    some (JsVal.obj [
      ("id", JsVal.num product.id),
      ("name", JsVal.str product.title),
      ("brand", JsVal.str (brandOrUnknown product.brand)),
      ("price", JsVal.num product.price),
      ("gender", JsVal.str (determineGender product.category)),
      ("category", JsVal.str category),
      ("image", firstImage product.images),
      ("images", jsStrings (product.images.getD [])),
      ("description", JsVal.str product.description),
      ("sizes", jsStrings (generateSizes category)),
      ("colors", jsStrings (generateColors category r)),
      ("inStock", JsVal.bool (decide (product.stock > 0))),
      ("stock", JsVal.num product.stock),
      ("rating", JsVal.num product.rating),
      ("discountPercentage", JsVal.num product.discountPercentage),
      ("thumbnail", JsVal.str product.thumbnail)])

/-- The call `products.map(product => (...))`: records are transformed left to right, the
record at position `i` consuming the draw `random i`; a `TypeError` aborts the whole map. -/
def transformProducts (random : Nat → ℚ) : List RawProduct → Nat → Option (List JsVal)
  | [], _ => some []
  | product :: rest, i =>
    match transformProduct product (random i) with
    | none => none
    | some t =>
      match transformProducts random rest (i + 1) with
      | none => none
      | some ts => some (t :: ts)

/-- The block shared by the three listing methods:
`response = await axios.get(url); products = response.data.products || [];
transformedProducts = products.map(...)`. `none` means that an exception was raised:
the request was rejected, `response.data` was `null` or `undefined`, or the map aborted. -/
def fetchProductList (response : HttpResult (Option ListBody)) (random : Nat → ℚ) :
    Option JsVal :=
  match response with
  | .rejected => none
  | .resolved none => none
  | .resolved (some body) =>
    match transformProducts random (body.products.getD []) 0 with
    | none => none
    | some ts => some (JsVal.arr ts)

/-- The block of `getProductById`:
`response = await axios.get(url); product = response.data; transformedProduct = (...)`. -/
def fetchProductDetail (response : HttpResult (Option RawProduct)) (random : Nat → ℚ) :
    Option JsVal :=
  match response with
  | .rejected => none
  | .resolved none => none
  | .resolved (some product) => transformProductDetail product (random 0)

/-- The block of `getCategories`:
`response = await axios.get(url); categories = response.data || []`. -/
def fetchCategories (response : HttpResult JsVal) : Option JsVal :=
  match response with
  | .rejected => none
  | .resolved data => some (if data.truthy then data else JsVal.arr [])

/-- What a gateway method hands back: the value returned or the message of the `Error`
thrown, the service state afterwards, and the URLs requested through `axios.get`. -/
structure Outcome where
  result : Except String JsVal
  service : ProductService
  requests : List String

/-- The characters `encodeURIComponent` leaves as they are. -/
def isUriUnreserved (c : Char) : Bool :=
  c.isAlphanum || "-_.!~*()".contains c || c = Char.ofNat 39

/-- The upper-case hexadecimal digit of `n < 16`. -/
def hexDigit (n : Nat) : Char :=
  if n < 10 then Char.ofNat (48 + n) else Char.ofNat (55 + n)

/-- The global `encodeURIComponent`: every other character becomes the `%XX` escapes of
its UTF-8 bytes. -/
def encodeURIComponent (s : String) : String :=
  s.foldl (fun acc c =>
    if isUriUnreserved c then acc.push c
    else (String.utf8EncodeChar c).foldl
      (fun a b => (((a.push '%').push (hexDigit (b.toNat / 16))).push (hexDigit (b.toNat % 16))))
      acc) ""

/-- The constructor: `apiUrl` is `config.api.productsUrl` without one trailing slash, and
the cache starts empty. -/
def ProductService.new (productsUrl : String) : ProductService :=
  { apiUrl := if productsUrl.endsWith "/" then productsUrl.dropRight 1 else productsUrl,
    cache := [] }

/-- The cache key of `getAllProducts`. -/
def allProductsKey (limit skip : Int) : String :=
  "all_products_" ++ toString limit ++ "_" ++ toString skip

/-- The cache key of `getProductsByCategory`. -/
def categoryKey (category : String) (limit skip : Int) : String :=
  "category_" ++ category ++ "_" ++ toString limit ++ "_" ++ toString skip

/-- The cache key of `getProductById`. -/
def productKey (id : String) : String :=
  "product_" ++ id

/-- The cache key of `searchProducts`. -/
def searchKey (query : String) (limit skip : Int) : String :=
  "search_" ++ query ++ "_" ++ toString limit ++ "_" ++ toString skip

/-- The cache key of `getCategories`. -/
def categoriesKey : String := "categories"

/-- The method `getAllProducts(limit, skip)`. `now` is the clock at the cache lookup,
`storeTime` the clock at `setCache`. -/
def ProductService.getAllProducts (svc : ProductService) (limit skip : Int) (now : Nat)
    (response : HttpResult (Option ListBody)) (random : Nat → ℚ) (storeTime : Nat) : Outcome :=
  let cacheKey := allProductsKey limit skip
  let cached := svc.getFromCache cacheKey now
  if cached.1.truthy then { result := .ok cached.1, service := cached.2, requests := [] }
  else
    let url := svc.apiUrl ++ "?limit=" ++ toString limit ++ "&skip=" ++ toString skip
    match fetchProductList response random with
    | some transformedProducts =>
      { result := .ok transformedProducts,
        service := cached.2.setCache cacheKey transformedProducts storeTime,
        requests := [url] }
    | none =>
      { result := .error "Failed to fetch products from external API",
        service := cached.2, requests := [url] }

/-- The method `getProductsByCategory(category, limit, skip)`. -/
def ProductService.getProductsByCategory (svc : ProductService) (category : String)
    (limit skip : Int) (now : Nat) (response : HttpResult (Option ListBody))
    (random : Nat → ℚ) (storeTime : Nat) : Outcome :=
  let cacheKey := categoryKey category limit skip
  let cached := svc.getFromCache cacheKey now
  if cached.1.truthy then { result := .ok cached.1, service := cached.2, requests := [] }
  else
    let url := svc.apiUrl ++ "/category/" ++ category ++ "?limit=" ++ toString limit ++
      "&skip=" ++ toString skip
    match fetchProductList response random with
    | some transformedProducts =>
      { result := .ok transformedProducts,
        service := cached.2.setCache cacheKey transformedProducts storeTime,
        requests := [url] }
    | none =>
      { result := .error "Failed to fetch products by category",
        service := cached.2, requests := [url] }

/-- The method `getProductById(id)`. -/
def ProductService.getProductById (svc : ProductService) (id : String) (now : Nat)
    (response : HttpResult (Option RawProduct)) (random : Nat → ℚ) (storeTime : Nat) :
    Outcome :=
  let cacheKey := productKey id
  let cached := svc.getFromCache cacheKey now
  if cached.1.truthy then { result := .ok cached.1, service := cached.2, requests := [] }
  else
    let url := svc.apiUrl ++ "/" ++ id
    match fetchProductDetail response random with
    | some transformedProduct =>
      { result := .ok transformedProduct,
        service := cached.2.setCache cacheKey transformedProduct storeTime,
        requests := [url] }
    | none =>
      { result := .error "Product not found", service := cached.2, requests := [url] }

/-- The method `searchProducts(query, limit, skip)`. -/
def ProductService.searchProducts (svc : ProductService) (query : String)
    (limit skip : Int) (now : Nat) (response : HttpResult (Option ListBody))
    (random : Nat → ℚ) (storeTime : Nat) : Outcome :=
  let cacheKey := searchKey query limit skip
  let cached := svc.getFromCache cacheKey now
  if cached.1.truthy then { result := .ok cached.1, service := cached.2, requests := [] }
  else
    let url := svc.apiUrl ++ "/search?q=" ++ encodeURIComponent query ++
      "&limit=" ++ toString limit ++ "&skip=" ++ toString skip
    match fetchProductList response random with
    | some transformedProducts =>
      { result := .ok transformedProducts,
        service := cached.2.setCache cacheKey transformedProducts storeTime,
        requests := [url] }
    | none =>
      { result := .error "Failed to search products", service := cached.2, requests := [url] }

/-- The method `getCategories()`. -/
def ProductService.getCategories (svc : ProductService) (now : Nat)
    (response : HttpResult JsVal) (storeTime : Nat) : Outcome :=
  let cacheKey := categoriesKey
  let cached := svc.getFromCache cacheKey now
  if cached.1.truthy then { result := .ok cached.1, service := cached.2, requests := [] }
  else
    let url := svc.apiUrl ++ "/categories"
    match fetchCategories response with
    | some categories =>
      { result := .ok categories,
        service := cached.2.setCache cacheKey categories storeTime,
        requests := [url] }
    | none =>
      { result := .error "Failed to fetch categories", service := cached.2, requests := [url] }

/-- A call of one of the five gateway methods, with its parameters. -/
inductive Request where
  | allProducts (limit skip : Int)
  | byCategory (category : String) (limit skip : Int)
  | byId (id : String)
  | search (query : String) (limit skip : Int)
  | categories

/-- What the outside world answers during one gateway call: the clock at the cache lookup,
the response of each endpoint family, the `Math.random()` draws and the clock at `setCache`. -/
structure World where
  now : Nat
  listResponse : HttpResult (Option ListBody)
  productResponse : HttpResult (Option RawProduct)
  categoriesResponse : HttpResult JsVal
  random : Nat → ℚ
  storeTime : Nat

/-- The cache key a gateway call uses. -/
def Request.cacheKey : Request → String
  | .allProducts limit skip => allProductsKey limit skip
  | .byCategory category limit skip => categoryKey category limit skip
  | .byId id => productKey id
  | .search query limit skip => searchKey query limit skip
  | .categories => categoriesKey

/-- The mapped result a gateway call obtains from the external response, `none` if the
request or the mapping raised. -/
def Request.fetch (req : Request) (w : World) : Option JsVal :=
  match req with
  | .allProducts _ _ => fetchProductList w.listResponse w.random
  | .byCategory _ _ _ => fetchProductList w.listResponse w.random
  | .byId _ => fetchProductDetail w.productResponse w.random
  | .search _ _ _ => fetchProductList w.listResponse w.random
  | .categories => fetchCategories w.categoriesResponse

/-- Run a gateway call on a service state in a given world. -/
def Request.run (req : Request) (w : World) (svc : ProductService) : Outcome :=
  match req with
  | .allProducts limit skip =>
    svc.getAllProducts limit skip w.now w.listResponse w.random w.storeTime
  | .byCategory category limit skip =>
    svc.getProductsByCategory category limit skip w.now w.listResponse w.random w.storeTime
  | .byId id => svc.getProductById id w.now w.productResponse w.random w.storeTime
  | .search query limit skip =>
    svc.searchProducts query limit skip w.now w.listResponse w.random w.storeTime
  | .categories => svc.getCategories w.now w.categoriesResponse w.storeTime

/-- The states the service singleton can be in: the state the constructor builds, and every
state obtained from such a state by a gateway call (in any world) or by `clearCache()`. -/
inductive ProductService.Reachable : ProductService → Prop where
  | init (productsUrl : String) : ProductService.Reachable (ProductService.new productsUrl)
  | call (svc : ProductService) (req : Request) (w : World) :
      ProductService.Reachable svc → ProductService.Reachable (req.run w svc).service
  | clear (svc : ProductService) :
      ProductService.Reachable svc → ProductService.Reachable svc.clearCache

/-- Every value held in the cache is truthy. -/
def ProductService.AllTruthy (svc : ProductService) : Prop :=
  ∀ key e, svc.cache.get key = some e → e.data.truthy = true

/-! ## Checkout pipeline (`routes/checkout.js`)

The Prisma schema is not part of the sources; the records below carry the columns the
routes read and write. Columns the store maintains by itself (row ids of order items,
creation and update times) are left out. -/

/-- A row of the `user` table. `address` is `null` until one is saved. -/
structure User where
  id : String
  username : String
  email : String
  password : String
  address : JsVal

/-- A row of the order-item table: the snapshot `{ productId, quantity, price }`. -/
structure OrderItem where
  productId : String
  quantity : Int
  price : ℚ

/-- A row of the `order` table, with its items. -/
structure Order where
  id : String
  userId : String
  items : List OrderItem
  subtotal : ℚ
  shipping : ℚ
  tax : ℚ
  total : ℚ
  shippingAddress : JsVal
  billingAddress : JsVal
  paymentMethod : JsVal
  status : String
  paymentStatus : String
  paymentId : Option String

/-- The part of the persistent store the checkout routes touch. -/
structure Store where
  users : List User
  orders : List Order

/-- A product reference as the client sends it: a number or a string. -/
inductive ProductRef where
  | num (n : Int)
  | str (s : String)

/-- The conversion `String(item.productId)`. -/
def ProductRef.toJsString : ProductRef → String
  | .num n => toString n
  | .str s => s

/-- An element of `cartItems` in the request body that is an object; `extra` holds every
field other than `productId`, `quantity` and `price`. The three fields have the types of the
order-item columns: what `prisma.order.create` does with a row that lacks one of them is
decided by the schema, which is not part of the sources. -/
structure CartItemInput where
  productId : ProductRef
  quantity : Int
  price : ℚ
  extra : List (String × JsVal)

/-- The body of `POST /process`. `cartItems` is `none` when the field is absent or not an
array; an element of the array is `none` when it is `null` or `undefined`, the two values on
which reading `item.productId` throws a `TypeError`. `total` and `userId` are `none` when
absent, and the other three fields are `undefined` when absent. -/
structure CheckoutBody where
  cartItems : Option (List (Option CartItemInput))
  total : Option ℚ
  shippingAddress : JsVal
  billingAddress : JsVal
  paymentMethod : JsVal
  userId : Option String

/-- What the outside world supplies during one checkout: the `Math.random()` draw of the
payment simulation, `Date.now()`, the rendered suffix
`Math.random().toString(36).substr(2, 9)` and the id the store gives the new order. -/
structure CheckoutEnv where
  paymentDraw : ℚ
  now : Nat
  paymentSuffix : String
  orderId : String

/-- The object `processPayment` returns. -/
structure PaymentResult where
  success : Bool
  paymentId : Option String
  message : String

/-- The function `processPayment(amount, paymentMethod)`: success iff the draw exceeds
`0.1`. Neither argument is used. -/
def processPayment (_amount : ℚ) (_paymentMethod : JsVal) (env : CheckoutEnv) :
    PaymentResult :=
  let success := decide (env.paymentDraw > 0.1)
  if success then
    { success := true,
      paymentId := some ("PAY-" ++ toString env.now ++ "-" ++ env.paymentSuffix),
      message := "Payment processed successfully" }
  else
    { success := false, paymentId := none, message := "Payment failed" }

/-- The `data.order` object of a successful checkout response. -/
structure OrderSummary where
  id : String
  status : String
  paymentStatus : String
  total : ℚ
  items : Nat

/-- What `POST /process` does: the HTTP status and message sent (from the handler, from
`validateCart`, or from the `catch` block of the handler), the order summary if any, the
store afterwards, and the calls made to `processPayment`. -/
structure CheckoutOutcome where
  status : Nat
  message : String
  order : Option OrderSummary
  store : Store
  payments : List (ℚ × JsVal)

/-- The middleware `validateCart`: `some (status, message)` when it answers itself, `none`
when it calls `next()`. -/
def validateCart (body : CheckoutBody) : Option (Nat × String) :=
  match body.cartItems with
  | none => some (400, "Cart items are required")
  | some [] => some (400, "Cart items are required")
  | some (_ :: _) =>
    match body.total with
    | none => some (400, "Valid total amount is required")
    | some total =>
      if total = 0 ∨ total ≤ 0 then some (400, "Valid total amount is required")
      else none

/-- The query `prisma.user.findUnique({ where: { id } })`. -/
def Store.findUser (store : Store) (id : String) : Option User :=
  store.users.find? (fun u => u.id = id)

/-- The row update behind `prisma.user.update`: the first row with the id gets the address. -/
def setAddressRow : List User → String → JsVal → List User
  | [], _, _ => []
  | u :: rest, id, address =>
    if u.id = id then { u with address := address } :: rest
    else u :: setAddressRow rest id address

/-- The write `prisma.user.update({ where: { id }, data: { address } })`. -/
def Store.setUserAddress (store : Store) (id : String) (address : JsVal) : Store :=
  { store with users := setAddressRow store.users id address }

/-- The write `prisma.order.create({ data })`. -/
def Store.createOrder (store : Store) (order : Order) : Store :=
  { store with orders := store.orders ++ [order] }

/-- The elements of `cartItems` as the callback of `cartItems.map` (lines 80-84) reads them:
`none` when an element is `null` or `undefined`, where `item.productId` throws a `TypeError`
and the `map` call with it. -/
def cartRows : List (Option CartItemInput) → Option (List CartItemInput)
  | [] => some []
  | none :: _ => none
  | some item :: rest =>
    match cartRows rest with
    | none => none
    | some rows => some (item :: rows)

/-- The mapping `cartItems.map(item => ({ productId: String(item.productId), quantity:
item.quantity, price: item.price }))` on elements that are objects. -/
def orderItemsOf (cartItems : List CartItemInput) : List OrderItem :=
  cartItems.map (fun item =>
    { productId := item.productId.toJsString, quantity := item.quantity, price := item.price })

/-- The `data` of `prisma.order.create` (lines 88-103), for the resolved `userId`, the
`total` and `cartItems` of the body and the result of the payment step. -/
def checkoutOrder (env : CheckoutEnv) (body : CheckoutBody) (userId : String)
    (cartItems : List CartItemInput) (total : ℚ) (paymentResult : PaymentResult) : Order :=
  { id := env.orderId,
    userId := userId,
    items := orderItemsOf cartItems,
    subtotal := total,
    shipping := 10.00,
    tax := total * 0.08,
    total := total + 10.00 + (total * 0.08),
    shippingAddress := body.shippingAddress,
    billingAddress := body.billingAddress,
    paymentMethod := body.paymentMethod,
    status := if paymentResult.success then "confirmed" else "failed",
    paymentStatus := if paymentResult.success then "paid" else "failed",
    paymentId := if paymentResult.success then paymentResult.paymentId else none }

/-- The response body `data.order` built from the created order (lines 113-119). -/
def Order.summary (order : Order) : OrderSummary :=
  { id := order.id, status := order.status, paymentStatus := order.paymentStatus,
    total := order.total, items := order.items.length }

/-- The route `POST /process`: `validateCart`, then the handler. The handler runs in the
order of the source: field checks, user lookup, address write, `processPayment`, the `map`
over `cartItems`, `prisma.order.create`. When the `map` throws, the `catch` block answers
500 `Internal server error`: by then the address write and the payment call have happened,
and no order is created. -/
def processCheckout (store : Store) (body : CheckoutBody) (env : CheckoutEnv) :
    CheckoutOutcome :=
  match validateCart body with
  | some (status, message) =>
    { status := status, message := message, order := none, store := store, payments := [] }
  | none =>
    let cartItems := body.cartItems.getD []
    let total := body.total.getD 0
    if !body.shippingAddress.truthy || !body.billingAddress.truthy ||
        !body.paymentMethod.truthy then
      { status := 400,
        message := "Shipping address, billing address, and payment method are required",
        order := none, store := store, payments := [] }
    else
      match body.userId with
      | none =>
        { status := 400, message := "User ID is required", order := none, store := store,
          payments := [] }
      | some userId =>
        if userId = "" then
          { status := 400, message := "User ID is required", order := none, store := store,
            payments := [] }
        else
          match store.findUser userId with
          | none =>
            { status := 404, message := "User not found", order := none, store := store,
              payments := [] }
          | some user =>
            let store1 :=
              if !user.address.truthy then store.setUserAddress userId body.shippingAddress
              else store
            let paymentResult := processPayment total body.paymentMethod env
            match cartRows cartItems with
            | none =>
              { status := 500, message := "Internal server error", order := none,
                store := store1, payments := [(total, body.paymentMethod)] }
            | some rows =>
              let order := checkoutOrder env body userId rows total paymentResult
              { status := 200, message := "Order processed successfully",
                order := some order.summary,
                store := store1.createOrder order,
                payments := [(total, body.paymentMethod)] }

/-- The list `validStatuses` of the status route. -/
def validStatuses : List String :=
  ["pending", "confirmed", "shipped", "delivered", "cancelled"]

/-- The write `prisma.order.update({ where: { id }, data: { status } })`: the updated table
and the updated row, or `none` when no row has the id (Prisma error `P2025`). -/
def updateOrderRow : List Order → String → String → Option (List Order × Order)
  | [], _, _ => none
  | o :: rest, id, status =>
    if o.id = id then some ({ o with status := status } :: rest, { o with status := status })
    else
      match updateOrderRow rest id status with
      | none => none
      | some (rest', updated) => some (o :: rest', updated)

/-- What `PUT /order/:orderId/status` does: the HTTP status and message sent, the
`(id, status)` of the updated order if any, and the store afterwards. -/
structure StatusOutcome where
  status : Nat
  message : String
  order : Option (String × String)
  store : Store

/-- The route `PUT /order/:orderId/status`; `status` is `none` when the body has no such
field. -/
def updateOrderStatus (store : Store) (orderId : String) (status : Option String) :
    StatusOutcome :=
  match status with
  | none => { status := 400, message := "Invalid status", order := none, store := store }
  | some s =>
    if !validStatuses.contains s then
      { status := 400, message := "Invalid status", order := none, store := store }
    else
      match updateOrderRow store.orders orderId s with
      | some (orders, order) =>
        { status := 200, message := "Order status updated successfully",
          order := some (order.id, order.status),
          store := { store with orders := orders } }
      | none =>
        { status := 404, message := "Order not found", order := none, store := store }

/-! ## Cart store and enrichment (`routes/cart.js`)

As for checkout, the tables carry the columns the routes read and write. Row ids are
handed out by the store; here the call receives the id a created row gets. -/

/-- A row of the `cart` table. -/
structure Cart where
  id : String
  userId : String

/-- A row of the `cartItem` table. -/
structure CartItem where
  id : String
  cartId : String
  productId : String
  quantity : Int

/-- The part of the persistent store the cart routes touch. -/
structure CartStore where
  carts : List Cart
  items : List CartItem

/-- The constant `DUMMYJSON_BASE`. -/
def DUMMYJSON_BASE : String := "https://dummyjson.com/products"

/-- The URL `fetchProductDetails(productId)` requests. -/
def productDetailsUrl (productId : String) : String :=
  DUMMYJSON_BASE ++ "/" ++ productId

/-- The helper `fetchProductDetails(productId)`: one `axios.get`, answered by `http`; the
value returned on success is `res.data`. -/
def fetchProductDetails (http : String → HttpResult JsVal) (productId : String) :
    HttpResult JsVal :=
  http (productDetailsUrl productId)

/-- An element of `detailedItems`: the object `{ ...item, product }`. -/
structure DetailedItem where
  item : CartItem
  product : JsVal

/-- The callback of `items.map(async (item) => ...)`: `product` starts as `null` and is
replaced by the looked-up value unless the lookup throws. -/
def detailItem (http : String → HttpResult JsVal) (item : CartItem) : DetailedItem :=
  { item := item,
    product :=
      match fetchProductDetails http item.productId with
      | .resolved data => data
      | .rejected => JsVal.null }

/-- The value of `await Promise.all(items.map(...))`: the results in the order of `items`. -/
def detailedItems (http : String → HttpResult JsVal) (items : List CartItem) :
    List DetailedItem :=
  items.map (detailItem http)

/-- The URLs requested while building `detailedItems`. -/
def enrichmentRequests (items : List CartItem) : List String :=
  items.map (fun item => productDetailsUrl item.productId)

/-- The query `prisma.cart.findUnique({ where: { userId } })`. -/
def CartStore.findCartByUser (store : CartStore) (userId : String) : Option Cart :=
  store.carts.find? (fun c => c.userId = userId)

/-- The query `prisma.cart.findUnique({ where: { id } })`. -/
def CartStore.findCartById (store : CartStore) (id : String) : Option Cart :=
  store.carts.find? (fun c => c.id = id)

/-- The query `prisma.cartItem.findMany({ where: { cartId } })`. -/
def CartStore.itemsOfCart (store : CartStore) (cartId : String) : List CartItem :=
  store.items.filter (fun i => i.cartId = cartId)

/-- The query `prisma.cartItem.findUnique({ where: { id } })`. -/
def CartStore.findItem (store : CartStore) (id : String) : Option CartItem :=
  store.items.find? (fun i => i.id = id)

/-- The query `prisma.cartItem.findFirst({ where: { cartId, productId } })`. -/
def CartStore.findItemByProduct (store : CartStore) (cartId productId : String) :
    Option CartItem :=
  store.items.find? (fun i => i.cartId = cartId ∧ i.productId = productId)

/-- The row update behind `prisma.cartItem.update({ where: { id }, data: { quantity } })`. -/
def setQuantityRow : List CartItem → String → Int → List CartItem
  | [], _, _ => []
  | i :: rest, id, quantity =>
    if i.id = id then { i with quantity := quantity } :: rest
    else i :: setQuantityRow rest id quantity

/-- The row removal behind `prisma.cartItem.delete({ where: { id } })`. -/
def deleteItemRow : List CartItem → String → List CartItem
  | [], _ => []
  | i :: rest, id => if i.id = id then rest else i :: deleteItemRow rest id

/-- What the outside world supplies during one cart call: the ids the store gives to a
created cart and a created item, and the answers of the catalog to `axios.get`. -/
structure CartEnv where
  newCartId : String
  newItemId : String
  http : String → HttpResult JsVal

/-- The helper `getOrCreateCart(userId)`: the cart returned and the store afterwards.
Only `id` and `userId` of the returned cart are used by the routes. -/
def getOrCreateCart (store : CartStore) (userId : String) (newCartId : String) :
    Cart × CartStore :=
  match store.findCartByUser userId with
  | some cart => (cart, store)
  | none =>
    ({ id := newCartId, userId := userId },
      { store with carts := store.carts ++ [{ id := newCartId, userId := userId }] })

/-- The `data.cart` object of a cart response; `id` and `userId` are absent in the answer
of `DELETE /clear` for a user without a cart. -/
structure CartView where
  id : Option String
  userId : Option String
  items : List DetailedItem

/-- What a cart route does: the HTTP status and message sent, the cart view if any, the
store afterwards and the URLs requested through `axios.get`. -/
structure CartOutcome where
  status : Nat
  message : String
  cart : Option CartView
  store : CartStore
  requests : List String

/-- The answer `res.status(401).json({ success: false, message: 'Unauthorized' })`. -/
def unauthorized (store : CartStore) : CartOutcome :=
  { status := 401, message := "Unauthorized", cart := none, store := store, requests := [] }

/-- The test `!userId` on `req.user?.id`: `none` when the id is absent or empty. -/
def authenticatedUser (userId : Option String) : Option String :=
  match userId with
  | some uid => if uid = "" then none else some uid
  | none => none

/-- JavaScript truthiness of a product reference: `0` and `""` are falsy. -/
def ProductRef.truthy : ProductRef → Bool
  | .num n => decide (n ≠ 0)
  | .str s => decide (s ≠ "")

/-- The successful answer of the routes that return the cart: status 200 with the cart
and its items enriched. -/
def cartResponse (message : String) (cart : Cart) (store : CartStore) (env : CartEnv) :
    CartOutcome :=
  { status := 200, message := message,
    cart := some { id := some cart.id, userId := some cart.userId,
                   items := detailedItems env.http (store.itemsOfCart cart.id) },
    store := store,
    requests := enrichmentRequests (store.itemsOfCart cart.id) }

/-- The route `GET /`. -/
def getCart (store : CartStore) (userId : Option String) (env : CartEnv) : CartOutcome :=
  match authenticatedUser userId with
  | none => unauthorized store
  | some uid =>
    let created := getOrCreateCart store uid env.newCartId
    cartResponse "Cart retrieved successfully" created.1 created.2 env

/-- The route `POST /add`; `quantity` is `none` when the body has no such field, in which
case the default `1` applies. -/
def addItem (store : CartStore) (userId : Option String) (productId : Option ProductRef)
    (quantity : Option Int) (env : CartEnv) : CartOutcome :=
  match authenticatedUser userId with
  | none => unauthorized store
  | some uid =>
    let quantity := quantity.getD 1
    match productId with
    | none =>
      { status := 400, message := "Product ID and valid quantity required", cart := none,
        store := store, requests := [] }
    | some productId =>
      if !productId.truthy || quantity ≤ 0 then
        { status := 400, message := "Product ID and valid quantity required", cart := none,
          store := store, requests := [] }
      else
        let created := getOrCreateCart store uid env.newCartId
        let cart := created.1
        let productIdStr := productId.toJsString
        let store2 : CartStore :=
          match created.2.findItemByProduct cart.id productIdStr with
          | some existing =>
            { created.2 with
              items := setQuantityRow created.2.items existing.id (existing.quantity + quantity) }
          | none =>
            { created.2 with
              items := created.2.items ++
                [{ id := env.newItemId, cartId := cart.id, productId := productIdStr,
                   quantity := quantity }] }
        cartResponse "Item added to cart successfully" cart store2 env

/-- The route `PUT /update/:itemId`; `quantity` is `none` when the body has no such field.
After the update the cart of the item is looked up, and `cart.id` throws (status 500) if it
is gone. -/
def updateItem (store : CartStore) (userId : Option String) (itemId : String)
    (quantity : Option Int) (env : CartEnv) : CartOutcome :=
  match authenticatedUser userId with
  | none => unauthorized store
  | some _ =>
    match quantity with
    | none =>
      { status := 400, message := "Valid quantity is required", cart := none, store := store,
        requests := [] }
    | some quantity =>
      if quantity = 0 ∨ quantity ≤ 0 then
        { status := 400, message := "Valid quantity is required", cart := none, store := store,
          requests := [] }
      else
        match store.findItem itemId with
        | none =>
          { status := 404, message := "Item not found in cart", cart := none, store := store,
            requests := [] }
        | some item =>
          let store1 : CartStore :=
            { store with items := setQuantityRow store.items itemId quantity }
          match store1.findCartById item.cartId with
          | none =>
            { status := 500, message := "Internal server error", cart := none, store := store1,
              requests := [] }
          | some cart => cartResponse "Cart item updated successfully" cart store1 env

/-- The route `DELETE /remove/:itemId`. -/
def removeItem (store : CartStore) (userId : Option String) (itemId : String)
    (env : CartEnv) : CartOutcome :=
  match authenticatedUser userId with
  | none => unauthorized store
  | some _ =>
    match store.findItem itemId with
    | none =>
      { status := 404, message := "Item not found in cart", cart := none, store := store,
        requests := [] }
    | some item =>
      let store1 : CartStore := { store with items := deleteItemRow store.items itemId }
      match store1.findCartById item.cartId with
      | none =>
        { status := 500, message := "Internal server error", cart := none, store := store1,
          requests := [] }
      | some cart => cartResponse "Item removed from cart successfully" cart store1 env

/-- The route `DELETE /clear`. -/
def clearCart (store : CartStore) (userId : Option String) : CartOutcome :=
  match authenticatedUser userId with
  | none => unauthorized store
  | some uid =>
    match store.findCartByUser uid with
    | none =>
      { status := 200, message := "Cart cleared",
        cart := some { id := none, userId := none, items := [] },
        store := store, requests := [] }
    | some cart =>
      { status := 200, message := "Cart cleared",
        cart := some { id := some cart.id, userId := some cart.userId, items := [] },
        store := { store with items := store.items.filter (fun i => ¬ i.cartId = cart.id) },
        requests := [] }

/-- One operation on the cart store, with its parameters. -/
inductive CartOp where
  | getOrCreate (userId : String)
  | getCart (userId : Option String)
  | addItem (userId : Option String) (productId : Option ProductRef) (quantity : Option Int)
  | updateItem (userId : Option String) (itemId : String) (quantity : Option Int)
  | removeItem (userId : Option String) (itemId : String)
  | clear (userId : Option String)

/-- The store after one cart operation. -/
def CartOp.run (store : CartStore) (op : CartOp) (env : CartEnv) : CartStore :=
  match op with
  | .getOrCreate userId => (getOrCreateCart store userId env.newCartId).2
  | .getCart userId => (PrimePicks.getCart store userId env).store
  | .addItem userId productId quantity =>
    (PrimePicks.addItem store userId productId quantity env).store
  | .updateItem userId itemId quantity =>
    (PrimePicks.updateItem store userId itemId quantity env).store
  | .removeItem userId itemId => (PrimePicks.removeItem store userId itemId env).store
  | .clear userId => (clearCart store userId).store

/-- The store after a sequence of cart operations, each in its own environment, run one
after the other. -/
def runCartOps (store : CartStore) (ops : List (CartOp × CartEnv)) : CartStore :=
  ops.foldl (fun s step => step.1.run s step.2) store

/-- The empty cart store. -/
def emptyCartStore : CartStore := { carts := [], items := [] }

/-- The string `sub` occurs in `s` as a substring. -/
def IsSubstring (sub s : String) : Prop :=
  ∃ pre post : String, s = pre ++ sub ++ post

/-- The number written by a list of decimal digits, continuing from `init`. -/
def digitsValue (init : Nat) (l : List Char) : Nat :=
  l.foldl (fun acc c => acc * 10 + (c.toNat - 48)) init

/-! ## Failure paths of the gateway and the product route (`routes/products.js`) -/

/-- The message of the `Error` a gateway method throws from its `catch` block
(`productService.js`, lines 47, 84, 122, 159, 178). -/
def Request.errorMessage : Request → String
  | .allProducts _ _ => "Failed to fetch products from external API"
  | .byCategory _ _ _ => "Failed to fetch products by category"
  | .byId _ => "Product not found"
  | .search _ _ _ => "Failed to search products"
  | .categories => "Failed to fetch categories"

/-- A record of the list has no `category`, so that `category.includes` throws on it. -/
def hasUncategorized (products : List RawProduct) : Prop :=
  ∃ p ∈ products, p.category = none

/-- The answers of the external call on which the code of a gateway method throws: the
request is rejected; for the four product methods also a `null` or `undefined` body, or a
record to be mapped that has no `category`. `getCategories` throws on a rejected request
only. -/
def Request.failing (req : Request) (w : World) : Prop :=
  match req with
  | .byId _ =>
    w.productResponse = HttpResult.rejected ∨ w.productResponse = HttpResult.resolved none ∨
      ∃ p, w.productResponse = HttpResult.resolved (some p) ∧ p.category = none
  | .categories => w.categoriesResponse = HttpResult.rejected
  | _ =>
    w.listResponse = HttpResult.rejected ∨ w.listResponse = HttpResult.resolved none ∨
      ∃ products, w.listResponse = HttpResult.resolved (some { products := some products }) ∧
        hasUncategorized products

/-- What `GET /:id` does: the HTTP status and message sent, the product if any, the service
state afterwards and the URLs requested. -/
structure ProductRouteOutcome where
  status : Nat
  message : String
  product : Option JsVal
  service : ProductService
  requests : List String

/-- The route `GET /:id` of `routes/products.js`: the error `Product not found` becomes a
404, any other error a 500 with `error.message || 'Internal server error'`. -/
def getProductRoute (svc : ProductService) (id : String) (now : Nat)
    (response : HttpResult (Option RawProduct)) (random : Nat → ℚ) (storeTime : Nat) :
    ProductRouteOutcome :=
  let out := svc.getProductById id now response random storeTime
  match out.result with
  | .ok product =>
    { status := 200, message := "Product retrieved successfully", product := some product,
      service := out.service, requests := out.requests }
  | .error message =>
    if message = "Product not found" then
      { status := 404, message := "Product not found", product := none,
        service := out.service, requests := out.requests }
    else
      { status := 500, message := if message ≠ "" then message else "Internal server error",
        product := none, service := out.service, requests := out.requests }

/-! ## Enrichment as the specification words it -/

/-- The JSON object a catalog record is sent as; fields that are absent are left out. -/
def RawProduct.toJs (p : RawProduct) : JsVal :=
  JsVal.obj (
    [("id", JsVal.num p.id), ("title", JsVal.str p.title)] ++
    (match p.brand with
      | some b => [("brand", JsVal.str b)]
      | none => []) ++
    [("price", JsVal.num p.price)] ++
    (match p.category with
      | some c => [("category", JsVal.str c)]
      | none => []) ++
    (match p.images with
      | some imgs => [("images", jsStrings imgs)]
      | none => []) ++
    [("description", JsVal.str p.description), ("stock", JsVal.num p.stock),
     ("rating", JsVal.num p.rating), ("discountPercentage", JsVal.num p.discountPercentage),
     ("thumbnail", JsVal.str p.thumbnail)])

/-- Enrichment of one item as the specification words it, to be compared with `detailItem`:
the product attached is what the gateway method `getProductById(item.productId)` returns,
`null` when it raises. The second component is the outcome of that gateway call. This is
not what `routes/cart.js` does. -/
def gatewayDetailItem (svc : ProductService) (item : CartItem) (now : Nat)
    (response : HttpResult (Option RawProduct)) (random : Nat → ℚ) (storeTime : Nat) :
    DetailedItem × Outcome :=
  let out := svc.getProductById item.productId now response random storeTime
  ({ item := item,
     product :=
       match out.result with
       | .ok product => product
       | .error _ => JsVal.null },
   out)

/-- A cart store with two users: `u1` has two items in cart `c1`, `u2` has one in `c2`. -/
def exampleCarts : CartStore :=
  { carts := [{ id := "c1", userId := "u1" }, { id := "c2", userId := "u2" }],
    items := [
      { id := "i1", cartId := "c1", productId := "1", quantity := 2 },
      { id := "i2", cartId := "c2", productId := "1", quantity := 1 },
      { id := "i3", cartId := "c1", productId := "2", quantity := 5 }] }

/-- A catalog that knows product `1` only: every other lookup is rejected. -/
def exampleCatalog (url : String) : HttpResult JsVal :=
  if url = "https://dummyjson.com/products/1" then
    HttpResult.resolved (JsVal.obj [("id", JsVal.num 1), ("title", JsVal.str "Mascara")])
  else HttpResult.rejected

/-- A cart environment with the given fresh ids and the example catalog. -/
def exampleCartEnv (newCartId newItemId : String) : CartEnv :=
  { newCartId := newCartId, newItemId := newItemId, http := exampleCatalog }

/-- A store with one user who has no address yet, and no orders. -/
def exampleStore : Store :=
  { users := [{ id := "u1", username := "alice", email := "alice@example.com",
                password := "hash", address := JsVal.null }],
    orders := [] }

/-- The two cart items of the scenario. -/
def exampleRows : List CartItemInput :=
  [{ productId := ProductRef.str "1", quantity := 2, price := 10,
     extra := [("name", JsVal.str "Oxford Shirt")] },
   { productId := ProductRef.num 2, quantity := 1, price := 5, extra := [] }]

/-- The checkout request of the scenario: two items, total 25. -/
def exampleBody : CheckoutBody :=
  { cartItems := some [
      some { productId := ProductRef.str "1", quantity := 2, price := 10,
             extra := [("name", JsVal.str "Oxford Shirt")] },
      some { productId := ProductRef.num 2, quantity := 1, price := 5, extra := [] }],
    total := some 25,
    shippingAddress := JsVal.str "1 Main Street",
    billingAddress := JsVal.str "1 Main Street",
    paymentMethod := JsVal.str "card",
    userId := some "u1" }

/-- The request of the scenario with the cart replaced by `[null]`. -/
def nullItemBody : CheckoutBody :=
  { exampleBody with cartItems := some [none] }

/-- A checkout environment with the given payment draw. -/
def exampleEnv (draw : ℚ) : CheckoutEnv :=
  { paymentDraw := draw, now := 1700000000000, paymentSuffix := "k3j9x0q1z", orderId := "o1" }

/-- A store holding two orders of the user `u1`, the first confirmed, the second failed. -/
def exampleOrders : Store :=
  { users := exampleStore.users,
    orders := [
      checkoutOrder (exampleEnv (1 / 2)) exampleBody "u1" exampleRows 25
        { success := true, paymentId := some "PAY-1-abc", message := "ok" },
      { checkoutOrder (exampleEnv (1 / 2)) exampleBody "u1" [] 25
          { success := false, paymentId := none, message := "Payment failed" } with
        id := "o2" }] }

/-- A world in which every endpoint answers with a small well-formed body. -/
def exampleWorld (now storeTime : Nat) : World :=
  { now := now,
    listResponse := .resolved (some { products := some [] }),
    productResponse := .rejected,
    categoriesResponse := .resolved (JsVal.arr [JsVal.str "beauty", JsVal.str "mens-shoes"]),
    random := fun _ => 0,
    storeTime := storeTime }

/-- A catalog record of the external API. -/
def exampleRaw : RawProduct :=
  { id := 7, title := "Oxford Shirt", brand := none, price := 25, category := some "mens-shirts",
    images := some ["a.png", "b.png"], description := "A shirt", stock := 3, rating := 4,
    discountPercentage := 10, thumbnail := "t.png" }

/-- A world whose listing endpoint answers with `exampleRaw` and whose draws are all `3/4`. -/
def exampleListWorld (now storeTime : Nat) : World :=
  { now := now,
    listResponse := .resolved (some { products := some [exampleRaw] }),
    productResponse := .resolved (some exampleRaw),
    categoriesResponse := .rejected,
    random := fun _ => 3 / 4,
    storeTime := storeTime }

/-- The product object the listing methods build from `exampleRaw` with the draw `3/4`. -/
def exampleProduct : JsVal :=
  JsVal.obj [
    ("id", JsVal.num 7),
    ("name", JsVal.str "Oxford Shirt"),
    ("brand", JsVal.str "Unknown"),
    ("price", JsVal.num 25),
    ("gender", JsVal.str "men"),
    ("category", JsVal.str "mens-shirts"),
    ("image", JsVal.str "a.png"),
    ("description", JsVal.str "A shirt"),
    ("sizes", jsStrings ["XS", "S", "M", "L", "XL", "XXL"]),
    ("colors", jsStrings ["black", "white", "red", "blue", "green"]),
    ("inStock", JsVal.bool true),
    ("stock", JsVal.num 3),
    ("rating", JsVal.num 4),
    ("discountPercentage", JsVal.num 10),
    ("thumbnail", JsVal.str "t.png")]

/-- The service right after its first `getCategories()` call, stored at time 1005. -/
def warmService : ProductService :=
  (Request.categories.run (exampleWorld 1000 1005)
    (ProductService.new "https://dummyjson.com/products/")).service

/-- A service with one entry already cached, used to instantiate the theorems. -/
def exampleService : ProductService :=
  { apiUrl := "https://dummyjson.com/products",
    cache := [("b", { data := JsVal.arr [], timestamp := 0 })] }

/-- A world in which the categories endpoint resolves with a `null` body and the listing
endpoint with a body that has no `products` field. -/
def emptyBodyWorld (now storeTime : Nat) : World :=
  { now := now,
    listResponse := .resolved (some { products := none }),
    productResponse := .rejected,
    categoriesResponse := .resolved JsVal.null,
    random := fun _ => 0,
    storeTime := storeTime }

/-- A cart item for the product of `exampleRaw`. -/
def exampleItem : CartItem :=
  { id := "i7", cartId := "c1", productId := "7", quantity := 1 }

/-- The external catalog seen through plain `axios.get`: it answers the URL of product `7`
with the JSON body of `exampleRaw` and rejects every other request. -/
def rawCatalog (url : String) : HttpResult JsVal :=
  if url = "https://dummyjson.com/products/7" then HttpResult.resolved exampleRaw.toJs
  else HttpResult.rejected

/-- The gateway right after `getProductById("7")` was answered with `exampleRaw`, stored at
time 1001. -/
def warmProductService : ProductService :=
  ((ProductService.new "https://dummyjson.com/products").getProductById "7" 1000
    (.resolved (some exampleRaw)) (fun _ => 3 / 4) 1001).service

/-- A user store with two users: `u1` has an address on file, `u2` has none. -/
def exampleUsers : Store :=
  { users := [
      { id := "u1", username := "alice", email := "alice@example.com", password := "h1",
        address := JsVal.str "9 Old Road" },
      { id := "u2", username := "bob", email := "bob@example.com", password := "h2",
        address := JsVal.null }],
    orders := [] }

/-! ## Lemmas on `JsMap` -/

theorem JsMap.get_set_self {β : Type} (m : JsMap β) (key : String) (v : β) :
    (m.set key v).get key = some v := by
  induction m with
  | nil => simp [JsMap.set, JsMap.get]
  | cons hd tl ih =>
    obtain ⟨k, w⟩ := hd
    by_cases h : k = key
    · simp [JsMap.set, JsMap.get, h]
    · simp [JsMap.set, JsMap.get, h, ih]

theorem JsMap.get_set_other {β : Type} (m : JsMap β) (key key' : String) (v : β)
    (h : key' ≠ key) : (m.set key v).get key' = m.get key' := by
  induction m with
  | nil => simp [JsMap.set, JsMap.get, Ne.symm h]
  | cons hd tl ih =>
    obtain ⟨k, w⟩ := hd
    by_cases hk : k = key
    · subst hk
      simp [JsMap.set, JsMap.get, Ne.symm h]
    · by_cases hk' : k = key'
      · subst hk'
        simp [JsMap.set, JsMap.get, h]
      · simp [JsMap.set, JsMap.get, hk, hk', ih]

theorem JsMap.get_delete_self {β : Type} (m : JsMap β) (key : String) :
    (m.delete key).get key = none := by
  induction m with
  | nil => simp [JsMap.delete, JsMap.get]
  | cons hd tl ih =>
    obtain ⟨k, w⟩ := hd
    by_cases h : k = key
    · simp [JsMap.delete, h, ih]
    · simp [JsMap.delete, JsMap.get, h, ih]

theorem JsMap.get_delete_other {β : Type} (m : JsMap β) (key key' : String)
    (h : key' ≠ key) : (m.delete key).get key' = m.get key' := by
  induction m with
  | nil => simp [JsMap.delete, JsMap.get]
  | cons hd tl ih =>
    obtain ⟨k, w⟩ := hd
    by_cases hk : k = key
    · subst hk
      simp [JsMap.delete, JsMap.get, Ne.symm h, ih]
    · by_cases hk' : k = key'
      · subst hk'
        simp [JsMap.delete, JsMap.get, h]
      · simp [JsMap.delete, JsMap.get, hk, hk', ih]

theorem JsMap.delete_of_get_none {β : Type} (m : JsMap β) (key : String)
    (h : m.get key = none) : m.delete key = m := by
  induction m with
  | nil => simp [JsMap.delete]
  | cons hd tl ih =>
    obtain ⟨k, w⟩ := hd
    by_cases hk : k = key
    · simp [JsMap.get, hk] at h
    · simp only [JsMap.get, hk, if_false] at h
      simp [JsMap.delete, hk, ih h]

/-! ## Lemmas on the TTL cache -/

theorem CacheEntry.fresh_iff (e : CacheEntry) (now : Nat) :
    e.fresh now = true ↔ (now : Int) - (e.timestamp : Int) < (cacheTimeout : Int) := by
  simp [CacheEntry.fresh]

theorem ProductService.getFromCache_hit (svc : ProductService) (key : String) (now : Nat)
    (e : CacheEntry) (hget : svc.cache.get key = some e) (hfresh : e.fresh now = true) :
    svc.getFromCache key now = (e.data, svc) := by
  simp [ProductService.getFromCache, hget, hfresh]

theorem ProductService.getFromCache_stale (svc : ProductService) (key : String) (now : Nat)
    (e : CacheEntry) (hget : svc.cache.get key = some e) (hstale : e.fresh now = false) :
    svc.getFromCache key now = (JsVal.null, { svc with cache := svc.cache.delete key }) := by
  simp [ProductService.getFromCache, hget, hstale]

theorem ProductService.getFromCache_absent (svc : ProductService) (key : String) (now : Nat)
    (hget : svc.cache.get key = none) :
    svc.getFromCache key now = (JsVal.null, svc) := by
  simp [ProductService.getFromCache, hget, JsMap.delete_of_get_none _ _ hget]

theorem ProductService.getFromCache_get_other (svc : ProductService) (key key' : String)
    (now : Nat) (h : key' ≠ key) :
    (svc.getFromCache key now).2.cache.get key' = svc.cache.get key' := by
  unfold ProductService.getFromCache
  cases hget : svc.cache.get key with
  | none => simp [JsMap.get_delete_other _ _ _ h]
  | some e =>
    by_cases hf : e.fresh now = true
    · simp [hf]
    · simp [hf, JsMap.get_delete_other _ _ _ h]

theorem ProductService.setCache_get_self (svc : ProductService) (key : String) (data : JsVal)
    (now : Nat) :
    (svc.setCache key data now).cache.get key = some { data := data, timestamp := now } := by
  simp [ProductService.setCache, JsMap.get_set_self]

theorem ProductService.setCache_get_other (svc : ProductService) (key key' : String)
    (data : JsVal) (now : Nat) (h : key' ≠ key) :
    (svc.setCache key data now).cache.get key' = svc.cache.get key' := by
  simp [ProductService.setCache, JsMap.get_set_other _ _ _ _ h]

theorem CacheCall.run_get_other (svc : ProductService) (call : CacheCall) (k : String)
    (h : call.key ≠ k) : (call.run svc).cache.get k = svc.cache.get k := by
  cases call with
  | get key now =>
    exact ProductService.getFromCache_get_other svc key k now (Ne.symm h)
  | set key data now =>
    exact ProductService.setCache_get_other svc key k data now (Ne.symm h)

theorem runCalls_get_other (calls : List CacheCall) (svc : ProductService) (k : String)
    (h : ∀ call ∈ calls, call.key ≠ k) : (runCalls svc calls).cache.get k = svc.cache.get k := by
  induction calls generalizing svc with
  | nil => rfl
  | cons call rest ih =>
    have hrest : ∀ c ∈ rest, c.key ≠ k := fun c hc => h c (List.mem_cons_of_mem _ hc)
    have hcall : call.key ≠ k := h call (List.mem_cons_self _ _)
    simp only [runCalls, List.foldl_cons]
    have := ih (call.run svc) hrest
    simp only [runCalls] at this
    rw [this, CacheCall.run_get_other svc call k hcall]

/-! ## Lemmas on the checkout pipeline -/

theorem validateCart_eq_none_iff (body : CheckoutBody) :
    validateCart body = none ↔
      (∃ item rest, body.cartItems = some (item :: rest)) ∧ ∃ t, body.total = some t ∧ 0 < t := by
  unfold validateCart
  rcases hc : body.cartItems with _ | (_ | ⟨item, rest⟩)
  · simp
  · simp
  · rcases ht : body.total with _ | t
    · simp
    · by_cases h : 0 < t
      · have h0 : t ≠ 0 := ne_of_gt h
        have h1 : ¬ t ≤ 0 := not_le.mpr h
        simp [h, h0, h1]
      · have h1 : t ≤ 0 := not_lt.mp h
        simp [h, h1]

theorem Store.setUserAddress_orders (store : Store) (id : String) (address : JsVal) :
    (store.setUserAddress id address).orders = store.orders := rfl

theorem cartRows_map_some (rows : List CartItemInput) :
    cartRows (rows.map some) = some rows := by
  induction rows with
  | nil => rfl
  | cons r rest ih => simp [cartRows, ih]

theorem cartRows_eq_some (items : List (Option CartItemInput)) :
    ∀ rows, cartRows items = some rows → items = rows.map some := by
  induction items with
  | nil =>
    intro rows h
    simp [cartRows] at h
    subst h
    rfl
  | cons x xs ih =>
    intro rows h
    cases x with
    | none => simp [cartRows] at h
    | some item =>
      cases hxs : cartRows xs with
      | none => simp [cartRows, hxs] at h
      | some rs =>
        simp [cartRows, hxs] at h
        subst h
        simp [ih rs hxs]

theorem cartRows_eq_none_iff (items : List (Option CartItemInput)) :
    cartRows items = none ↔ none ∈ items := by
  induction items with
  | nil => simp [cartRows]
  | cons x xs ih =>
    cases x with
    | none => simp [cartRows]
    | some item =>
      cases hxs : cartRows xs with
      | none =>
        have := ih.mp hxs
        simp [cartRows, hxs, this]
      | some rs =>
        have hno : none ∉ xs := fun h => by
          rw [ih.mpr h] at hxs
          cases hxs
        simp [cartRows, hxs, hno]

theorem cartRows_cons_length (x : Option CartItemInput) (xs : List (Option CartItemInput))
    (rows : List CartItemInput) (h : cartRows (x :: xs) = some rows) :
    ∃ item rest, rows = item :: rest := by
  have := cartRows_eq_some (x :: xs) rows h
  cases rows with
  | nil => simp at this
  | cons item rest => exact ⟨item, rest, rfl⟩

theorem processCheckout_accepted (store : Store) (body : CheckoutBody) (env : CheckoutEnv)
    (item : Option CartItemInput) (rest : List (Option CartItemInput))
    (rows : List CartItemInput) (t : ℚ) (uid : String) (user : User)
    (hitems : body.cartItems = some (item :: rest)) (hrows : cartRows (item :: rest) = some rows)
    (htotal : body.total = some t)
    (hpos : 0 < t) (hship : body.shippingAddress.truthy = true)
    (hbill : body.billingAddress.truthy = true) (hpay : body.paymentMethod.truthy = true)
    (huid : body.userId = some uid) (hne : uid ≠ "") (huser : store.findUser uid = some user) :
    processCheckout store body env =
      { status := 200, message := "Order processed successfully",
        order := some (checkoutOrder env body uid rows t
          (processPayment t body.paymentMethod env)).summary,
        store := (if !user.address.truthy then store.setUserAddress uid body.shippingAddress
          else store).createOrder (checkoutOrder env body uid rows t
            (processPayment t body.paymentMethod env)),
        payments := [(t, body.paymentMethod)] } := by
  have hv : validateCart body = none :=
    (validateCart_eq_none_iff body).mpr ⟨⟨item, rest, hitems⟩, t, htotal, hpos⟩
  simp [processCheckout, hv, hitems, hrows, htotal, hship, hbill, hpay, huid, hne, huser]

theorem processCheckout_null_item (store : Store) (body : CheckoutBody) (env : CheckoutEnv)
    (item : Option CartItemInput) (rest : List (Option CartItemInput))
    (t : ℚ) (uid : String) (user : User)
    (hitems : body.cartItems = some (item :: rest)) (hrows : cartRows (item :: rest) = none)
    (htotal : body.total = some t)
    (hpos : 0 < t) (hship : body.shippingAddress.truthy = true)
    (hbill : body.billingAddress.truthy = true) (hpay : body.paymentMethod.truthy = true)
    (huid : body.userId = some uid) (hne : uid ≠ "") (huser : store.findUser uid = some user) :
    processCheckout store body env =
      { status := 500, message := "Internal server error", order := none,
        store := if !user.address.truthy then store.setUserAddress uid body.shippingAddress
          else store,
        payments := [(t, body.paymentMethod)] } := by
  have hv : validateCart body = none :=
    (validateCart_eq_none_iff body).mpr ⟨⟨item, rest, hitems⟩, t, htotal, hpos⟩
  simp [processCheckout, hv, hitems, hrows, htotal, hship, hbill, hpay, huid, hne, huser]

theorem processCheckout_orders_accepted (store : Store) (uid : String) (address : JsVal)
    (user : User) (order : Order) :
    ((if !user.address.truthy then store.setUserAddress uid address
      else store).createOrder order).orders = store.orders ++ [order] := by
  by_cases ha : user.address.truthy = true <;> simp [ha, Store.createOrder,
    Store.setUserAddress]

theorem processCheckout_orders_null_item (store : Store) (uid : String) (address : JsVal)
    (user : User) :
    (if !user.address.truthy then store.setUserAddress uid address else store).orders =
      store.orders := by
  by_cases ha : user.address.truthy = true <;> simp [ha, Store.setUserAddress]

theorem Store.findUser_eq_none_iff (store : Store) (uid : String) :
    store.findUser uid = none ↔ ¬ ∃ u ∈ store.users, u.id = uid := by
  simp [Store.findUser, List.find?_eq_none]

theorem Store.findUser_some_mem (store : Store) (uid : String) (user : User)
    (h : store.findUser uid = some user) : ∃ u ∈ store.users, u.id = uid := by
  by_contra hno
  rw [(Store.findUser_eq_none_iff store uid).mpr hno] at h
  cases h

theorem processCheckout_cases (store : Store) (body : CheckoutBody) (env : CheckoutEnv) :
    (∃ item rest t uid user,
      body.cartItems = some (item :: rest) ∧ body.total = some t ∧ 0 < t ∧
      body.shippingAddress.truthy = true ∧ body.billingAddress.truthy = true ∧
      body.paymentMethod.truthy = true ∧ body.userId = some uid ∧ uid ≠ "" ∧
      store.findUser uid = some user) ∨
    ((∃ item rest t uid,
        body.cartItems = some (item :: rest) ∧ body.total = some t ∧ 0 < t ∧
        body.shippingAddress.truthy = true ∧ body.billingAddress.truthy = true ∧
        body.paymentMethod.truthy = true ∧ body.userId = some uid ∧ uid ≠ "" ∧
        store.findUser uid = none) ∧
      processCheckout store body env =
        { status := 404, message := "User not found", order := none, store := store,
          payments := [] }) ∨
    ((¬ ∃ item rest t uid,
        body.cartItems = some (item :: rest) ∧ body.total = some t ∧ 0 < t ∧
        body.shippingAddress.truthy = true ∧ body.billingAddress.truthy = true ∧
        body.paymentMethod.truthy = true ∧ body.userId = some uid ∧ uid ≠ "") ∧
      ∃ message, processCheckout store body env =
        { status := 400, message := message, order := none, store := store,
          payments := [] }) := by
  by_cases hv : validateCart body = none
  · obtain ⟨⟨item, rest, hitems⟩, t, htotal, hpos⟩ := (validateCart_eq_none_iff body).mp hv
    by_cases hship : body.shippingAddress.truthy = true
    · by_cases hbill : body.billingAddress.truthy = true
      · by_cases hpay : body.paymentMethod.truthy = true
        · rcases huid : body.userId with _ | uid
          · right; right
            refine ⟨?_, _, by simp [processCheckout, hv, hship, hbill, hpay, huid]; rfl⟩
            rintro ⟨_, _, _, _, _, _, _, _, _, _, h, _⟩
            simp [huid] at h
          · by_cases hne : uid = ""
            · right; right
              refine ⟨?_, _, by simp [processCheckout, hv, hship, hbill, hpay, huid, hne]; rfl⟩
              rintro ⟨_, _, _, uid', _, _, _, _, _, _, h, h'⟩
              cases h
              exact h' hne
            · rcases huser : store.findUser uid with _ | user
              · right; left
                refine ⟨⟨item, rest, t, uid, hitems, htotal, hpos, hship, hbill, hpay,
                  rfl, hne, huser⟩, ?_⟩
                simp [processCheckout, hv, hship, hbill, hpay, huid, hne, huser]
              · left
                exact ⟨item, rest, t, uid, user, hitems, htotal, hpos, hship, hbill, hpay,
                  rfl, hne, huser⟩
        · right; right
          refine ⟨?_, _, by simp [processCheckout, hv, hship, hbill, hpay]; rfl⟩
          rintro ⟨_, _, _, _, _, _, _, _, _, h, _, _⟩
          exact hpay h
      · right; right
        refine ⟨?_, _, by simp [processCheckout, hv, hship, hbill]; rfl⟩
        rintro ⟨_, _, _, _, _, _, _, _, h, _, _, _⟩
        exact hbill h
    · right; right
      refine ⟨?_, _, by simp [processCheckout, hv, hship]; rfl⟩
      rintro ⟨_, _, _, _, _, _, _, h, _, _, _, _⟩
      exact hship h
  · right; right
    constructor
    · rintro ⟨item, rest, t, _, hitems, htotal, hpos, _⟩
      exact hv ((validateCart_eq_none_iff body).mpr ⟨⟨item, rest, hitems⟩, t, htotal, hpos⟩)
    · rcases hr : validateCart body with _ | ⟨st, msg⟩
      · exact absurd hr hv
      · have hst : st = 400 := by
          unfold validateCart at hr
          split at hr
          · cases hr; rfl
          · cases hr; rfl
          · split at hr
            · cases hr; rfl
            · split at hr
              · cases hr; rfl
              · cases hr
        exact ⟨msg, by simp [processCheckout, hr, hst]⟩

theorem updateOrderRow_eq_none_iff (orders : List Order) (id status : String) :
    updateOrderRow orders id status = none ↔ ¬ ∃ o ∈ orders, o.id = id := by
  induction orders with
  | nil => simp [updateOrderRow]
  | cons o rest ih =>
    by_cases h : o.id = id
    · simp [updateOrderRow, h]
    · cases hr : updateOrderRow rest id status with
      | none =>
        have := ih.mp hr
        simp only [not_exists, not_and] at this
        simp [updateOrderRow, h, hr]
        exact fun x hx => this x hx
      | some r =>
        have hex : ∃ x ∈ rest, x.id = id := by
          by_contra hno
          rw [ih.mpr hno] at hr
          cases hr
        obtain ⟨x, hx, hxid⟩ := hex
        simp [updateOrderRow, h, hr]
        exact ⟨x, hx, hxid⟩

theorem updateOrderRow_some (orders : List Order) (id status : String) (orders' : List Order)
    (updated : Order) (h : updateOrderRow orders id status = some (orders', updated)) :
    ∃ pre o post, orders = pre ++ o :: post ∧ o.id = id ∧ (∀ x ∈ pre, x.id ≠ id) ∧
      orders' = pre ++ { o with status := status } :: post ∧
      updated = { o with status := status } := by
  induction orders generalizing orders' updated with
  | nil => simp [updateOrderRow] at h
  | cons o rest ih =>
    by_cases hid : o.id = id
    · subst hid
      simp only [updateOrderRow, if_true, Option.some.injEq, Prod.mk.injEq] at h
      refine ⟨[], o, rest, rfl, rfl, by simp, ?_, h.2.symm⟩
      rw [← h.1]
      rfl
    · cases hr : updateOrderRow rest id status with
      | none => simp [updateOrderRow, hid, hr] at h
      | some r =>
        obtain ⟨rest', upd⟩ := r
        simp only [updateOrderRow, hid, if_false, hr, Option.some.injEq, Prod.mk.injEq] at h
        obtain ⟨pre, o', post, hsplit, ho', hpre, hrest', hupd⟩ := ih rest' upd hr
        refine ⟨o :: pre, o', post, by simp [hsplit], ho', ?_, ?_, ?_⟩
        · intro x hx
          rcases List.mem_cons.mp hx with hx | hx
          · rw [hx]
            exact hid
          · exact hpre x hx
        · rw [← h.1, hrest']
          rfl
        · rw [← h.2, hupd]

theorem updateOrderStatus_of_invalid (store : Store) (orderId s : String)
    (hs : s ∉ validStatuses) :
    updateOrderStatus store orderId (some s) =
      { status := 400, message := "Invalid status", order := none, store := store } := by
  unfold updateOrderStatus
  simp [hs]

theorem updateOrderStatus_of_missing_row (store : Store) (orderId s : String)
    (hs : s ∈ validStatuses) (hr : updateOrderRow store.orders orderId s = none) :
    updateOrderStatus store orderId (some s) =
      { status := 404, message := "Order not found", order := none, store := store } := by
  unfold updateOrderStatus
  simp [hs, hr]

theorem updateOrderStatus_of_row (store : Store) (orderId s : String)
    (orders' : List Order) (updated : Order)
    (hs : s ∈ validStatuses) (hr : updateOrderRow store.orders orderId s = some (orders', updated)) :
    updateOrderStatus store orderId (some s) =
      { status := 200, message := "Order status updated successfully",
        order := some (updated.id, updated.status),
        store := { store with orders := orders' } } := by
  unfold updateOrderStatus
  simp [hs, hr]

/-! ## Properties of the TTL cache -/

/-- C1: a value written with `setCache(k, v)` at time `T` is returned unchanged by
`getFromCache(k)` at any time `T'` with `T ≤ T'` and `T' - T < 300000`, whatever calls on other
keys happened in between, and the entry `{ data: v, timestamp: T }` is still stored under `k`
afterwards (the read leaves the whole cache as it was). This holds for every `v`,
non-null values in particular. -/
theorem cache_read_within_ttl (svc : ProductService) (k : String) (v : JsVal) (T T' : Nat)
    (others : List CacheCall) (hothers : ∀ call ∈ others, call.key ≠ k)
    (hle : T ≤ T') (hlt : T' - T < cacheTimeout) :
    ((runCalls (svc.setCache k v T) others).getFromCache k T').1 = v ∧
    ((runCalls (svc.setCache k v T) others).getFromCache k T').2 =
      runCalls (svc.setCache k v T) others ∧
    ((runCalls (svc.setCache k v T) others).getFromCache k T').2.cache.get k =
      some { data := v, timestamp := T } := by
  have hget : (runCalls (svc.setCache k v T) others).cache.get k =
      some { data := v, timestamp := T } := by
    rw [runCalls_get_other others _ k hothers, ProductService.setCache_get_self]
  have hfresh : CacheEntry.fresh { data := v, timestamp := T } T' = true := by
    rw [CacheEntry.fresh_iff]
    simp only
    omega
  rw [ProductService.getFromCache_hit _ k T' _ hget hfresh]
  exact ⟨rfl, rfl, hget⟩

/-- C1 at a concrete run: `"a"` is written at 1000, another key is written and read (and
evicted) in between, and `"a"` is read at 300999, one millisecond before expiry. -/
theorem cache_read_within_ttl_witness :
    (1000 ≤ 300999 ∧ 300999 - 1000 < cacheTimeout) ∧
    ((runCalls (exampleService.setCache "a" (JsVal.num 0) 1000)
        [CacheCall.set "b" JsVal.null 2000, CacheCall.get "b" 400000]).getFromCache
          "a" 300999).1 = JsVal.num 0 :=
  ⟨⟨by decide, by decide⟩,
    (cache_read_within_ttl exampleService "a" (JsVal.num 0) 1000 300999
      [CacheCall.set "b" JsVal.null 2000, CacheCall.get "b" 400000]
      (by simp [CacheCall.key]) (by decide) (by decide)).1⟩

/-- C2: after `setCache(k, v)` at `T`, a `getFromCache(k)` at `T'` with `T' - T ≥ 300000`
(boundary included) returns `null`, removes the entry of `k` and leaves the entry of every other
key as it was; a following `setCache(k, v2)` at `T'` repopulates the key, so that
`getFromCache(k)` at any `T''` with `T' ≤ T''` and `T'' - T' < 300000` returns `v2`. -/
theorem cache_read_after_ttl (svc : ProductService) (k : String) (v v2 : JsVal)
    (T T' T'' : Nat) (hexp : cacheTimeout ≤ T' - T) (hle : T' ≤ T'')
    (hlt : T'' - T' < cacheTimeout) :
    ((svc.setCache k v T).getFromCache k T').1 = JsVal.null ∧
    ((svc.setCache k v T).getFromCache k T').2.cache.get k = none ∧
    (∀ k', k' ≠ k → ((svc.setCache k v T).getFromCache k T').2.cache.get k' =
      (svc.setCache k v T).cache.get k') ∧
    ((((svc.setCache k v T).getFromCache k T').2.setCache k v2 T').cache.get k =
      some { data := v2, timestamp := T' }) ∧
    ((((svc.setCache k v T).getFromCache k T').2.setCache k v2 T').getFromCache k T'').1 = v2 := by
  have hpos : 0 < cacheTimeout := by decide
  have hget := ProductService.setCache_get_self svc k v T
  have hstale : CacheEntry.fresh { data := v, timestamp := T } T' = false := by
    rw [Bool.eq_false_iff, Ne, CacheEntry.fresh_iff]
    simp only
    omega
  have hfresh : CacheEntry.fresh { data := v2, timestamp := T' } T'' = true := by
    rw [CacheEntry.fresh_iff]
    simp only
    omega
  rw [ProductService.getFromCache_stale _ k T' _ hget hstale]
  refine ⟨rfl, JsMap.get_delete_self _ _, ?_, ?_, ?_⟩
  · intro k' hk'
    exact JsMap.get_delete_other _ _ _ hk'
  · exact ProductService.setCache_get_self _ k v2 T'
  · rw [ProductService.getFromCache_hit _ k T'' _
      (ProductService.setCache_get_self _ k v2 T') hfresh]

/-- C2 at a concrete run: written at 1000, read exactly 300000 ms later (expired), rewritten,
and read again 299999 ms after the rewrite. -/
theorem cache_read_after_ttl_witness :
    (cacheTimeout ≤ 301000 - 1000 ∧ 301000 ≤ 600999 ∧ 600999 - 301000 < cacheTimeout) ∧
    ((exampleService.setCache "a" (JsVal.str "v") 1000).getFromCache "a" 301000).1 = JsVal.null ∧
    ((((exampleService.setCache "a" (JsVal.str "v") 1000).getFromCache "a" 301000).2.setCache
      "a" (JsVal.str "w") 301000).getFromCache "a" 600999).1 = JsVal.str "w" :=
  have h := cache_read_after_ttl exampleService "a" (JsVal.str "v") (JsVal.str "w")
    1000 301000 600999 (by decide) (by decide) (by decide)
  ⟨⟨by decide, by decide, by decide⟩, h.1, h.2.2.2.2⟩

/-! ## Lemmas on the catalog gateway -/

theorem ProductService.getFromCache_miss (svc : ProductService) (key : String) (now : Nat)
    (hmiss : ∀ e, svc.cache.get key = some e → e.fresh now = false) :
    (svc.getFromCache key now).1 = JsVal.null := by
  unfold ProductService.getFromCache
  cases hget : svc.cache.get key with
  | none => rfl
  | some e => simp [hmiss e hget]

theorem fetchProductList_truthy (response : HttpResult (Option ListBody)) (random : Nat → ℚ)
    (v : JsVal) (h : fetchProductList response random = some v) : v.truthy = true := by
  unfold fetchProductList at h
  split at h
  · cases h
  · cases h
  · split at h
    · cases h
    · cases h
      rfl

theorem fetchProductDetail_truthy (response : HttpResult (Option RawProduct))
    (random : Nat → ℚ) (v : JsVal) (h : fetchProductDetail response random = some v) :
    v.truthy = true := by
  unfold fetchProductDetail at h
  split at h
  · cases h
  · cases h
  · unfold transformProductDetail at h
    split at h
    · cases h
    · cases h
      rfl

theorem fetchCategories_truthy (response : HttpResult JsVal) (v : JsVal)
    (h : fetchCategories response = some v) : v.truthy = true := by
  unfold fetchCategories at h
  split at h
  · cases h
  · rename_i data
    cases h
    by_cases hd : data.truthy = true
    · rw [if_pos hd]
      exact hd
    · rw [if_neg hd]
      rfl

theorem Request.fetch_truthy (req : Request) (w : World) (v : JsVal)
    (h : req.fetch w = some v) : v.truthy = true := by
  cases req with
  | allProducts limit skip => exact fetchProductList_truthy _ _ v h
  | byCategory category limit skip => exact fetchProductList_truthy _ _ v h
  | byId id => exact fetchProductDetail_truthy _ _ v h
  | search query limit skip => exact fetchProductList_truthy _ _ v h
  | categories => exact fetchCategories_truthy _ v h

theorem Request.run_of_cached (req : Request) (w : World) (svc : ProductService)
    (e : CacheEntry) (hget : svc.cache.get req.cacheKey = some e)
    (hfresh : e.fresh w.now = true) (htruthy : e.data.truthy = true) :
    req.run w svc = { result := .ok e.data, service := svc, requests := [] } := by
  cases req <;>
    simp only [Request.cacheKey] at hget <;>
    simp [Request.run, ProductService.getAllProducts, ProductService.getProductsByCategory,
      ProductService.getProductById, ProductService.searchProducts,
      ProductService.getCategories, ProductService.getFromCache_hit _ _ _ e hget hfresh,
      htruthy]

theorem Request.run_of_fetched (req : Request) (w : World) (svc : ProductService) (v : JsVal)
    (hnull : (svc.getFromCache req.cacheKey w.now).1.truthy = false)
    (hfetch : req.fetch w = some v) :
    (req.run w svc).result = .ok v ∧
    (req.run w svc).requests.length = 1 ∧
    (req.run w svc).service =
      (svc.getFromCache req.cacheKey w.now).2.setCache req.cacheKey v w.storeTime := by
  cases req <;>
    simp only [Request.cacheKey] at hnull <;>
    simp only [Request.fetch] at hfetch <;>
    simp [Request.run, Request.cacheKey, ProductService.getAllProducts,
      ProductService.getProductsByCategory, ProductService.getProductById,
      ProductService.searchProducts, ProductService.getCategories, hnull, hfetch]

theorem Request.run_service (req : Request) (w : World) (svc : ProductService) :
    (req.run w svc).service = (svc.getFromCache req.cacheKey w.now).2 ∨
    ∃ v, req.fetch w = some v ∧
      (req.run w svc).service =
        (svc.getFromCache req.cacheKey w.now).2.setCache req.cacheKey v w.storeTime := by
  cases req <;>
    simp only [Request.run, Request.cacheKey, Request.fetch, ProductService.getAllProducts,
      ProductService.getProductsByCategory, ProductService.getProductById,
      ProductService.searchProducts, ProductService.getCategories] <;>
    split <;> try (left; rfl)
  all_goals
    split
    · rename_i v hv
      right
      exact ⟨v, hv, rfl⟩
    · left
      rfl

theorem ProductService.allTruthy_getFromCache (svc : ProductService) (key : String)
    (now : Nat) (h : svc.AllTruthy) : (svc.getFromCache key now).2.AllTruthy := by
  intro k e hk
  by_cases hkk : k = key
  · subst hkk
    unfold ProductService.getFromCache at hk
    cases hget : svc.cache.get k with
    | none =>
      rw [hget] at hk
      simp [JsMap.get_delete_self] at hk
    | some e' =>
      rw [hget] at hk
      by_cases hf : e'.fresh now = true
      · simp only [hf, if_true] at hk
        exact h k e hk
      · simp [hf, JsMap.get_delete_self] at hk
  · rw [ProductService.getFromCache_get_other svc key k now hkk] at hk
    exact h k e hk

theorem ProductService.allTruthy_setCache (svc : ProductService) (key : String) (data : JsVal)
    (now : Nat) (h : svc.AllTruthy) (hdata : data.truthy = true) :
    (svc.setCache key data now).AllTruthy := by
  intro k e hk
  by_cases hkk : k = key
  · subst hkk
    rw [ProductService.setCache_get_self] at hk
    cases hk
    exact hdata
  · rw [ProductService.setCache_get_other svc key k data now hkk] at hk
    exact h k e hk

theorem ProductService.Reachable.allTruthy {svc : ProductService} (h : svc.Reachable) :
    svc.AllTruthy := by
  induction h with
  | init productsUrl =>
    intro k e hk
    simp [ProductService.new, JsMap.get] at hk
  | call svc req w _ ih =>
    rcases Request.run_service req w svc with hs | ⟨v, hv, hs⟩
    · rw [hs]
      exact ProductService.allTruthy_getFromCache svc _ _ ih
    · rw [hs]
      exact ProductService.allTruthy_setCache _ _ _ _
        (ProductService.allTruthy_getFromCache svc _ _ ih) (Request.fetch_truthy req w v hv)
  | clear svc _ _ =>
    intro k e hk
    simp [ProductService.clearCache, JsMap.get] at hk

/-! ## Properties of the catalog gateway -/

/-- C3: in every state the service can reach, for each of the five gateway methods and all
parameters, if the cache holds a non-expired entry under the method's key
(`all_products_<limit>_<skip>`, `category_<category>_<limit>_<skip>`, `product_<id>`,
`search_<query>_<limit>_<skip>`, `categories`), the call returns the cached value, requests no
URL and leaves the service state, hence the cache, exactly as it was. -/
theorem gateway_hit_no_request (svc : ProductService) (hreach : svc.Reachable)
    (req : Request) (w : World) (e : CacheEntry)
    (hget : svc.cache.get req.cacheKey = some e) (hfresh : e.fresh w.now = true) :
    req.run w svc = { result := .ok e.data, service := svc, requests := [] } :=
  Request.run_of_cached req w svc e hget hfresh (hreach.allTruthy _ e hget)

/-- C4: for each gateway method and all parameters, if the cache holds no valid entry under
the method's key and the external request yields a mapped result `v`, the call requests exactly
one URL, returns `v` and stores `v` under the key with the time of the store; an identical call
whose lookup happens less than 300000 ms after the store returns the very same `v` (colours
included, whatever the new draws and responses are) with no request and no state change. -/
theorem gateway_miss_then_hit (req : Request) (w w' : World) (svc : ProductService) (v : JsVal)
    (hmiss : ∀ e, svc.cache.get req.cacheKey = some e → e.fresh w.now = false)
    (hfetch : req.fetch w = some v)
    (hle : w.storeTime ≤ w'.now) (hlt : w'.now - w.storeTime < cacheTimeout) :
    (req.run w svc).result = .ok v ∧
    (req.run w svc).requests.length = 1 ∧
    (req.run w svc).service.cache.get req.cacheKey =
      some { data := v, timestamp := w.storeTime } ∧
    req.run w' (req.run w svc).service =
      { result := .ok v, service := (req.run w svc).service, requests := [] } := by
  have hnull : (svc.getFromCache req.cacheKey w.now).1.truthy = false := by
    rw [ProductService.getFromCache_miss svc _ _ hmiss]
    rfl
  obtain ⟨hres, hreq, hsvc⟩ := Request.run_of_fetched req w svc v hnull hfetch
  have hget : (req.run w svc).service.cache.get req.cacheKey =
      some { data := v, timestamp := w.storeTime } := by
    rw [hsvc, ProductService.setCache_get_self]
  have hfresh : CacheEntry.fresh { data := v, timestamp := w.storeTime } w'.now = true := by
    rw [CacheEntry.fresh_iff]
    simp only
    omega
  exact ⟨hres, hreq, hget,
    Request.run_of_cached req w' _ _ hget hfresh (Request.fetch_truthy req w v hfetch)⟩

theorem exampleListWorld_fetch (now storeTime : Nat) :
    (Request.allProducts 100 0).fetch (exampleListWorld now storeTime) =
      some (JsVal.arr [exampleProduct]) := by
  have hfloor : ⌊(3 / 4 : ℚ) * 4⌋ = 3 := by norm_num
  have h1 : jsIncludes "mens-shirts" "shoes" = false := by decide
  have h2 : jsIncludes "mens-shirts" "watches" = false := by decide
  have h3 : jsIncludes "mens-shirts" "shirts" = true := by decide
  simp [Request.fetch, exampleListWorld, fetchProductList, transformProducts, transformProduct,
    exampleRaw, exampleProduct, brandOrUnknown, determineGender, firstImage, generateSizes,
    generateColors, jsSliceTo, commonColors, hfloor, h1, h2, h3]

theorem exampleService_miss (now : Nat) :
    ∀ e, exampleService.cache.get (Request.allProducts 100 0).cacheKey = some e →
      e.fresh now = false := by
  intro e h
  have hk : (Request.allProducts 100 0).cacheKey = "all_products_100_0" := by decide
  rw [hk] at h
  simp [exampleService, JsMap.get] at h

theorem warmService_get :
    warmService.cache.get Request.categories.cacheKey =
      some { data := JsVal.arr [JsVal.str "beauty", JsVal.str "mens-shoes"],
             timestamp := 1005 } := by
  rfl

/-- C3 at a concrete state: the service has answered one `getCategories()` call, stored at
1005; a second call at 200000 returns the stored array without any request. -/
theorem gateway_hit_no_request_witness :
    warmService.Reachable ∧
    Request.categories.run (exampleWorld 200000 200001) warmService =
      { result := .ok (JsVal.arr [JsVal.str "beauty", JsVal.str "mens-shoes"]),
        service := warmService, requests := [] } :=
  ⟨.call _ _ _ (.init _),
    gateway_hit_no_request warmService (.call _ _ _ (.init _)) Request.categories
      (exampleWorld 200000 200001) _ warmService_get (by decide)⟩

/-- C4 at a concrete state: `getAllProducts(100, 0)` misses, maps one record, and the same
call 299999 ms after the store is served from the cache. -/
theorem gateway_miss_then_hit_witness :
    (2000 ≤ 301999 ∧ 301999 - 2000 < cacheTimeout) ∧
    ((Request.allProducts 100 0).run (exampleListWorld 1000 2000) exampleService).result =
      .ok (JsVal.arr [exampleProduct]) ∧
    (Request.allProducts 100 0).run (exampleWorld 301999 302000)
        ((Request.allProducts 100 0).run (exampleListWorld 1000 2000) exampleService).service =
      { result := .ok (JsVal.arr [exampleProduct]),
        service :=
          ((Request.allProducts 100 0).run (exampleListWorld 1000 2000) exampleService).service,
        requests := [] } :=
  have h := gateway_miss_then_hit (Request.allProducts 100 0) (exampleListWorld 1000 2000)
    (exampleWorld 301999 302000) exampleService (JsVal.arr [exampleProduct])
    (exampleService_miss 1000) (exampleListWorld_fetch 1000 2000) (by decide) (by decide)
  ⟨⟨by decide, by decide⟩, h.1, h.2.2.2⟩

/-! ## Properties of the checkout pipeline -/

/-- C5: for every accepted checkout (the route answers 200) with client-supplied total `t`,
`t` is positive and the one order appended to the store has `subtotal = t`, `shipping = 10`,
`tax = t * 0.08` and `total = t + 10 + t * 0.08`, hence `total = subtotal + shipping + tax`;
`t = 100` gives tax 8 and total 118, `t = 25` gives tax 2 and total 37. The four fields are
functions of `t` alone: neither the cart items nor anything else enters them. -/
theorem checkout_totals (store : Store) (body : CheckoutBody) (env : CheckoutEnv) (t : ℚ)
    (htotal : body.total = some t) (hacc : (processCheckout store body env).status = 200) :
    0 < t ∧
    ∃ o, (processCheckout store body env).store.orders = store.orders ++ [o] ∧
      o.subtotal = t ∧ o.shipping = 10 ∧ o.tax = t * 0.08 ∧ o.total = t + 10 + t * 0.08 ∧
      o.total = o.subtotal + o.shipping + o.tax ∧
      (t = 100 → o.tax = 8 ∧ o.total = 118) ∧ (t = 25 → o.tax = 2 ∧ o.total = 37) := by
  rcases processCheckout_cases store body env with
    ⟨item, rest, t', uid, user, hitems, ht', hpos, hship, hbill, hpay, huid, hne, huser⟩ |
    ⟨_, h404⟩ | ⟨_, msg, h400⟩
  · have htt : t' = t := by
      rw [ht'] at htotal
      exact Option.some.inj htotal
    subst htt
    rcases hrows : cartRows (item :: rest) with _ | rows
    · rw [processCheckout_null_item store body env item rest t' uid user hitems hrows ht' hpos
        hship hbill hpay huid hne huser] at hacc
      cases hacc
    refine ⟨hpos, checkoutOrder env body uid rows t'
      (processPayment t' body.paymentMethod env), ?_, rfl, ?_, rfl, ?_, ?_, ?_, ?_⟩
    · rw [processCheckout_accepted store body env item rest rows t' uid user hitems hrows ht'
        hpos hship hbill hpay huid hne huser]
      by_cases ha : user.address.truthy = true <;> simp [ha, Store.createOrder,
        Store.setUserAddress]
    · norm_num [checkoutOrder]
    · norm_num [checkoutOrder]
    · norm_num [checkoutOrder]
    · intro h100
      subst h100
      norm_num [checkoutOrder]
    · intro h25
      subst h25
      norm_num [checkoutOrder]
  · rw [h404] at hacc
    cases hacc
  · rw [h400] at hacc
    cases hacc

/-- C6, amended: for every checkout request that passes validation, whose `cartItems` are
all objects (no element is `null`) and whose user exists, exactly one order is appended to the
store and the payment step runs once, whatever it returns: when it reports failure the order
has `status = "failed"`, `paymentStatus = "failed"` and `paymentId = null`; when it reports
success with identifier `p` the order has `status = "confirmed"`, `paymentStatus = "paid"`
and `paymentId = p`. -/
theorem checkout_order_always_recorded (store : Store) (body : CheckoutBody)
    (env : CheckoutEnv) (item : CartItemInput) (rest : List CartItemInput) (t : ℚ)
    (uid : String) (user : User)
    (hitems : body.cartItems = some ((item :: rest).map some)) (htotal : body.total = some t)
    (hpos : 0 < t) (hship : body.shippingAddress.truthy = true)
    (hbill : body.billingAddress.truthy = true) (hpay : body.paymentMethod.truthy = true)
    (huid : body.userId = some uid) (hne : uid ≠ "") (huser : store.findUser uid = some user) :
    (processCheckout store body env).status = 200 ∧
    (processCheckout store body env).payments = [(t, body.paymentMethod)] ∧
    ∃ o, (processCheckout store body env).store.orders = store.orders ++ [o] ∧
      ((processPayment t body.paymentMethod env).success = false →
        o.status = "failed" ∧ o.paymentStatus = "failed" ∧ o.paymentId = none) ∧
      (∀ p, (processPayment t body.paymentMethod env).success = true →
        (processPayment t body.paymentMethod env).paymentId = some p →
        o.status = "confirmed" ∧ o.paymentStatus = "paid" ∧ o.paymentId = some p) := by
  have hitems' : body.cartItems = some (some item :: rest.map some) := hitems
  have hrows : cartRows (some item :: rest.map some) = some (item :: rest) :=
    cartRows_map_some (item :: rest)
  rw [processCheckout_accepted store body env (some item) (rest.map some) (item :: rest) t uid
    user hitems' hrows htotal hpos hship hbill hpay huid hne huser]
  refine ⟨rfl, rfl, checkoutOrder env body uid (item :: rest) t
    (processPayment t body.paymentMethod env), ?_, ?_, ?_⟩
  · exact processCheckout_orders_accepted store uid body.shippingAddress user _
  · intro hfail
    simp [checkoutOrder, hfail]
  · intro p hok hp
    simp [checkoutOrder, hok, hp]

theorem exampleCheckout_eq (draw : ℚ) :
    processCheckout exampleStore exampleBody (exampleEnv draw) =
      { status := 200, message := "Order processed successfully",
        order := some (checkoutOrder (exampleEnv draw) exampleBody "u1" exampleRows 25
          (processPayment 25 exampleBody.paymentMethod (exampleEnv draw))).summary,
        store := (exampleStore.setUserAddress "u1" exampleBody.shippingAddress).createOrder
          (checkoutOrder (exampleEnv draw) exampleBody "u1" exampleRows 25
            (processPayment 25 exampleBody.paymentMethod (exampleEnv draw))),
        payments := [(25, exampleBody.paymentMethod)] } :=
  processCheckout_accepted exampleStore exampleBody (exampleEnv draw) _ _ exampleRows 25 "u1" _
    rfl rfl rfl (by norm_num) rfl rfl rfl rfl (by decide) rfl

/-- C5 on the scenario of the specification: total 25, forced-success payment. -/
theorem checkout_totals_witness :
    (processCheckout exampleStore exampleBody (exampleEnv (1 / 2))).status = 200 ∧
    ∃ o, (processCheckout exampleStore exampleBody (exampleEnv (1 / 2))).store.orders =
        exampleStore.orders ++ [o] ∧
      o.subtotal = 25 ∧ o.shipping = 10 ∧ o.tax = 2 ∧ o.total = 37 := by
  have hacc : (processCheckout exampleStore exampleBody (exampleEnv (1 / 2))).status = 200 := by
    rw [exampleCheckout_eq]
  obtain ⟨_, o, ho, hsub, hship, _, _, _, _, h25⟩ :=
    checkout_totals exampleStore exampleBody (exampleEnv (1 / 2)) 25 rfl hacc
  exact ⟨hacc, o, ho, hsub, hship, (h25 rfl).1, (h25 rfl).2⟩

theorem nullItemCheckout_eq (draw : ℚ) :
    processCheckout exampleStore nullItemBody (exampleEnv draw) =
      { status := 500, message := "Internal server error", order := none,
        store := exampleStore.setUserAddress "u1" (JsVal.str "1 Main Street"),
        payments := [(25, JsVal.str "card")] } :=
  processCheckout_null_item exampleStore nullItemBody (exampleEnv draw) none [] 25 "u1" _
    rfl rfl rfl (by norm_num) rfl rfl rfl rfl (by decide) rfl

theorem orders_ne_append_singleton (orders : List Order) (o : Order) :
    orders ≠ orders ++ [o] := by
  intro h
  have := congrArg List.length h
  simp at this

/-- C6 on the scenario with a failing payment draw (`0.05 ≤ 0.1`): the order is recorded
with status `failed`. -/
theorem checkout_order_always_recorded_witness :
    (processPayment 25 exampleBody.paymentMethod (exampleEnv (1 / 20))).success = false ∧
    ∃ o, (processCheckout exampleStore exampleBody (exampleEnv (1 / 20))).store.orders =
        exampleStore.orders ++ [o] ∧
      o.status = "failed" ∧ o.paymentStatus = "failed" ∧ o.paymentId = none := by
  have hfail : (processPayment 25 exampleBody.paymentMethod (exampleEnv (1 / 20))).success =
      false := by
    norm_num [processPayment, exampleEnv]
  obtain ⟨_, _, o, ho, hf, _⟩ :=
    checkout_order_always_recorded exampleStore exampleBody (exampleEnv (1 / 20))
      { productId := ProductRef.str "1", quantity := 2, price := 10,
        extra := [("name", JsVal.str "Oxford Shirt")] }
      [{ productId := ProductRef.num 2, quantity := 1, price := 5, extra := [] }] 25 "u1" _
      rfl rfl (by norm_num) rfl rfl rfl rfl (by decide) rfl
  exact ⟨hfail, o, ho, hf hfail⟩

/-- C6 as stated fails on the request whose cart is `[null]`, total 25, every field present
and the user `u1` on file: it passes `validateCart` and the field checks and its user exists,
the payment step runs, and the route answers 500 `Internal server error` without creating an
order: the order table is as before. -/
theorem checkout_null_item_not_recorded :
    validateCart nullItemBody = none ∧
    nullItemBody.shippingAddress.truthy = true ∧ nullItemBody.billingAddress.truthy = true ∧
    nullItemBody.paymentMethod.truthy = true ∧ nullItemBody.userId = some "u1" ∧
    (∃ user, exampleStore.findUser "u1" = some user) ∧
    (processCheckout exampleStore nullItemBody (exampleEnv (1 / 2))).status = 500 ∧
    (processCheckout exampleStore nullItemBody (exampleEnv (1 / 2))).payments =
      [(25, JsVal.str "card")] ∧
    (processCheckout exampleStore nullItemBody (exampleEnv (1 / 2))).store.orders =
      exampleStore.orders ∧
    ¬ ∃ o, (processCheckout exampleStore nullItemBody (exampleEnv (1 / 2))).store.orders =
      exampleStore.orders ++ [o] := by
  refine ⟨(validateCart_eq_none_iff nullItemBody).mpr ⟨⟨none, [], rfl⟩, 25, rfl, by norm_num⟩,
    rfl, rfl, rfl, rfl, ⟨_, rfl⟩, ?_, ?_, ?_, ?_⟩
  · rw [nullItemCheckout_eq]
  · rw [nullItemCheckout_eq]
  · rw [nullItemCheckout_eq]
    rfl
  · rw [nullItemCheckout_eq]
    rintro ⟨o, ho⟩
    exact orders_ne_append_singleton _ o ho

/-- C7, amended: checkout appends an order to the store if and only if `cartItems` is a
non-empty list none of whose elements is `null`, `total > 0`, `shippingAddress`,
`billingAddress`, `paymentMethod` and `userId` are present (truthy, as the route tests them)
and a user with that id exists. When no order is created, one of three things happened. The
request passed every check of the route but the user is unknown: the answer is 404
`User not found`. Or a check failed (empty or missing cart, `total <= 0`, a missing field): the
answer is 400. On both rejections nothing changes: the store is the same, no address is
written and the payment step is not called. Or every check passed and the user exists but an
element of `cartItems` is `null`: the answer is 500 `Internal server error`, no order is
created, and by then the payment step has been called and the shipping address written to a
user who had none. -/
theorem checkout_accept_iff (store : Store) (body : CheckoutBody) (env : CheckoutEnv) :
    ((∃ o, (processCheckout store body env).store.orders = store.orders ++ [o]) ↔
      ∃ item rest t uid,
        body.cartItems = some ((item :: rest).map some) ∧ body.total = some t ∧ 0 < t ∧
        body.shippingAddress.truthy = true ∧ body.billingAddress.truthy = true ∧
        body.paymentMethod.truthy = true ∧ body.userId = some uid ∧ uid ≠ "" ∧
        ∃ u ∈ store.users, u.id = uid) ∧
    ((¬ ∃ o, (processCheckout store body env).store.orders = store.orders ++ [o]) →
      ((∃ x xs t uid,
            body.cartItems = some (x :: xs) ∧ body.total = some t ∧ 0 < t ∧
            body.shippingAddress.truthy = true ∧ body.billingAddress.truthy = true ∧
            body.paymentMethod.truthy = true ∧ body.userId = some uid ∧ uid ≠ "" ∧
            ¬ ∃ u ∈ store.users, u.id = uid) ∧
          (processCheckout store body env).status = 404 ∧
          (processCheckout store body env).message = "User not found" ∧
          (processCheckout store body env).store = store ∧
          (processCheckout store body env).payments = [] ∧
          (processCheckout store body env).order = none) ∨
      ((¬ ∃ x xs t uid,
            body.cartItems = some (x :: xs) ∧ body.total = some t ∧ 0 < t ∧
            body.shippingAddress.truthy = true ∧ body.billingAddress.truthy = true ∧
            body.paymentMethod.truthy = true ∧ body.userId = some uid ∧ uid ≠ "") ∧
          (processCheckout store body env).status = 400 ∧
          (processCheckout store body env).store = store ∧
          (processCheckout store body env).payments = [] ∧
          (processCheckout store body env).order = none) ∨
      (∃ x xs t uid user,
          body.cartItems = some (x :: xs) ∧ none ∈ x :: xs ∧ body.total = some t ∧ 0 < t ∧
          body.shippingAddress.truthy = true ∧ body.billingAddress.truthy = true ∧
          body.paymentMethod.truthy = true ∧ body.userId = some uid ∧ uid ≠ "" ∧
          store.findUser uid = some user ∧
          (processCheckout store body env).status = 500 ∧
          (processCheckout store body env).message = "Internal server error" ∧
          (processCheckout store body env).order = none ∧
          (processCheckout store body env).store.orders = store.orders ∧
          (processCheckout store body env).payments = [(t, body.paymentMethod)] ∧
          (processCheckout store body env).store =
            if !user.address.truthy then store.setUserAddress uid body.shippingAddress
            else store)) := by
  rcases processCheckout_cases store body env with
    ⟨x, xs, t, uid, user, hitems, ht, hpos, hship, hbill, hpay, huid, hne, huser⟩ |
    ⟨⟨x, xs, t, uid, hitems, ht, hpos, hship, hbill, hpay, huid, hne, huser⟩, h404⟩ |
    ⟨hno, msg, h400⟩
  · rcases hrows : cartRows (x :: xs) with _ | rows
    · have h500 := processCheckout_null_item store body env x xs t uid user hitems hrows ht
        hpos hship hbill hpay huid hne huser
      have horders : (processCheckout store body env).store.orders = store.orders := by
        rw [h500]
        exact processCheckout_orders_null_item store uid body.shippingAddress user
      have hnone : none ∈ x :: xs := (cartRows_eq_none_iff (x :: xs)).mp hrows
      refine ⟨⟨fun ⟨o, ho⟩ => ?_, ?_⟩, fun _ => Or.inr (Or.inr ⟨x, xs, t, uid, user, hitems,
        hnone, ht, hpos, hship, hbill, hpay, huid, hne, huser, ?_, ?_, ?_, horders, ?_, ?_⟩)⟩
      · rw [horders] at ho
        exact absurd ho (orders_ne_append_singleton _ o)
      · rintro ⟨item, rest, _, _, hitems', _⟩
        rw [hitems] at hitems'
        have hxs : x :: xs = (item :: rest).map some := Option.some.inj hitems'
        rw [hxs, cartRows_map_some] at hrows
        cases hrows
      · rw [h500]
      · rw [h500]
      · rw [h500]
      · rw [h500]
      · rw [h500]
    · obtain ⟨item, rest, hcons⟩ := cartRows_cons_length x xs rows hrows
      subst hcons
      have hxs : x :: xs = (item :: rest).map some := cartRows_eq_some (x :: xs) _ hrows
      have hcreated : ∃ o, (processCheckout store body env).store.orders =
          store.orders ++ [o] := by
        rw [processCheckout_accepted store body env x xs (item :: rest) t uid user hitems hrows
          ht hpos hship hbill hpay huid hne huser]
        exact ⟨_, processCheckout_orders_accepted store uid body.shippingAddress user _⟩
      refine ⟨⟨fun _ => ⟨item, rest, t, uid, by rw [hitems, hxs], ht, hpos, hship, hbill, hpay,
        huid, hne, Store.findUser_some_mem store uid user huser⟩, fun _ => hcreated⟩,
        fun h => ?_⟩
      exact absurd hcreated h
  · have hnouser := (Store.findUser_eq_none_iff store uid).mp huser
    rw [h404]
    refine ⟨⟨fun ⟨o, ho⟩ => absurd ho (orders_ne_append_singleton _ o), ?_⟩, fun _ => Or.inl
      ⟨⟨x, xs, t, uid, hitems, ht, hpos, hship, hbill, hpay, huid, hne, hnouser⟩,
        rfl, rfl, rfl, rfl, rfl⟩⟩
    rintro ⟨_, _, _, uid', _, _, _, _, _, _, huid', _, hex⟩
    rw [huid] at huid'
    cases huid'
    exact absurd hex hnouser
  · rw [h400]
    refine ⟨⟨fun ⟨o, ho⟩ => absurd ho (orders_ne_append_singleton _ o), ?_⟩, fun _ =>
      Or.inr (Or.inl ⟨hno, rfl, rfl, rfl, rfl⟩)⟩
    rintro ⟨item, rest, t, uid, hitems, ht, hpos, hship, hbill, hpay, huid, hne, _⟩
    exact absurd ⟨some item, rest.map some, t, uid, hitems, ht, hpos, hship, hbill, hpay, huid,
      hne⟩ hno

/-- C7 on a request with an empty cart: it is rejected with status 400, the store is the
same and the payment step is not called. -/
theorem checkout_accept_iff_witness :
    (processCheckout exampleStore { exampleBody with cartItems := some [] }
      (exampleEnv (1 / 2))).status = 400 ∧
    (processCheckout exampleStore { exampleBody with cartItems := some [] }
      (exampleEnv (1 / 2))).store = exampleStore ∧
    (processCheckout exampleStore { exampleBody with cartItems := some [] }
      (exampleEnv (1 / 2))).payments = [] := by
  have h := checkout_accept_iff exampleStore { exampleBody with cartItems := some [] }
    (exampleEnv (1 / 2))
  have hno : ¬ ∃ o, (processCheckout exampleStore { exampleBody with cartItems := some [] }
      (exampleEnv (1 / 2))).store.orders = exampleStore.orders ++ [o] := by
    rw [h.1]
    rintro ⟨_, _, _, _, hc, _⟩
    cases hc
  rcases h.2 hno with ⟨⟨_, _, _, _, hc, _⟩, _⟩ | ⟨_, hst, hstore, hpay, _⟩ |
    ⟨_, _, _, _, _, hc, _⟩
  · cases hc
  · exact ⟨hst, hstore, hpay⟩
  · cases hc

/-- C7 as stated fails on the request whose cart is `[null]`: `cartItems` is a non-empty
list, the total is 25, every field is present and the user `u1` exists, yet no order is
created; and the request is not turned away untouched either: the payment step has been
called and the shipping address has been written to the user, who had none. -/
theorem checkout_null_item_side_effects :
    (∃ x xs, nullItemBody.cartItems = some (x :: xs)) ∧
    nullItemBody.total = some 25 ∧
    nullItemBody.shippingAddress.truthy = true ∧ nullItemBody.billingAddress.truthy = true ∧
    nullItemBody.paymentMethod.truthy = true ∧ nullItemBody.userId = some "u1" ∧
    (∃ u ∈ exampleStore.users, u.id = "u1") ∧
    (¬ ∃ o, (processCheckout exampleStore nullItemBody (exampleEnv (1 / 2))).store.orders =
      exampleStore.orders ++ [o]) ∧
    (processCheckout exampleStore nullItemBody (exampleEnv (1 / 2))).status = 500 ∧
    (processCheckout exampleStore nullItemBody (exampleEnv (1 / 2))).payments =
      [(25, JsVal.str "card")] ∧
    exampleStore.users =
      [({ id := "u1", username := "alice", email := "alice@example.com",
          password := "hash", address := JsVal.null } : User)] ∧
    (processCheckout exampleStore nullItemBody (exampleEnv (1 / 2))).store.users =
      [({ id := "u1", username := "alice", email := "alice@example.com",
          password := "hash", address := JsVal.str "1 Main Street" } : User)] := by
  refine ⟨⟨none, [], rfl⟩, rfl, rfl, rfl, rfl, rfl, ⟨_, List.mem_cons_self _ _, rfl⟩, ?_, ?_,
    ?_, rfl, ?_⟩
  · rw [nullItemCheckout_eq]
    rintro ⟨o, ho⟩
    exact orders_ne_append_singleton _ o ho
  · rw [nullItemCheckout_eq]
  · rw [nullItemCheckout_eq]
  · rw [nullItemCheckout_eq]
    rfl

/-- C8: for every accepted checkout, every element of the input `cartItems` is an object and
the items of the order appended to the store are the input `cartItems` mapped one-to-one in
the same order: there are as many of them, and the one at each position `i` is exactly
`(String(productId), quantity, price)` of the cart item at position `i`; an order item has no
other field, so every other input field is dropped. -/
theorem checkout_items_snapshot (store : Store) (body : CheckoutBody) (env : CheckoutEnv)
    (items : List (Option CartItemInput)) (hitems : body.cartItems = some items)
    (hacc : (processCheckout store body env).status = 200) :
    ∃ rows : List CartItemInput, items = rows.map some ∧
    ∃ o, (processCheckout store body env).store.orders = store.orders ++ [o] ∧
      o.items.length = items.length ∧
      ∀ i : Nat, o.items[i]? = (rows[i]?).map (fun item =>
        ({ productId := item.productId.toJsString, quantity := item.quantity,
           price := item.price } : OrderItem)) := by
  rcases processCheckout_cases store body env with
    ⟨x, xs, t, uid, user, hitems', ht, hpos, hship, hbill, hpay, huid, hne, huser⟩ |
    ⟨_, h404⟩ | ⟨_, msg, h400⟩
  · have hi : items = x :: xs := by
      rw [hitems] at hitems'
      exact Option.some.inj hitems'
    subst hi
    rcases hrows : cartRows (x :: xs) with _ | rows
    · rw [processCheckout_null_item store body env x xs t uid user hitems hrows ht hpos
        hship hbill hpay huid hne huser] at hacc
      cases hacc
    have hxs : x :: xs = rows.map some := cartRows_eq_some (x :: xs) rows hrows
    refine ⟨rows, hxs, checkoutOrder env body uid rows t
      (processPayment t body.paymentMethod env), ?_, ?_, ?_⟩
    · rw [processCheckout_accepted store body env x xs rows t uid user hitems hrows ht hpos
        hship hbill hpay huid hne huser]
      exact processCheckout_orders_accepted store uid body.shippingAddress user _
    · rw [hxs]
      simp [checkoutOrder, orderItemsOf]
    · intro i
      simp only [checkoutOrder, orderItemsOf]
      exact List.getElem?_map _ _ _
  · rw [h404] at hacc
    cases hacc
  · rw [h400] at hacc
    cases hacc

/-- C8 on the scenario: two cart items in, two order items out, the numeric product id 2
stored as the string `"2"` and the extra field `name` dropped. -/
theorem checkout_items_snapshot_witness :
    (processCheckout exampleStore exampleBody (exampleEnv (1 / 2))).status = 200 ∧
    ∃ o, (processCheckout exampleStore exampleBody (exampleEnv (1 / 2))).store.orders =
        exampleStore.orders ++ [o] ∧
      o.items.length = 2 ∧
      o.items[1]? = some { productId := "2", quantity := 1, price := 5 } := by
  have hacc : (processCheckout exampleStore exampleBody (exampleEnv (1 / 2))).status = 200 := by
    rw [exampleCheckout_eq]
  obtain ⟨rows, hrows, o, ho, hlen, hget⟩ :=
    checkout_items_snapshot exampleStore exampleBody (exampleEnv (1 / 2)) _ rfl hacc
  have hr : cartRows (rows.map some) = some exampleRows := by
    rw [← hrows]
    rfl
  rw [cartRows_map_some] at hr
  have hr' : rows = exampleRows := Option.some.inj hr
  subst hr'
  exact ⟨hacc, o, ho, hlen, hget 1⟩

/-! ## Properties of the status update -/

/-- C9: `updateOrderStatus(orderId, s)` is accepted only for `s` among exactly `pending`,
`confirmed`, `shipped`, `delivered`, `cancelled`. For any other `s`, a missing one included,
the answer is 400 `Invalid status` whether or not the order exists, and the store is the same.
For a valid `s` the call succeeds (status 200, answering with the id and the new status) if and
only if an order with that id exists; otherwise it answers 404 `Order not found` and the store
is the same. -/
theorem updateOrderStatus_accepts (store : Store) (orderId : String) (status : Option String) :
    (∀ s, s ∈ validStatuses ↔
      s = "pending" ∨ s = "confirmed" ∨ s = "shipped" ∨ s = "delivered" ∨ s = "cancelled") ∧
    ((∀ s, status = some s → s ∉ validStatuses) →
      updateOrderStatus store orderId status =
        { status := 400, message := "Invalid status", order := none, store := store }) ∧
    (∀ s, status = some s → s ∈ validStatuses →
      ((updateOrderStatus store orderId status).status = 200 ↔
        ∃ o ∈ store.orders, o.id = orderId) ∧
      ((∃ o ∈ store.orders, o.id = orderId) →
        (updateOrderStatus store orderId status).order = some (orderId, s)) ∧
      ((¬ ∃ o ∈ store.orders, o.id = orderId) →
        updateOrderStatus store orderId status =
          { status := 404, message := "Order not found", order := none, store := store })) := by
  refine ⟨fun s => by simp [validStatuses], ?_, ?_⟩
  · intro hbad
    cases status with
    | none => rfl
    | some s => exact updateOrderStatus_of_invalid store orderId s (hbad s rfl)
  · intro s hs hvalid
    subst hs
    cases hr : updateOrderRow store.orders orderId s with
    | none =>
      have hno := (updateOrderRow_eq_none_iff store.orders orderId s).mp hr
      have heq := updateOrderStatus_of_missing_row store orderId s hvalid hr
      refine ⟨?_, fun hex => absurd hex hno, fun _ => heq⟩
      rw [heq]
      exact ⟨fun h => (by cases h), fun hex => absurd hex hno⟩
    | some r =>
      obtain ⟨orders', updated⟩ := r
      obtain ⟨pre, o, post, hsplit, hoid, _, _, hupd⟩ :=
        updateOrderRow_some store.orders orderId s orders' updated hr
      have hex : ∃ x ∈ store.orders, x.id = orderId :=
        ⟨o, by rw [hsplit]; simp, hoid⟩
      rw [updateOrderStatus_of_row store orderId s orders' updated hvalid hr]
      refine ⟨⟨fun _ => hex, fun _ => rfl⟩, fun _ => ?_, fun hno => absurd hex hno⟩
      rw [hupd]
      simp [hoid]

/-- C9 at concrete inputs: `"failed"` and `"bogus"` are rejected for an existing order, and
`"shipped"` succeeds for it. -/
theorem updateOrderStatus_accepts_witness :
    updateOrderStatus exampleOrders "o1" (some "failed") =
      { status := 400, message := "Invalid status", order := none, store := exampleOrders } ∧
    updateOrderStatus exampleOrders "o1" (some "bogus") =
      { status := 400, message := "Invalid status", order := none, store := exampleOrders } ∧
    (updateOrderStatus exampleOrders "o1" (some "shipped")).status = 200 :=
  ⟨(updateOrderStatus_accepts exampleOrders "o1" (some "failed")).2.1
      (fun s hs => by cases hs; decide),
    (updateOrderStatus_accepts exampleOrders "o1" (some "bogus")).2.1
      (fun s hs => by cases hs; decide),
    (((updateOrderStatus_accepts exampleOrders "o1" (some "shipped")).2.2 "shipped" rfl
      (by decide)).1).mpr ⟨_, List.mem_cons_self _ _, rfl⟩⟩

/-- C10: a successful `updateOrderStatus(orderId, s)` replaces the first order with that id
by the same order with `status` set to `s` and nothing else changed (items, subtotal,
shipping, tax, total, paymentId, paymentStatus and addresses are those of before); every other
order and the user table are as before. Checkout, the only other writer of orders, appends to
the table and leaves every existing order as it is. -/
theorem updateOrderStatus_frame (store : Store) (orderId : String) (s : String)
    (hok : (updateOrderStatus store orderId (some s)).status = 200) :
    (∃ pre o post, store.orders = pre ++ o :: post ∧ o.id = orderId ∧
      (∀ x ∈ pre, x.id ≠ orderId) ∧
      (updateOrderStatus store orderId (some s)).store.orders =
        pre ++ { o with status := s } :: post ∧
      (updateOrderStatus store orderId (some s)).store.users = store.users) ∧
    ∀ body env, ∃ added,
      (processCheckout store body env).store.orders = store.orders ++ added := by
  constructor
  · by_cases hs : s ∈ validStatuses
    · cases hr : updateOrderRow store.orders orderId s with
      | none =>
        rw [updateOrderStatus_of_missing_row store orderId s hs hr] at hok
        cases hok
      | some r =>
        obtain ⟨orders', updated⟩ := r
        obtain ⟨pre, o, post, hsplit, hoid, hpre, horders, _⟩ :=
          updateOrderRow_some store.orders orderId s orders' updated hr
        rw [updateOrderStatus_of_row store orderId s orders' updated hs hr]
        exact ⟨pre, o, post, hsplit, hoid, hpre, horders, rfl⟩
    · rw [updateOrderStatus_of_invalid store orderId s hs] at hok
      cases hok
  · intro body env
    rcases processCheckout_cases store body env with
      ⟨item, rest, t, uid, user, hitems, ht, hpos, hship, hbill, hpay, huid, hne, huser⟩ |
      ⟨_, h404⟩ | ⟨_, msg, h400⟩
    · rcases hrows : cartRows (item :: rest) with _ | rows
      · refine ⟨[], ?_⟩
        rw [processCheckout_null_item store body env item rest t uid user hitems hrows ht hpos
          hship hbill hpay huid hne huser]
        by_cases ha : user.address.truthy = true <;> simp [ha, Store.setUserAddress]
      · refine ⟨[checkoutOrder env body uid rows t
          (processPayment t body.paymentMethod env)], ?_⟩
        rw [processCheckout_accepted store body env item rest rows t uid user hitems hrows ht
          hpos hship hbill hpay huid hne huser]
        by_cases ha : user.address.truthy = true <;> simp [ha, Store.createOrder,
          Store.setUserAddress]
    · exact ⟨[], by rw [h404]; simp⟩
    · exact ⟨[], by rw [h400]; simp⟩

/-- C10 at a concrete store: the second of two orders is set to `shipped`; the first order
is untouched and the second differs from before in `status` only. -/
theorem updateOrderStatus_frame_witness :
    (updateOrderStatus exampleOrders "o2" (some "shipped")).status = 200 ∧
    ∃ pre o post, exampleOrders.orders = pre ++ o :: post ∧ o.id = "o2" ∧
      (∀ x ∈ pre, x.id ≠ "o2") ∧
      (updateOrderStatus exampleOrders "o2" (some "shipped")).store.orders =
        pre ++ { o with status := "shipped" } :: post ∧
      (updateOrderStatus exampleOrders "o2" (some "shipped")).store.users =
        exampleOrders.users :=
  ⟨by decide, (updateOrderStatus_frame exampleOrders "o2" "shipped" (by decide)).1⟩

/-! ## Lemmas on the cart store -/

theorem authenticatedUser_some (uid : String) (h : uid ≠ "") :
    authenticatedUser (some uid) = some uid := by
  simp [authenticatedUser, h]

theorem setQuantityRow_length (items : List CartItem) (id : String) (q : Int) :
    (setQuantityRow items id q).length = items.length := by
  induction items with
  | nil => rfl
  | cons i rest ih =>
    by_cases h : i.id = id
    · simp [setQuantityRow, h]
    · simp [setQuantityRow, h, ih]

theorem setQuantityRow_keys (items : List CartItem) (id : String) (q : Int) :
    (setQuantityRow items id q).map (fun i => (i.cartId, i.productId)) =
      items.map (fun i => (i.cartId, i.productId)) := by
  induction items with
  | nil => rfl
  | cons i rest ih =>
    by_cases h : i.id = id
    · simp [setQuantityRow, h]
    · simp [setQuantityRow, h, ih]

theorem setQuantityRow_split (pre post : List CartItem) (it : CartItem) (id : String) (q : Int)
    (hid : it.id = id) (hpre : ∀ x ∈ pre, x.id ≠ id) :
    setQuantityRow (pre ++ it :: post) id q = pre ++ { it with quantity := q } :: post := by
  induction pre with
  | nil => simp [setQuantityRow, hid]
  | cons x rest ih =>
    have hx : x.id ≠ id := hpre x (List.mem_cons_self _ _)
    have hrest : ∀ y ∈ rest, y.id ≠ id := fun y hy => hpre y (List.mem_cons_of_mem _ hy)
    simp [setQuantityRow, hx, ih hrest]

theorem deleteItemRow_split (pre post : List CartItem) (it : CartItem) (id : String)
    (hid : it.id = id) (hpre : ∀ x ∈ pre, x.id ≠ id) :
    deleteItemRow (pre ++ it :: post) id = pre ++ post := by
  induction pre with
  | nil => simp [deleteItemRow, hid]
  | cons x rest ih =>
    have hx : x.id ≠ id := hpre x (List.mem_cons_self _ _)
    have hrest : ∀ y ∈ rest, y.id ≠ id := fun y hy => hpre y (List.mem_cons_of_mem _ hy)
    simp [deleteItemRow, hx, ih hrest]

theorem deleteItemRow_sublist (items : List CartItem) (id : String) :
    (deleteItemRow items id).Sublist items := by
  induction items with
  | nil => exact List.Sublist.slnil
  | cons i rest ih =>
    by_cases h : i.id = id
    · simp [deleteItemRow, h]
    · simp only [deleteItemRow, h, if_false]
      exact ih.cons₂ i

theorem find?_split {α : Type} (p : α → Bool) (xs : List α) (x : α)
    (h : xs.find? p = some x) :
    p x = true ∧ ∃ pre post, xs = pre ++ x :: post ∧ ∀ y ∈ pre, p y = false := by
  induction xs with
  | nil => simp at h
  | cons y rest ih =>
    by_cases hy : p y = true
    · simp only [List.find?_cons, hy, Option.some.injEq] at h
      subst h
      exact ⟨hy, [], rest, rfl, by simp⟩
    · have hy' : p y = false := by simpa using hy
      simp only [List.find?_cons, hy'] at h
      obtain ⟨hx, pre, post, hsplit, hpre⟩ := ih h
      refine ⟨hx, y :: pre, post, by simp [hsplit], ?_⟩
      intro z hz
      rcases List.mem_cons.mp hz with hz | hz
      · rw [hz]
        exact hy'
      · exact hpre z hz

theorem CartStore.findItem_eq_none_iff (store : CartStore) (id : String) :
    store.findItem id = none ↔ ¬ ∃ it ∈ store.items, it.id = id := by
  simp [CartStore.findItem, List.find?_eq_none]

theorem CartStore.findItem_split (store : CartStore) (id : String) (item : CartItem)
    (h : store.findItem id = some item) :
    item.id = id ∧ ∃ pre post, store.items = pre ++ item :: post ∧ ∀ x ∈ pre, x.id ≠ id := by
  obtain ⟨hp, pre, post, hsplit, hpre⟩ := find?_split _ _ _ h
  refine ⟨by simpa using hp, pre, post, hsplit, fun x hx => ?_⟩
  simpa using hpre x hx

theorem CartStore.findCartByUser_eq_none_iff (store : CartStore) (uid : String) :
    store.findCartByUser uid = none ↔ ∀ c ∈ store.carts, c.userId ≠ uid := by
  simp [CartStore.findCartByUser, List.find?_eq_none]

theorem getOrCreateCart_found (store : CartStore) (uid newId : String) (cart : Cart)
    (h : store.findCartByUser uid = some cart) :
    getOrCreateCart store uid newId = (cart, store) := by
  simp [getOrCreateCart, h]

theorem getOrCreateCart_created (store : CartStore) (uid newId : String)
    (h : store.findCartByUser uid = none) :
    getOrCreateCart store uid newId =
      ({ id := newId, userId := uid },
        { carts := store.carts ++ [{ id := newId, userId := uid }], items := store.items }) := by
  simp [getOrCreateCart, h]

theorem getOrCreateCart_items (store : CartStore) (uid newId : String) :
    (getOrCreateCart store uid newId).2.items = store.items := by
  unfold getOrCreateCart
  split <;> rfl

theorem getOrCreateCart_finds (store : CartStore) (uid newId : String) :
    (getOrCreateCart store uid newId).2.findCartByUser uid =
      some (getOrCreateCart store uid newId).1 := by
  cases h : store.findCartByUser uid with
  | some cart =>
    rw [getOrCreateCart_found store uid newId cart h]
    exact h
  | none =>
    rw [getOrCreateCart_created store uid newId h]
    have hnone : List.find? (fun c : Cart => decide (c.userId = uid)) store.carts = none := h
    simp [CartStore.findCartByUser, List.find?_append, hnone]

theorem getOrCreateCart_again (store : CartStore) (uid newId newId' : String) :
    getOrCreateCart (getOrCreateCart store uid newId).2 uid newId' =
      getOrCreateCart store uid newId :=
  getOrCreateCart_found _ uid newId' _ (getOrCreateCart_finds store uid newId)

theorem getOrCreateCart_unique (store : CartStore) (uid newId : String)
    (h : (store.carts.map (fun c => c.userId)).Nodup) :
    ((getOrCreateCart store uid newId).2.carts.map (fun c => c.userId)).Nodup := by
  cases hfind : store.findCartByUser uid with
  | some cart =>
    rw [getOrCreateCart_found store uid newId cart hfind]
    exact h
  | none =>
    rw [getOrCreateCart_created store uid newId hfind]
    have hno := (CartStore.findCartByUser_eq_none_iff store uid).mp hfind
    simp only [List.map_append, List.map_cons, List.map_nil]
    rw [List.nodup_append]
    refine ⟨h, List.nodup_singleton _, ?_⟩
    intro a ha hb
    simp only [List.mem_singleton] at hb
    subst hb
    obtain ⟨c, hc, hcu⟩ := List.mem_map.mp ha
    exact hno c hc hcu

theorem addItem_accepted (store : CartStore) (uid : String) (hu : uid ≠ "")
    (productId : ProductRef) (hp : productId.truthy = true) (q : Int) (hq : 0 < q)
    (env : CartEnv) :
    addItem store (some uid) (some productId) (some q) env =
      cartResponse "Item added to cart successfully"
        (getOrCreateCart store uid env.newCartId).1
        (match (getOrCreateCart store uid env.newCartId).2.findItemByProduct
            (getOrCreateCart store uid env.newCartId).1.id productId.toJsString with
          | some existing =>
            { (getOrCreateCart store uid env.newCartId).2 with
              items := setQuantityRow (getOrCreateCart store uid env.newCartId).2.items
                existing.id (existing.quantity + q) }
          | none =>
            { (getOrCreateCart store uid env.newCartId).2 with
              items := (getOrCreateCart store uid env.newCartId).2.items ++
                [{ id := env.newItemId, cartId := (getOrCreateCart store uid env.newCartId).1.id,
                   productId := productId.toJsString, quantity := q }] })
        env := by
  have hq1 : ¬ q ≤ 0 := not_le.mpr hq
  simp [addItem, authenticatedUser_some uid hu, hp, hq1]

theorem addItem_store_cases (store : CartStore) (userId : Option String)
    (productId : Option ProductRef) (quantity : Option Int) (env : CartEnv) :
    (addItem store userId productId quantity env).store = store ∨
    ∃ created : CartStore, ∃ cartId pid : String,
      created.items = store.items ∧
      ((∃ existing q, created.findItemByProduct cartId pid = some existing ∧
          (addItem store userId productId quantity env).store =
            { created with items := setQuantityRow created.items existing.id q }) ∨
        (created.findItemByProduct cartId pid = none ∧
          ∃ newId q, (addItem store userId productId quantity env).store =
            { created with items := created.items ++
                [{ id := newId, cartId := cartId, productId := pid, quantity := q }] })) := by
  cases hauth : authenticatedUser userId with
  | none =>
    left
    simp [addItem, hauth, unauthorized]
  | some uid =>
    cases productId with
    | none =>
      left
      simp [addItem, hauth]
    | some p =>
      by_cases hcond : (!p.truthy || decide (quantity.getD 1 ≤ 0)) = true
      · left
        simp only [addItem, hauth]
        rw [if_pos hcond]
      · right
        have hval : (addItem store userId (some p) quantity env).store =
            (match (getOrCreateCart store uid env.newCartId).2.findItemByProduct
                (getOrCreateCart store uid env.newCartId).1.id p.toJsString with
              | some existing =>
                { (getOrCreateCart store uid env.newCartId).2 with
                  items := setQuantityRow (getOrCreateCart store uid env.newCartId).2.items
                    existing.id (existing.quantity + quantity.getD 1) }
              | none =>
                { (getOrCreateCart store uid env.newCartId).2 with
                  items := (getOrCreateCart store uid env.newCartId).2.items ++
                    [{ id := env.newItemId,
                       cartId := (getOrCreateCart store uid env.newCartId).1.id,
                       productId := p.toJsString, quantity := quantity.getD 1 }] }) := by
          simp only [addItem, hauth]
          rw [if_neg hcond]
          rfl
        rw [hval]
        refine ⟨(getOrCreateCart store uid env.newCartId).2,
          (getOrCreateCart store uid env.newCartId).1.id, p.toJsString,
          getOrCreateCart_items store uid env.newCartId, ?_⟩
        cases hfind : (getOrCreateCart store uid env.newCartId).2.findItemByProduct
            (getOrCreateCart store uid env.newCartId).1.id p.toJsString with
        | some existing =>
          left
          exact ⟨existing, existing.quantity + quantity.getD 1, rfl, rfl⟩
        | none =>
          right
          exact ⟨rfl, env.newItemId, quantity.getD 1, rfl⟩

theorem getCart_items (store : CartStore) (userId : Option String) (env : CartEnv) :
    (getCart store userId env).store.items = store.items := by
  unfold getCart
  split
  · rfl
  · simp [cartResponse, getOrCreateCart_items]

theorem updateItem_items (store : CartStore) (userId : Option String) (itemId : String)
    (quantity : Option Int) (env : CartEnv) :
    (updateItem store userId itemId quantity env).store = store ∨
    ∃ q, (updateItem store userId itemId quantity env).store =
      { store with items := setQuantityRow store.items itemId q } := by
  cases hauth : authenticatedUser userId with
  | none =>
    left
    simp [updateItem, hauth, unauthorized]
  | some uid =>
    cases quantity with
    | none =>
      left
      simp [updateItem, hauth]
    | some q =>
      by_cases hq : q = 0 ∨ q ≤ 0
      · left
        simp only [updateItem, hauth]
        rw [if_pos hq]
      · cases hfind : store.findItem itemId with
        | none =>
          left
          simp only [updateItem, hauth, hfind]
          rw [if_neg hq]
        | some item =>
          right
          refine ⟨q, ?_⟩
          simp only [updateItem, hauth, hfind]
          rw [if_neg hq]
          split <;> rfl

theorem removeItem_items (store : CartStore) (userId : Option String) (itemId : String)
    (env : CartEnv) :
    (removeItem store userId itemId env).store = store ∨
    (removeItem store userId itemId env).store =
      { store with items := deleteItemRow store.items itemId } := by
  cases hauth : authenticatedUser userId with
  | none =>
    left
    simp [removeItem, hauth, unauthorized]
  | some uid =>
    cases hfind : store.findItem itemId with
    | none =>
      left
      simp only [removeItem, hauth, hfind]
    | some item =>
      right
      simp only [removeItem, hauth, hfind]
      split <;> rfl

theorem clearCart_items (store : CartStore) (userId : Option String) :
    (clearCart store userId).store = store ∨
    ∃ cartId, (clearCart store userId).store =
      { store with items := store.items.filter (fun i => ¬ i.cartId = cartId) } := by
  cases hauth : authenticatedUser userId with
  | none =>
    left
    simp [clearCart, hauth, unauthorized]
  | some uid =>
    cases hfind : store.findCartByUser uid with
    | none =>
      left
      simp only [clearCart, hauth, hfind]
    | some cart =>
      right
      exact ⟨cart.id, by simp only [clearCart, hauth, hfind]⟩

theorem CartOp.run_keys_nodup (store : CartStore) (op : CartOp) (env : CartEnv)
    (h : (store.items.map (fun i => (i.cartId, i.productId))).Nodup) :
    ((op.run store env).items.map (fun i => (i.cartId, i.productId))).Nodup := by
  cases op with
  | getOrCreate userId =>
    simp only [CartOp.run, getOrCreateCart_items]
    exact h
  | getCart userId =>
    simp only [CartOp.run, getCart_items]
    exact h
  | addItem userId productId quantity =>
    simp only [CartOp.run]
    rcases addItem_store_cases store userId productId quantity env with
      hs | ⟨created, cartId, pid, hitems, ⟨existing, q, _, hs⟩ | ⟨hnone, newId, q, hs⟩⟩
    · rw [hs]
      exact h
    · rw [hs]
      simp only [setQuantityRow_keys, hitems]
      exact h
    · rw [hs]
      simp only [List.map_append, List.map_cons, List.map_nil, hitems]
      rw [List.nodup_append]
      refine ⟨h, List.nodup_singleton _, ?_⟩
      intro a ha hb
      simp only [List.mem_singleton] at hb
      subst hb
      obtain ⟨i, hi, hkey⟩ := List.mem_map.mp ha
      simp only [CartStore.findItemByProduct, List.find?_eq_none, hitems] at hnone
      have := hnone i hi
      simp only [Prod.mk.injEq] at hkey
      simp [hkey.1, hkey.2] at this
  | updateItem userId itemId quantity =>
    simp only [CartOp.run]
    rcases updateItem_items store userId itemId quantity env with hs | ⟨q, hs⟩
    · rw [hs]
      exact h
    · rw [hs]
      simp only [setQuantityRow_keys]
      exact h
  | removeItem userId itemId =>
    simp only [CartOp.run]
    rcases removeItem_items store userId itemId env with hs | hs
    · rw [hs]
      exact h
    · rw [hs]
      exact List.Nodup.sublist ((deleteItemRow_sublist store.items itemId).map _) h
  | clear userId =>
    simp only [CartOp.run]
    rcases clearCart_items store userId with hs | ⟨cartId, hs⟩
    · rw [hs]
      exact h
    · rw [hs]
      exact List.Nodup.sublist ((List.filter_sublist _).map _) h

theorem getOrCreateCart_findItemByProduct (store : CartStore) (uid newId cartId pid : String) :
    (getOrCreateCart store uid newId).2.findItemByProduct cartId pid =
      store.findItemByProduct cartId pid := by
  simp only [CartStore.findItemByProduct, getOrCreateCart_items]

theorem CartStore.findItemByProduct_eq_none_iff (store : CartStore) (cartId pid : String) :
    store.findItemByProduct cartId pid = none ↔
      ∀ it ∈ store.items, ¬ (it.cartId = cartId ∧ it.productId = pid) := by
  simp [CartStore.findItemByProduct, List.find?_eq_none]

theorem addItem_store_absent (store : CartStore) (uid : String) (hu : uid ≠ "")
    (productId : ProductRef) (hp : productId.truthy = true) (q : Int) (hq : 0 < q)
    (env : CartEnv)
    (hnone : store.findItemByProduct (getOrCreateCart store uid env.newCartId).1.id
      productId.toJsString = none) :
    (addItem store (some uid) (some productId) (some q) env).store =
      { carts := (getOrCreateCart store uid env.newCartId).2.carts,
        items := store.items ++
          [{ id := env.newItemId, cartId := (getOrCreateCart store uid env.newCartId).1.id,
             productId := productId.toJsString, quantity := q }] } := by
  rw [addItem_accepted store uid hu productId hp q hq env,
    getOrCreateCart_findItemByProduct, hnone]
  simp [cartResponse, getOrCreateCart_items]

theorem addItem_store_present (store : CartStore) (uid : String) (hu : uid ≠ "")
    (productId : ProductRef) (hp : productId.truthy = true) (q : Int) (hq : 0 < q)
    (env : CartEnv) (existing : CartItem)
    (hsome : store.findItemByProduct (getOrCreateCart store uid env.newCartId).1.id
      productId.toJsString = some existing) :
    (addItem store (some uid) (some productId) (some q) env).store =
      { carts := (getOrCreateCart store uid env.newCartId).2.carts,
        items := setQuantityRow store.items existing.id (existing.quantity + q) } := by
  rw [addItem_accepted store uid hu productId hp q hq env,
    getOrCreateCart_findItemByProduct, hsome]
  simp [cartResponse, getOrCreateCart_items]

theorem setAddressRow_split (pre post : List User) (user : User) (id : String)
    (address : JsVal) (hid : user.id = id) (hpre : ∀ u ∈ pre, u.id ≠ id) :
    setAddressRow (pre ++ user :: post) id address =
      pre ++ { user with address := address } :: post := by
  induction pre with
  | nil => simp [setAddressRow, hid]
  | cons x rest ih =>
    have hx : x.id ≠ id := hpre x (List.mem_cons_self _ _)
    have hrest : ∀ y ∈ rest, y.id ≠ id := fun y hy => hpre y (List.mem_cons_of_mem _ hy)
    simp [setAddressRow, hx, ih hrest]

theorem Store.findUser_split (store : Store) (id : String) (user : User)
    (h : store.findUser id = some user) :
    user.id = id ∧ ∃ pre post, store.users = pre ++ user :: post ∧ ∀ u ∈ pre, u.id ≠ id := by
  obtain ⟨hp, pre, post, hsplit, hpre⟩ := find?_split _ _ _ h
  refine ⟨by simpa using hp, pre, post, hsplit, fun u hu => ?_⟩
  simpa using hpre u hu

/-! ## Lemmas on cache keys -/

theorem digitChar_isDigit (m : Nat) (h : m < 10) : (Nat.digitChar m).isDigit = true := by
  interval_cases m <;> decide

theorem digitChar_value (m : Nat) (h : m < 10) : (Nat.digitChar m).toNat - 48 = m := by
  interval_cases m <;> decide

theorem toDigitsCore_value (fuel : Nat) : ∀ (n : Nat) (ds : List Char), n < fuel →
    digitsValue 0 (Nat.toDigitsCore 10 fuel n ds) = digitsValue n ds := by
  induction fuel with
  | zero => intro n ds h; omega
  | succ fuel ih =>
    intro n ds h
    have hmod : n % 10 < 10 := Nat.mod_lt _ (by decide)
    simp only [Nat.toDigitsCore]
    by_cases h0 : n / 10 = 0
    · rw [if_pos h0]
      have hn : n % 10 = n := by omega
      simp only [digitsValue, List.foldl_cons]
      rw [digitChar_value _ hmod, hn]
      simp
    · rw [if_neg h0]
      rw [ih (n / 10) _ (by omega)]
      simp only [digitsValue, List.foldl_cons]
      rw [digitChar_value _ hmod]
      congr 1
      omega

theorem toDigitsCore_isDigit (fuel : Nat) : ∀ (n : Nat) (ds : List Char),
    (∀ c ∈ ds, c.isDigit = true) → ∀ c ∈ Nat.toDigitsCore 10 fuel n ds, c.isDigit = true := by
  induction fuel with
  | zero => intro n ds h c hc; exact h c hc
  | succ fuel ih =>
    intro n ds h c hc
    have hmod : n % 10 < 10 := Nat.mod_lt _ (by decide)
    have hds : ∀ c ∈ Nat.digitChar (n % 10) :: ds, c.isDigit = true := by
      intro c hc
      rcases List.mem_cons.mp hc with hc | hc
      · rw [hc]; exact digitChar_isDigit _ hmod
      · exact h c hc
    simp only [Nat.toDigitsCore] at hc
    by_cases h0 : n / 10 = 0
    · rw [if_pos h0] at hc
      exact hds c hc
    · rw [if_neg h0] at hc
      exact ih _ _ hds c hc

theorem toDigits_value (n : Nat) : digitsValue 0 (Nat.toDigits 10 n) = n := by
  unfold Nat.toDigits
  rw [toDigitsCore_value (n + 1) n [] (by omega)]
  rfl

theorem toDigits_isDigit (n : Nat) : ∀ c ∈ Nat.toDigits 10 n, c.isDigit = true :=
  toDigitsCore_isDigit (n + 1) n [] (fun c hc => absurd hc (List.not_mem_nil c))

theorem toDigits_injective (n m : Nat) (h : Nat.toDigits 10 n = Nat.toDigits 10 m) : n = m := by
  rw [← toDigits_value n, ← toDigits_value m, h]

theorem intToString_data_ofNat (n : Nat) :
    (toString (Int.ofNat n)).data = Nat.toDigits 10 n := rfl

theorem intToString_data_negSucc (n : Nat) :
    (toString (Int.negSucc n)).data = '-' :: Nat.toDigits 10 (n + 1) := rfl

theorem intToString_no_underscore (i : Int) : '_' ∉ (toString i).data := by
  intro h
  cases i with
  | ofNat n =>
    rw [intToString_data_ofNat] at h
    exact absurd (toDigits_isDigit n _ h) (by decide)
  | negSucc n =>
    rw [intToString_data_negSucc] at h
    rcases List.mem_cons.mp h with h | h
    · exact absurd h (by decide)
    · exact absurd (toDigits_isDigit _ _ h) (by decide)

theorem intToString_injective (i j : Int) (h : (toString i).data = (toString j).data) :
    i = j := by
  cases i with
  | ofNat n =>
    cases j with
    | ofNat m =>
      rw [intToString_data_ofNat, intToString_data_ofNat] at h
      rw [toDigits_injective n m h]
    | negSucc m =>
      rw [intToString_data_ofNat, intToString_data_negSucc] at h
      have hmem : '-' ∈ Nat.toDigits 10 n := by
        rw [h]
        exact List.mem_cons_self _ _
      exact absurd (toDigits_isDigit n _ hmem) (by decide)
  | negSucc n =>
    cases j with
    | ofNat m =>
      rw [intToString_data_ofNat, intToString_data_negSucc] at h
      have hmem : '-' ∈ Nat.toDigits 10 m := by
        rw [← h]
        exact List.mem_cons_self _ _
      exact absurd (toDigits_isDigit m _ hmem) (by decide)
    | negSucc m =>
      rw [intToString_data_negSucc, intToString_data_negSucc] at h
      have := toDigits_injective _ _ (List.cons.inj h).2
      have hnm : n = m := by omega
      rw [hnm]

theorem split_at_first {α : Type} (sep : α) : ∀ (a b x y : List α),
    sep ∉ a → sep ∉ b → a ++ sep :: x = b ++ sep :: y → a = b ∧ x = y := by
  intro a
  induction a with
  | nil =>
    intro b x y _ hb h
    cases b with
    | nil => exact ⟨rfl, (List.cons.inj h).2⟩
    | cons c b =>
      have hc : sep = c := (List.cons.inj h).1
      exact absurd (hc ▸ List.mem_cons_self _ _) hb
  | cons c a ih =>
    intro b x y ha hb h
    cases b with
    | nil =>
      have hc : c = sep := (List.cons.inj h).1
      exact absurd (hc ▸ List.mem_cons_self _ _) ha
    | cons d b =>
      obtain ⟨hcd, hrest⟩ := List.cons.inj h
      obtain ⟨hab, hxy⟩ := ih b x y (fun hm => ha (List.mem_cons_of_mem _ hm))
        (fun hm => hb (List.mem_cons_of_mem _ hm)) hrest
      exact ⟨by rw [hcd, hab], hxy⟩

theorem split_at_last {α : Type} (sep : α) (a b x y : List α)
    (ha : sep ∉ a) (hb : sep ∉ b) (h : x ++ sep :: a = y ++ sep :: b) : x = y ∧ a = b := by
  have hrev := congrArg List.reverse h
  simp only [List.reverse_append, List.reverse_cons, List.append_assoc, List.singleton_append]
    at hrev
  obtain ⟨h1, h2⟩ := split_at_first sep a.reverse b.reverse x.reverse y.reverse
    (by simpa using ha) (by simpa using hb) hrev
  exact ⟨List.reverse_injective h2, List.reverse_injective h1⟩

theorem numbered_key_injective (p c1 c2 : String) (l1 s1 l2 s2 : Int)
    (h : p ++ c1 ++ "_" ++ toString l1 ++ "_" ++ toString s1 =
      p ++ c2 ++ "_" ++ toString l2 ++ "_" ++ toString s2) :
    c1 = c2 ∧ l1 = l2 ∧ s1 = s2 := by
  have hd := congrArg String.data h
  simp only [String.data_append] at hd
  simp only [List.append_assoc, List.singleton_append] at hd
  have h1 := split_at_last '_' _ _ (p.data ++ (c1.data ++ '_' :: (toString l1).data))
    (p.data ++ (c2.data ++ '_' :: (toString l2).data))
    (intToString_no_underscore s1) (intToString_no_underscore s2)
    (by simpa [List.append_assoc] using hd)
  have h2 := split_at_last '_' _ _ (p.data ++ c1.data) (p.data ++ c2.data)
    (intToString_no_underscore l1) (intToString_no_underscore l2)
    (by simpa [List.append_assoc] using h1.1)
  exact ⟨String.ext (List.append_cancel_left h2.1), intToString_injective _ _ h2.2,
    intToString_injective _ _ h1.2⟩

theorem Request.cacheKey_head (r : Request) :
    r.cacheKey.data.head? = some (match r with
      | .allProducts _ _ => 'a'
      | .byCategory _ _ _ => 'c'
      | .byId _ => 'p'
      | .search _ _ _ => 's'
      | .categories => 'c') := by
  cases r <;> rfl

theorem categoryKey_eighth (c : String) (l s : Int) :
    (categoryKey c l s).data[7]? = some 'y' := rfl

theorem categoriesKey_eighth : categoriesKey.data[7]? = some 'i' := rfl

theorem Request.cacheKey_inj (r1 r2 : Request) (h : r1.cacheKey = r2.cacheKey) : r1 = r2 := by
  have hhead : r1.cacheKey.data.head? = r2.cacheKey.data.head? := by rw [h]
  rw [Request.cacheKey_head r1, Request.cacheKey_head r2] at hhead
  cases r1 with
  | allProducts l1 s1 =>
    cases r2 with
    | allProducts l2 s2 =>
      have := numbered_key_injective "all_products" "" "" l1 s1 l2 s2 h
      rw [this.2.1, this.2.2]
    | byCategory c2 l2 s2 => simp at hhead
    | byId id2 => simp at hhead
    | search q2 l2 s2 => simp at hhead
    | categories => simp at hhead
  | byCategory c1 l1 s1 =>
    cases r2 with
    | allProducts l2 s2 => simp at hhead
    | byCategory c2 l2 s2 =>
      have := numbered_key_injective "category_" c1 c2 l1 s1 l2 s2 h
      rw [this.1, this.2.1, this.2.2]
    | byId id2 => simp at hhead
    | search q2 l2 s2 => simp at hhead
    | categories =>
      have h8 : (categoryKey c1 l1 s1).data[7]? = categoriesKey.data[7]? := by
        rw [show categoryKey c1 l1 s1 = categoriesKey from h]
      rw [categoryKey_eighth, categoriesKey_eighth] at h8
      simp at h8
  | byId id1 =>
    cases r2 with
    | allProducts l2 s2 => simp at hhead
    | byCategory c2 l2 s2 => simp at hhead
    | byId id2 =>
      have hd := congrArg String.data h
      simp only [Request.cacheKey, productKey, String.data_append] at hd
      rw [String.ext (List.append_cancel_left hd)]
    | search q2 l2 s2 => simp at hhead
    | categories => simp at hhead
  | search q1 l1 s1 =>
    cases r2 with
    | allProducts l2 s2 => simp at hhead
    | byCategory c2 l2 s2 => simp at hhead
    | byId id2 => simp at hhead
    | search q2 l2 s2 =>
      have := numbered_key_injective "search_" q1 q2 l1 s1 l2 s2 h
      rw [this.1, this.2.1, this.2.2]
    | categories => simp at hhead
  | categories =>
    cases r2 with
    | allProducts l2 s2 => simp at hhead
    | byCategory c2 l2 s2 =>
      have h8 : categoriesKey.data[7]? = (categoryKey c2 l2 s2).data[7]? := by
        rw [show categoriesKey = categoryKey c2 l2 s2 from h]
      rw [categoryKey_eighth, categoriesKey_eighth] at h8
      simp at h8
    | byId id2 => simp at hhead
    | search q2 l2 s2 => simp at hhead
    | categories => rfl

/-! ## Lemmas on failing gateway calls -/

theorem transformProducts_none (random : Nat → ℚ) (products : List RawProduct)
    (h : hasUncategorized products) : ∀ i, transformProducts random products i = none := by
  induction products with
  | nil =>
    obtain ⟨p, hp, _⟩ := h
    exact absurd hp (List.not_mem_nil p)
  | cons p rest ih =>
    intro i
    obtain ⟨q, hq, hcat⟩ := h
    cases hp : p.category with
    | none => simp [transformProducts, transformProduct, hp]
    | some c =>
      have hrest : hasUncategorized rest := by
        rcases List.mem_cons.mp hq with hq | hq
        · rw [hq, hp] at hcat
          cases hcat
        · exact ⟨q, hq, hcat⟩
      simp [transformProducts, transformProduct, hp, ih hrest (i + 1)]

theorem Request.fetch_none_of_failing (req : Request) (w : World) (h : req.failing w) :
    req.fetch w = none := by
  have hlist : (w.listResponse = HttpResult.rejected ∨
      w.listResponse = HttpResult.resolved none ∨
      ∃ products, w.listResponse = HttpResult.resolved (some { products := some products }) ∧
        hasUncategorized products) → fetchProductList w.listResponse w.random = none := by
    rintro (hr | hr | ⟨products, hr, hu⟩)
    · simp [fetchProductList, hr]
    · simp [fetchProductList, hr]
    · simp [fetchProductList, hr, transformProducts_none w.random products hu 0]
  cases req with
  | allProducts limit skip => exact hlist h
  | byCategory category limit skip => exact hlist h
  | search query limit skip => exact hlist h
  | byId id =>
    rcases h with hr | hr | ⟨p, hr, hcat⟩
    · simp [Request.fetch, fetchProductDetail, hr]
    · simp [Request.fetch, fetchProductDetail, hr]
    · simp [Request.fetch, fetchProductDetail, hr, transformProductDetail, hcat]
  | categories =>
    have hr : w.categoriesResponse = HttpResult.rejected := h
    simp [Request.fetch, fetchCategories, hr]

theorem Request.run_of_failed (req : Request) (w : World) (svc : ProductService)
    (hnull : (svc.getFromCache req.cacheKey w.now).1.truthy = false)
    (hfetch : req.fetch w = none) :
    (req.run w svc).result = .error req.errorMessage ∧
    (req.run w svc).requests.length = 1 ∧
    (req.run w svc).service = (svc.getFromCache req.cacheKey w.now).2 := by
  cases req <;>
    simp only [Request.cacheKey] at hnull <;>
    simp only [Request.fetch] at hfetch <;>
    simp [Request.run, Request.cacheKey, Request.errorMessage, ProductService.getAllProducts,
      ProductService.getProductsByCategory, ProductService.getProductById,
      ProductService.searchProducts, ProductService.getCategories, hnull, hfetch]

theorem ProductService.getFromCache_miss_get (svc : ProductService) (key : String) (now : Nat)
    (hmiss : ∀ e, svc.cache.get key = some e → e.fresh now = false) :
    (svc.getFromCache key now).2.cache.get key = none := by
  unfold ProductService.getFromCache
  cases hget : svc.cache.get key with
  | none => simp [JsMap.get_delete_self]
  | some e => simp [hmiss e hget, JsMap.get_delete_self]

/-! ## Properties of the normalization helpers -/

/-- C18: for every category string `c`, `determineGender(c)` is `"men"` iff `c` is one of
`mens-shoes`, `mens-watches`, `mens-shirts`, `mens-bags`; `"women"` iff `c` is one of
`womens-shoes`, `womens-watches`, `womens-dresses`, `womens-bags`; and `"unisex"` iff it is
none of the eight. The match is exact, and the result is always one of the three tags. -/
theorem determineGender_spec (c : String) :
    (determineGender (some c) = "men" ↔
      c = "mens-shoes" ∨ c = "mens-watches" ∨ c = "mens-shirts" ∨ c = "mens-bags") ∧
    (determineGender (some c) = "women" ↔
      c = "womens-shoes" ∨ c = "womens-watches" ∨ c = "womens-dresses" ∨ c = "womens-bags") ∧
    (determineGender (some c) = "unisex" ↔
      ¬ (c = "mens-shoes" ∨ c = "mens-watches" ∨ c = "mens-shirts" ∨ c = "mens-bags") ∧
      ¬ (c = "womens-shoes" ∨ c = "womens-watches" ∨ c = "womens-dresses" ∨
          c = "womens-bags")) ∧
    (determineGender (some c) = "men" ∨ determineGender (some c) = "women" ∨
      determineGender (some c) = "unisex") := by
  by_cases hm : c = "mens-shoes" ∨ c = "mens-watches" ∨ c = "mens-shirts" ∨ c = "mens-bags"
  · have hval : determineGender (some c) = "men" := by
      rcases hm with h | h | h | h <;> subst h <;> decide
    have hw : ¬ (c = "womens-shoes" ∨ c = "womens-watches" ∨ c = "womens-dresses" ∨
        c = "womens-bags") := by
      rcases hm with h | h | h | h <;> subst h <;> decide
    rw [hval]
    refine ⟨⟨fun _ => hm, fun _ => rfl⟩, ⟨fun h => ?_, fun h => absurd h hw⟩,
      ⟨fun h => ?_, fun h => absurd hm h.1⟩, Or.inl rfl⟩
    · exact absurd h (by decide)
    · exact absurd h (by decide)
  · by_cases hw : c = "womens-shoes" ∨ c = "womens-watches" ∨ c = "womens-dresses" ∨
        c = "womens-bags"
    · have hval : determineGender (some c) = "women" := by
        rcases hw with h | h | h | h <;> subst h <;> decide
      rw [hval]
      refine ⟨⟨fun h => ?_, fun h => absurd h hm⟩, ⟨fun _ => hw, fun _ => rfl⟩,
        ⟨fun h => ?_, fun h => absurd hw h.2⟩, Or.inr (Or.inl rfl)⟩
      · exact absurd h (by decide)
      · exact absurd h (by decide)
    · have hval : determineGender (some c) = "unisex" := by
        simp only [not_or] at hm hw
        simp [determineGender, hm, hw]
      rw [hval]
      refine ⟨⟨fun h => ?_, fun h => absurd h hm⟩, ⟨fun h => ?_, fun h => absurd h hw⟩,
        ⟨fun _ => ⟨hm, hw⟩, fun _ => rfl⟩, Or.inr (Or.inr rfl)⟩
      · exact absurd h (by decide)
      · exact absurd h (by decide)

theorem jsIncludes_iff (s sub : String) : jsIncludes s sub = true ↔ IsSubstring sub s := by
  unfold jsIncludes IsSubstring
  simp only [List.any_eq_true, List.mem_tails]
  constructor
  · rintro ⟨t, ⟨pre, hpre⟩, ht⟩
    simp only [List.isPrefixOf_iff_prefix] at ht
    obtain ⟨post, hpost⟩ := ht
    refine ⟨⟨pre⟩, ⟨post⟩, String.ext ?_⟩
    simp only [String.data_append]
    rw [← hpre, ← hpost, List.append_assoc]
  · rintro ⟨pre, post, h⟩
    refine ⟨sub.data ++ post.data, ⟨pre.data, ?_⟩, ?_⟩
    · rw [h]
      simp only [String.data_append, List.append_assoc]
    · simp only [List.isPrefixOf_iff_prefix]
      exact ⟨post.data, rfl⟩

/-- C19: for every category string `c`, `generateSizes(c)` is the numeric list `6` to `12` if
`c` contains `shoes` or `watches` as a substring (also when `shirts` or `dresses` occurs as
well: this rule comes first); otherwise the letter sizes `XS` to `XXL` if `c` contains `shirts`
or `dresses`; otherwise `["One Size"]`. -/
theorem generateSizes_spec (c : String) :
    ((IsSubstring "shoes" c ∨ IsSubstring "watches" c) →
      generateSizes c = ["6", "7", "8", "9", "10", "11", "12"]) ∧
    (¬ (IsSubstring "shoes" c ∨ IsSubstring "watches" c) →
      (IsSubstring "shirts" c ∨ IsSubstring "dresses" c) →
      generateSizes c = ["XS", "S", "M", "L", "XL", "XXL"]) ∧
    (¬ (IsSubstring "shoes" c ∨ IsSubstring "watches" c) →
      ¬ (IsSubstring "shirts" c ∨ IsSubstring "dresses" c) →
      generateSizes c = ["One Size"]) := by
  have ha : (jsIncludes c "shoes" || jsIncludes c "watches") = true ↔
      (IsSubstring "shoes" c ∨ IsSubstring "watches" c) := by
    rw [Bool.or_eq_true, jsIncludes_iff, jsIncludes_iff]
  have hb : (jsIncludes c "shirts" || jsIncludes c "dresses") = true ↔
      (IsSubstring "shirts" c ∨ IsSubstring "dresses" c) := by
    rw [Bool.or_eq_true, jsIncludes_iff, jsIncludes_iff]
  unfold generateSizes
  refine ⟨fun h => ?_, fun h1 h2 => ?_, fun h1 h2 => ?_⟩
  · rw [if_pos (ha.mpr h)]
  · rw [if_neg (fun h => h1 (ha.mp h)), if_pos (hb.mpr h2)]
  · rw [if_neg (fun h => h1 (ha.mp h)), if_neg (fun h => h2 (hb.mp h))]

/-- C19 on a category matching both rules: `shoes-and-shirts` gets the numeric sizes. -/
theorem generateSizes_spec_witness :
    IsSubstring "shirts" "shoes-and-shirts" ∧
    generateSizes "shoes-and-shirts" = ["6", "7", "8", "9", "10", "11", "12"] :=
  ⟨⟨"shoes-and-", "", by decide⟩,
    (generateSizes_spec "shoes-and-shirts").1 (Or.inl ⟨"", "-and-shirts", by decide⟩)⟩

/-- C18 on a category in another letter case: the match is exact, so the tag is `unisex`. -/
theorem determineGender_spec_witness : determineGender (some "Mens-Shoes") = "unisex" :=
  (determineGender_spec "Mens-Shoes").2.2.1.mpr ⟨by decide, by decide⟩

/-- C20: for every category and every draw `r` with `0 ≤ r < 1`, `generateColors` returns the
first `⌊4r⌋ + 2` entries of the palette `black, white, red, blue, green, yellow, pink, purple`:
between 2 and 5 colours, pairwise distinct and all from the palette; and each of the lengths
2, 3, 4, 5 is produced by some draw. -/
theorem generateColors_spec (category : String) (r : ℚ) (h0 : 0 ≤ r) (h1 : r < 1) :
    commonColors =
      ["black", "white", "red", "blue", "green", "yellow", "pink", "purple"] ∧
    generateColors category r = commonColors.take (⌊4 * r⌋.toNat + 2) ∧
    (generateColors category r).length = ⌊4 * r⌋.toNat + 2 ∧
    2 ≤ (generateColors category r).length ∧ (generateColors category r).length ≤ 5 ∧
    (generateColors category r).Nodup ∧
    (∀ colour ∈ generateColors category r, colour ∈ commonColors) ∧
    ∀ n, 2 ≤ n → n ≤ 5 →
      ∃ r' : ℚ, 0 ≤ r' ∧ r' < 1 ∧ (generateColors category r').length = n := by
  have hcomm : r * 4 = 4 * r := mul_comm r 4
  have hlo : 0 ≤ ⌊4 * r⌋ := Int.floor_nonneg.mpr (by linarith)
  have hhi : ⌊4 * r⌋ < 4 := Int.floor_lt.mpr (by push_cast; linarith)
  have hex : ∀ n, 2 ≤ n → n ≤ 5 →
      ∃ r' : ℚ, 0 ≤ r' ∧ r' < 1 ∧ (generateColors category r').length = n := by
    intro n h2 h5
    have hf0 : ⌊(0 : ℚ) * 4⌋ = 0 := by norm_num
    have hf1 : ⌊(1 / 4 : ℚ) * 4⌋ = 1 := by norm_num
    have hf2 : ⌊(1 / 2 : ℚ) * 4⌋ = 2 := by norm_num
    have hf3 : ⌊(3 / 4 : ℚ) * 4⌋ = 3 := by norm_num
    interval_cases n
    · exact ⟨0, by norm_num, by norm_num, by
        unfold generateColors
        rw [hf0]
        rfl⟩
    · exact ⟨1 / 4, by norm_num, by norm_num, by
        unfold generateColors
        rw [hf1]
        rfl⟩
    · exact ⟨1 / 2, by norm_num, by norm_num, by
        unfold generateColors
        rw [hf2]
        rfl⟩
    · exact ⟨3 / 4, by norm_num, by norm_num, by
        unfold generateColors
        rw [hf3]
        rfl⟩
  refine ⟨rfl, ?_⟩
  unfold generateColors
  rw [hcomm]
  generalize ⌊4 * r⌋ = k at hlo hhi
  interval_cases k <;>
    simp [jsSliceTo, commonColors] <;> exact hex

/-- C20 at the draw `r = 3/4`: five colours. -/
theorem generateColors_spec_witness :
    ((0 : ℚ) ≤ 3 / 4 ∧ (3 / 4 : ℚ) < 1) ∧
    generateColors "mens-shirts" (3 / 4) = ["black", "white", "red", "blue", "green"] := by
  have h := (generateColors_spec "mens-shirts" (3 / 4) (by norm_num) (by norm_num)).2.1
  have hf : ⌊(4 : ℚ) * (3 / 4)⌋ = 3 := by norm_num
  rw [hf] at h
  exact ⟨⟨by norm_num, by norm_num⟩, h⟩

/-! ## Properties of the cart store and of enrichment -/

/-- C13: for every store state and every quantity `q ≤ 0`, `addItem(user, productId, q)`
and `updateItem(itemId, q)` are answered with status 400 and leave the store as it is (no
cart, no item is created or changed) and request nothing, whatever the product reference
(present or not) and the item id are and whether or not a cart exists. -/
theorem nonpositive_quantity_rejected (store : CartStore) (uid : String) (hu : uid ≠ "")
    (q : Int) (hq : q ≤ 0) (productId : Option ProductRef) (itemId : String) (env : CartEnv) :
    addItem store (some uid) productId (some q) env =
      { status := 400, message := "Product ID and valid quantity required", cart := none,
        store := store, requests := [] } ∧
    updateItem store (some uid) itemId (some q) env =
      { status := 400, message := "Valid quantity is required", cart := none,
        store := store, requests := [] } := by
  constructor
  · cases productId with
    | none => simp [addItem, authenticatedUser_some uid hu]
    | some p => simp [addItem, authenticatedUser_some uid hu, hq]
  · simp [updateItem, authenticatedUser_some uid hu, hq]

/-- C13 at a concrete store: quantity 0 for an existing item and quantity -3 for a product,
both rejected with the store untouched. -/
theorem nonpositive_quantity_rejected_witness :
    (addItem exampleCarts (some "u1") (some (ProductRef.num 1)) (some (-3))
      (exampleCartEnv "c9" "i9")).store = exampleCarts ∧
    (updateItem exampleCarts (some "u1") "i1" (some (-3)) (exampleCartEnv "c9" "i9")).status =
      400 := by
  have h := nonpositive_quantity_rejected exampleCarts "u1" (by decide) (-3) (by decide)
    (some (ProductRef.num 1)) "i1" (exampleCartEnv "c9" "i9")
  exact ⟨by rw [h.1], by rw [h.2]⟩

/-- C14: for every list of cart items and every catalog, failing lookups included, the
enriched list has the same length and order: the entry at position `i` carries the stored
item at position `i` unchanged (id, cartId, productId, quantity), with `product = null` if its
lookup is rejected and the looked-up value if it resolves. Enrichment is total, and `GET /`
answers 200 with the enriched items for every authenticated user and every catalog. -/
theorem enrichment_resilient (http : String → HttpResult JsVal) (items : List CartItem) :
    (detailedItems http items).length = items.length ∧
    (∀ (i : Nat) (item : CartItem), items[i]? = some item →
      ∃ d, (detailedItems http items)[i]? = some d ∧ d.item = item ∧
        (fetchProductDetails http item.productId = HttpResult.rejected →
          d.product = JsVal.null) ∧
        (∀ data, fetchProductDetails http item.productId = HttpResult.resolved data →
          d.product = data)) ∧
    (∀ (store : CartStore) (uid : String) (env : CartEnv), uid ≠ "" →
      (getCart store (some uid) env).status = 200 ∧
      ∃ view, (getCart store (some uid) env).cart = some view ∧
        view.items = detailedItems env.http
          ((getCart store (some uid) env).store.itemsOfCart
            (getOrCreateCart store uid env.newCartId).1.id)) := by
  refine ⟨by simp [detailedItems], ?_, ?_⟩
  · intro i item hi
    refine ⟨detailItem http item, ?_, rfl, ?_, ?_⟩
    · simp [detailedItems, List.getElem?_map, hi]
    · intro h
      simp [detailItem, h]
    · intro data h
      simp [detailItem, h]
  · intro store uid env hu
    simp [getCart, authenticatedUser_some uid hu, cartResponse]

/-- C14 at a concrete cart: product `1` is known to the catalog, product `2` is not. -/
theorem enrichment_resilient_witness :
    (detailedItems exampleCatalog (exampleCarts.itemsOfCart "c1")).map (fun d => d.product) =
      [JsVal.obj [("id", JsVal.num 1), ("title", JsVal.str "Mascara")], JsVal.null] ∧
    (detailedItems exampleCatalog (exampleCarts.itemsOfCart "c1")).length =
      (exampleCarts.itemsOfCart "c1").length :=
  ⟨rfl, (enrichment_resilient exampleCatalog (exampleCarts.itemsOfCart "c1")).1⟩

/-- C15: for an authenticated caller and `q > 0`, `updateItem(itemId, q)` and
`removeItem(itemId)` answer 404 if and only if no cart item has that id, and then the store is
as before. When an item with the id exists, the table is `pre ++ it :: post` with `it` the
row of that id: `updateItem` leaves `pre ++ { it with quantity := q } :: post` (the quantity is
replaced, not added) and `removeItem` leaves `pre ++ post`; carts are untouched. -/
theorem item_update_remove (store : CartStore) (uid : String) (hu : uid ≠ "")
    (itemId : String) (q : Int) (hq : 0 < q) (env : CartEnv) :
    ((updateItem store (some uid) itemId (some q) env).status = 404 ↔
      ¬ ∃ it ∈ store.items, it.id = itemId) ∧
    ((removeItem store (some uid) itemId env).status = 404 ↔
      ¬ ∃ it ∈ store.items, it.id = itemId) ∧
    ((¬ ∃ it ∈ store.items, it.id = itemId) →
      (updateItem store (some uid) itemId (some q) env).store = store ∧
      (removeItem store (some uid) itemId env).store = store) ∧
    ((∃ it ∈ store.items, it.id = itemId) →
      ∃ pre it post, store.items = pre ++ it :: post ∧ it.id = itemId ∧
        (∀ x ∈ pre, x.id ≠ itemId) ∧
        (updateItem store (some uid) itemId (some q) env).store =
          { carts := store.carts, items := pre ++ { it with quantity := q } :: post } ∧
        (removeItem store (some uid) itemId env).store =
          { carts := store.carts, items := pre ++ post }) := by
  have hq0 : q ≠ 0 := ne_of_gt hq
  have hq1 : ¬ q ≤ 0 := not_le.mpr hq
  cases hfind : store.findItem itemId with
  | none =>
    have hno := (CartStore.findItem_eq_none_iff store itemId).mp hfind
    have hup : updateItem store (some uid) itemId (some q) env =
        { status := 404, message := "Item not found in cart", cart := none, store := store,
          requests := [] } := by
      simp [updateItem, authenticatedUser_some uid hu, hq0, hq1, hfind]
    have hrm : removeItem store (some uid) itemId env =
        { status := 404, message := "Item not found in cart", cart := none, store := store,
          requests := [] } := by
      simp [removeItem, authenticatedUser_some uid hu, hfind]
    rw [hup, hrm]
    exact ⟨⟨fun _ => hno, fun _ => rfl⟩, ⟨fun _ => hno, fun _ => rfl⟩, fun _ => ⟨rfl, rfl⟩,
      fun hex => absurd hex hno⟩
  | some item =>
    obtain ⟨hid, pre, post, hsplit, hpre⟩ := CartStore.findItem_split store itemId item hfind
    have hex : ∃ it ∈ store.items, it.id = itemId := ⟨item, by rw [hsplit]; simp, hid⟩
    have hset : setQuantityRow store.items itemId q =
        pre ++ { item with quantity := q } :: post := by
      rw [hsplit]
      exact setQuantityRow_split pre post item itemId q hid hpre
    have hdel : deleteItemRow store.items itemId = pre ++ post := by
      rw [hsplit]
      exact deleteItemRow_split pre post item itemId hid hpre
    have hup : (updateItem store (some uid) itemId (some q) env).status ≠ 404 ∧
        (updateItem store (some uid) itemId (some q) env).store =
          { carts := store.carts, items := pre ++ { item with quantity := q } :: post } := by
      simp only [updateItem, authenticatedUser_some uid hu, hfind, hset]
      rw [if_neg (by simp [hq0, hq1])]
      split <;> simp [cartResponse]
    have hrm : (removeItem store (some uid) itemId env).status ≠ 404 ∧
        (removeItem store (some uid) itemId env).store =
          { carts := store.carts, items := pre ++ post } := by
      simp only [removeItem, authenticatedUser_some uid hu, hfind, hdel]
      split <;> simp [cartResponse]
    exact ⟨⟨fun h => absurd h hup.1, fun h => absurd hex h⟩,
      ⟨fun h => absurd h hrm.1, fun h => absurd hex h⟩, fun h => absurd hex h,
      fun _ => ⟨pre, item, post, hsplit, hid, hpre, hup.2, hrm.2⟩⟩

/-- C15 at a concrete store: item `i2` of another user's cart is set to 7; item `zz` does
not exist. -/
theorem item_update_remove_witness :
    (updateItem exampleCarts (some "u1") "zz" (some 7) (exampleCartEnv "c9" "i9")).status = 404 ∧
    (updateItem exampleCarts (some "u1") "zz" (some 7) (exampleCartEnv "c9" "i9")).store =
      exampleCarts ∧
    (updateItem exampleCarts (some "u1") "i2" (some 7) (exampleCartEnv "c9" "i9")).status ≠
      404 := by
  have hzz := item_update_remove exampleCarts "u1" (by decide) "zz" 7 (by decide)
    (exampleCartEnv "c9" "i9")
  have hi2 := item_update_remove exampleCarts "u1" (by decide) "i2" 7 (by decide)
    (exampleCartEnv "c9" "i9")
  have hno : ¬ ∃ it ∈ exampleCarts.items, it.id = "zz" := by
    simp [exampleCarts]
  have hyes : ∃ it ∈ exampleCarts.items, it.id = "i2" := by
    simp [exampleCarts]
  exact ⟨hzz.1.mpr hno, (hzz.2.2.1 hno).1, fun h => (hi2.1.mp h) hyes⟩

/-- C16: for an authenticated user `clear` always answers 200. If the user has a cart,
afterwards that cart has no items, the cart table is as before, and the items of every other
cart are as before (the item table is the old one without the rows of this cart). If the user
has no cart, the store is as before, no cart is created, and the answer carries an empty item
list. -/
theorem clear_cart (store : CartStore) (uid : String) (hu : uid ≠ "") :
    (clearCart store (some uid)).status = 200 ∧
    (∀ cart, store.findCartByUser uid = some cart →
      (clearCart store (some uid)).store.carts = store.carts ∧
      (clearCart store (some uid)).store.itemsOfCart cart.id = [] ∧
      (∀ cartId, cartId ≠ cart.id →
        (clearCart store (some uid)).store.itemsOfCart cartId = store.itemsOfCart cartId) ∧
      (clearCart store (some uid)).store.items =
        store.items.filter (fun i => ¬ i.cartId = cart.id) ∧
      (clearCart store (some uid)).cart =
        some { id := some cart.id, userId := some cart.userId, items := [] }) ∧
    (store.findCartByUser uid = none →
      (clearCart store (some uid)).store = store ∧
      (clearCart store (some uid)).cart = some { id := none, userId := none, items := [] }) := by
  cases hfind : store.findCartByUser uid with
  | none =>
    simp [clearCart, authenticatedUser_some uid hu, hfind]
  | some cart =>
    have hval : clearCart store (some uid) =
        { status := 200, message := "Cart cleared",
          cart := some { id := some cart.id, userId := some cart.userId, items := [] },
          store := { store with items := store.items.filter (fun i => ¬ i.cartId = cart.id) },
          requests := [] } := by
      simp [clearCart, authenticatedUser_some uid hu, hfind]
    rw [hval]
    refine ⟨rfl, fun c hc => ?_, fun h => by cases h⟩
    cases hc
    refine ⟨rfl, ?_, ?_, rfl, rfl⟩
    · simp only [CartStore.itemsOfCart, List.filter_filter]
      rw [List.filter_eq_nil_iff]
      intro i _
      simp
    · intro cartId hne
      simp only [CartStore.itemsOfCart, List.filter_filter]
      apply List.filter_congr
      intro i _
      by_cases hi : i.cartId = cartId
      · simp [hi, hne]
      · simp [hi]

/-- C16 at a concrete store: clearing the cart of `u1` leaves only the item of `u2`, and
clearing for a user without a cart changes nothing. -/
theorem clear_cart_witness :
    (clearCart exampleCarts (some "u1")).store.items =
      [{ id := "i2", cartId := "c2", productId := "1", quantity := 1 }] ∧
    (clearCart exampleCarts (some "u7")).store = exampleCarts := by
  have h1 := clear_cart exampleCarts "u1" (by decide)
  have h7 := clear_cart exampleCarts "u7" (by decide)
  refine ⟨?_, (h7.2.2 rfl).1⟩
  rw [(h1.2.1 { id := "c1", userId := "u1" } rfl).2.2.2.1]
  rfl

/-- C17: `getOrCreate(userId)` returns the user's cart and leaves the store as it is when
the user has one; otherwise it appends exactly one cart for the user and touches no item, and
that cart has no items when the id it gets is not yet referenced. A second call returns the
same cart and leaves the same store as the first. If the store has at most one cart per user,
so it has after any sequence of calls; the empty store is such a store. -/
theorem getOrCreate_idempotent (store : CartStore) (uid newId newId' : String) :
    (∀ cart, store.findCartByUser uid = some cart →
      getOrCreateCart store uid newId = (cart, store)) ∧
    (store.findCartByUser uid = none →
      (getOrCreateCart store uid newId).1 = { id := newId, userId := uid } ∧
      (getOrCreateCart store uid newId).2.carts =
        store.carts ++ [{ id := newId, userId := uid }] ∧
      (getOrCreateCart store uid newId).2.items = store.items ∧
      ((∀ it ∈ store.items, it.cartId ≠ newId) →
        (getOrCreateCart store uid newId).2.itemsOfCart newId = [])) ∧
    getOrCreateCart (getOrCreateCart store uid newId).2 uid newId' =
      getOrCreateCart store uid newId ∧
    ((store.carts.map (fun c => c.userId)).Nodup →
      ∀ calls : List (String × String),
        ((calls.foldl (fun s call => (getOrCreateCart s call.1 call.2).2) store).carts.map
          (fun c => c.userId)).Nodup) ∧
    (emptyCartStore.carts.map (fun c => c.userId)).Nodup := by
  refine ⟨fun cart h => getOrCreateCart_found store uid newId cart h, fun h => ?_,
    getOrCreateCart_again store uid newId newId', fun h calls => ?_, List.nodup_nil⟩
  · rw [getOrCreateCart_created store uid newId h]
    refine ⟨rfl, rfl, rfl, fun hfresh => ?_⟩
    simp only [CartStore.itemsOfCart]
    rw [List.filter_eq_nil_iff]
    intro it hit
    simpa using hfresh it hit
  · induction calls generalizing store with
    | nil => exact h
    | cons call rest ih =>
      simp only [List.foldl_cons]
      exact ih _ (getOrCreateCart_unique store call.1 call.2 h)

/-- C17 from the empty store: two calls for `u1` and one for `u2` leave two carts. -/
theorem getOrCreate_idempotent_witness :
    (emptyCartStore.carts.map (fun c => c.userId)).Nodup ∧
    ([("u1", "c1"), ("u1", "c2"), ("u2", "c3")].foldl
      (fun s call => (getOrCreateCart s call.1 call.2).2) emptyCartStore).carts =
        [{ id := "c1", userId := "u1" }, { id := "c3", userId := "u2" }] ∧
    (([("u1", "c1"), ("u1", "c2"), ("u2", "c3")].foldl
      (fun s call => (getOrCreateCart s call.1 call.2).2) emptyCartStore).carts.map
        (fun c => c.userId)).Nodup :=
  ⟨List.nodup_nil, rfl,
    (getOrCreate_idempotent emptyCartStore "u1" "c1" "c2").2.2.2.1 List.nodup_nil
      [("u1", "c1"), ("u1", "c2"), ("u2", "c3")]⟩

/-- C12: starting from the empty store, after any sequence of `getOrCreate`, `GET /`,
`addItem`, `updateItem`, `removeItem` and `clear` calls, with any parameters and any ids
handed out by the store, no two cart items have the same `(cartId, productId)` pair, the
product id being the string stored, that is `String(productId)` of the request. -/
theorem cart_items_unique (ops : List (CartOp × CartEnv)) :
    ((runCartOps emptyCartStore ops).items.map (fun i => (i.cartId, i.productId))).Nodup := by
  have hgen : ∀ (ops : List (CartOp × CartEnv)) (store : CartStore),
      (store.items.map (fun i => (i.cartId, i.productId))).Nodup →
      ((runCartOps store ops).items.map (fun i => (i.cartId, i.productId))).Nodup := by
    intro ops
    induction ops with
    | nil => exact fun _ h => h
    | cons step rest ih =>
      intro store h
      simp only [runCartOps, List.foldl_cons]
      exact ih _ (CartOp.run_keys_nodup store step.1 step.2 h)
  exact hgen ops emptyCartStore List.nodup_nil

/-- C11: for an authenticated user and a product reference `P` the route accepts (present,
hence neither `0` nor the empty string), with `cart` the user's cart (created by the call if
need be) and quantities above zero:
* if the cart already has an item for `String(P)` (item ids being distinct, as primary keys
  are), `addItem` adds the quantity to that item and leaves every other row and the number of
  rows as they were;
* if the cart has no item for `String(P)`, `addItem` appends one new item with the given
  quantity;
* in that case a second `addItem` for `P` (the first item having got a fresh id) merges into
  it: the table is the old one plus a single item for `P` with quantity `q1 + q2`, and that is
  the only item of the cart for `P`. -/
theorem addItem_merges (store : CartStore) (uid : String) (hu : uid ≠ "")
    (productId : ProductRef) (hp : productId.truthy = true) (env : CartEnv) :
    (∀ q, 0 < q → (store.items.map (fun i => i.id)).Nodup →
      (∃ it ∈ store.items, it.cartId = (getOrCreateCart store uid env.newCartId).1.id ∧
        it.productId = productId.toJsString) →
      ∃ pre existing post, store.items = pre ++ existing :: post ∧
        existing.cartId = (getOrCreateCart store uid env.newCartId).1.id ∧
        existing.productId = productId.toJsString ∧
        (addItem store (some uid) (some productId) (some q) env).store.items =
          pre ++ { existing with quantity := existing.quantity + q } :: post ∧
        (addItem store (some uid) (some productId) (some q) env).store.items.length =
          store.items.length) ∧
    (∀ q, 0 < q →
      (∀ it ∈ store.items, ¬ (it.cartId = (getOrCreateCart store uid env.newCartId).1.id ∧
        it.productId = productId.toJsString)) →
      (addItem store (some uid) (some productId) (some q) env).store.items =
        store.items ++
          [{ id := env.newItemId, cartId := (getOrCreateCart store uid env.newCartId).1.id,
             productId := productId.toJsString, quantity := q }]) ∧
    (∀ q1 q2 env2, 0 < q1 → 0 < q2 →
      (∀ it ∈ store.items, ¬ (it.cartId = (getOrCreateCart store uid env.newCartId).1.id ∧
        it.productId = productId.toJsString)) →
      (∀ it ∈ store.items, it.id ≠ env.newItemId) →
      (addItem (addItem store (some uid) (some productId) (some q1) env).store
          (some uid) (some productId) (some q2) env2).store.items =
        store.items ++
          [{ id := env.newItemId, cartId := (getOrCreateCart store uid env.newCartId).1.id,
             productId := productId.toJsString, quantity := q1 + q2 }] ∧
      ((addItem (addItem store (some uid) (some productId) (some q1) env).store
          (some uid) (some productId) (some q2) env2).store.itemsOfCart
            (getOrCreateCart store uid env.newCartId).1.id).filter
          (fun i => i.productId = productId.toJsString) =
        [{ id := env.newItemId, cartId := (getOrCreateCart store uid env.newCartId).1.id,
           productId := productId.toJsString, quantity := q1 + q2 }]) := by
  refine ⟨fun q hq hnodup hex => ?_, fun q hq hno => ?_, fun q1 q2 env2 hq1 hq2 hno hfresh => ?_⟩
  · cases hfind : store.findItemByProduct (getOrCreateCart store uid env.newCartId).1.id
        productId.toJsString with
    | none =>
      obtain ⟨it, hit, hkey⟩ := hex
      exact absurd hkey ((CartStore.findItemByProduct_eq_none_iff store _ _).mp hfind it hit)
    | some existing =>
      obtain ⟨hpx, pre, post, hsplit, _⟩ := find?_split _ _ _ hfind
      have hkey : existing.cartId = (getOrCreateCart store uid env.newCartId).1.id ∧
          existing.productId = productId.toJsString := by simpa using hpx
      have hpre : ∀ x ∈ pre, x.id ≠ existing.id := by
        intro x hx hxe
        rw [hsplit, List.map_append, List.map_cons, List.nodup_append] at hnodup
        exact hnodup.2.2 (List.mem_map.mpr ⟨x, hx, hxe⟩) (List.mem_cons_self _ _)
      have hitems : (addItem store (some uid) (some productId) (some q) env).store.items =
          pre ++ { existing with quantity := existing.quantity + q } :: post := by
        rw [addItem_store_present store uid hu productId hp q hq env existing hfind]
        simp only
        rw [hsplit]
        exact setQuantityRow_split pre post existing existing.id _ rfl hpre
      refine ⟨pre, existing, post, hsplit, hkey.1, hkey.2, hitems, ?_⟩
      rw [hitems, hsplit]
      simp
  · rw [addItem_store_absent store uid hu productId hp q hq env
      ((CartStore.findItemByProduct_eq_none_iff store _ _).mpr hno)]
  · have hnone := (CartStore.findItemByProduct_eq_none_iff store _ _).mpr hno
    have hfirst := addItem_store_absent store uid hu productId hp q1 hq1 env hnone
    have hcart : getOrCreateCart (addItem store (some uid) (some productId) (some q1) env).store
        uid env2.newCartId =
        ((getOrCreateCart store uid env.newCartId).1,
          (addItem store (some uid) (some productId) (some q1) env).store) := by
      apply getOrCreateCart_found
      rw [hfirst]
      exact getOrCreateCart_finds store uid env.newCartId
    have hfind : (addItem store (some uid) (some productId) (some q1) env).store.findItemByProduct
        (getOrCreateCart (addItem store (some uid) (some productId) (some q1) env).store
          uid env2.newCartId).1.id productId.toJsString =
        some { id := env.newItemId, cartId := (getOrCreateCart store uid env.newCartId).1.id,
               productId := productId.toJsString, quantity := q1 } := by
      rw [hcart, hfirst]
      have hn : List.find? (fun i : CartItem =>
          decide (i.cartId = (getOrCreateCart store uid env.newCartId).1.id ∧
            i.productId = productId.toJsString)) store.items = none := hnone
      simp only [CartStore.findItemByProduct, List.find?_append, hn, Option.none_or]
      simp
    have hsecond : (addItem (addItem store (some uid) (some productId) (some q1) env).store
          (some uid) (some productId) (some q2) env2).store.items =
        store.items ++
          [{ id := env.newItemId, cartId := (getOrCreateCart store uid env.newCartId).1.id,
             productId := productId.toJsString, quantity := q1 + q2 }] := by
      rw [addItem_store_present _ uid hu productId hp q2 hq2 env2 _ hfind]
      simp only
      rw [hfirst]
      exact setQuantityRow_split store.items [] _ env.newItemId (q1 + q2) rfl hfresh
    refine ⟨hsecond, ?_⟩
    simp only [CartStore.itemsOfCart, hsecond, List.filter_append, List.filter_filter]
    have hempty : List.filter (fun a : CartItem =>
        decide (a.productId = productId.toJsString) &&
          decide (a.cartId = (getOrCreateCart store uid env.newCartId).1.id)) store.items =
        [] := by
      rw [List.filter_eq_nil_iff]
      intro it hit
      have := hno it hit
      simp only [Bool.and_eq_true, decide_eq_true_eq]
      exact fun h => this ⟨h.2, h.1⟩
    rw [hempty]
    simp

/-- C11 on the scenario of the specification: from the empty store, `addItem` with
quantity 2 twice for the numeric product id 7 leaves one item, `"7"` with quantity 4. -/
theorem addItem_merges_witness :
    (addItem
      (addItem emptyCartStore (some "u1") (some (ProductRef.num 7)) (some 2)
        (exampleCartEnv "c1" "i1")).store
      (some "u1") (some (ProductRef.num 7)) (some 2) (exampleCartEnv "c2" "i2")).store.items =
      [{ id := "i1", cartId := "c1", productId := "7", quantity := 4 }] :=
  ((addItem_merges emptyCartStore "u1" (by decide) (ProductRef.num 7) (by decide)
      (exampleCartEnv "c1" "i1")).2.2 2 2 (exampleCartEnv "c2" "i2") (by decide) (by decide)
    (fun it hit => absurd hit (List.not_mem_nil it))
    (fun it hit => absurd hit (List.not_mem_nil it))).1

/-- C12 on a concrete run: the same product is added as the number 1 and as the string
`"1"`; both land in one item, and the keys of the item table are pairwise distinct. -/
theorem cart_items_unique_witness :
    (runCartOps emptyCartStore
      [(CartOp.addItem (some "u1") (some (ProductRef.num 1)) (some 2), exampleCartEnv "c1" "i1"),
       (CartOp.addItem (some "u1") (some (ProductRef.str "1")) none,
          exampleCartEnv "c2" "i2")]).items =
      [{ id := "i1", cartId := "c1", productId := "1", quantity := 3 }] ∧
    ((runCartOps emptyCartStore
      [(CartOp.addItem (some "u1") (some (ProductRef.num 1)) (some 2), exampleCartEnv "c1" "i1"),
       (CartOp.addItem (some "u1") (some (ProductRef.str "1")) none,
          exampleCartEnv "c2" "i2")]).items.map (fun i => (i.cartId, i.productId))).Nodup :=
  ⟨rfl, cart_items_unique _⟩

/-! ## Properties of the address side effect and of caller independence -/

/-- C23: for every checkout that passes validation with an existing user, the user table is
`pre ++ user :: post` with `user` the row of the request's `userId`. If that user has no
address on file (the route tests `!user.address`, so `null` or an empty value), the table
afterwards is `pre ++ { user with address := shippingAddress } :: post`; if the user has one,
the table is as before. In both cases every other field of the user and every other user
record are as before. -/
theorem checkout_address_saved (store : Store) (body : CheckoutBody) (env : CheckoutEnv)
    (item : Option CartItemInput) (rest : List (Option CartItemInput)) (t : ℚ) (uid : String)
    (user : User)
    (hitems : body.cartItems = some (item :: rest)) (htotal : body.total = some t)
    (hpos : 0 < t) (hship : body.shippingAddress.truthy = true)
    (hbill : body.billingAddress.truthy = true) (hpay : body.paymentMethod.truthy = true)
    (huid : body.userId = some uid) (hne : uid ≠ "") (huser : store.findUser uid = some user) :
    ∃ pre post, store.users = pre ++ user :: post ∧ user.id = uid ∧
      (∀ u ∈ pre, u.id ≠ uid) ∧
      (user.address.truthy = false →
        (processCheckout store body env).store.users =
          pre ++ { user with address := body.shippingAddress } :: post) ∧
      (user.address.truthy = true →
        (processCheckout store body env).store.users = store.users) := by
  obtain ⟨hid, pre, post, hsplit, hpre⟩ := Store.findUser_split store uid user huser
  refine ⟨pre, post, hsplit, hid, hpre, fun hno => ?_, fun hyes => ?_⟩
  · rcases hrows : cartRows (item :: rest) with _ | rows
    · rw [processCheckout_null_item store body env item rest t uid user hitems hrows htotal
        hpos hship hbill hpay huid hne huser]
      simp only [hno, Bool.not_false, if_true, Store.setUserAddress]
      rw [hsplit]
      exact setAddressRow_split pre post user uid body.shippingAddress hid hpre
    · rw [processCheckout_accepted store body env item rest rows t uid user hitems hrows htotal
        hpos hship hbill hpay huid hne huser]
      simp only [hno, Bool.not_false, if_true, Store.createOrder, Store.setUserAddress]
      rw [hsplit]
      exact setAddressRow_split pre post user uid body.shippingAddress hid hpre
  · rcases hrows : cartRows (item :: rest) with _ | rows
    · rw [processCheckout_null_item store body env item rest t uid user hitems hrows htotal
        hpos hship hbill hpay huid hne huser]
      simp [hyes]
    · rw [processCheckout_accepted store body env item rest rows t uid user hitems hrows htotal
        hpos hship hbill hpay huid hne huser]
      simp [hyes, Store.createOrder]

/-- C23 at a concrete store: `u2`, the second of two users, has no address and gets the
shipping address of the request; the rows before and after it are as they were. -/
theorem checkout_address_saved_witness :
    ∃ pre post,
      exampleUsers.users = pre ++
        ({ id := "u2", username := "bob", email := "bob@example.com", password := "h2",
           address := JsVal.null } : User) :: post ∧
      (processCheckout exampleUsers { exampleBody with userId := some "u2" }
        (exampleEnv (1 / 2))).store.users = pre ++
        ({ id := "u2", username := "bob", email := "bob@example.com", password := "h2",
           address := JsVal.str "1 Main Street" } : User) :: post := by
  obtain ⟨pre, post, hsplit, _, _, hno, _⟩ :=
    checkout_address_saved exampleUsers { exampleBody with userId := some "u2" }
      (exampleEnv (1 / 2)) _ _ 25 "u2"
      { id := "u2", username := "bob", email := "bob@example.com", password := "h2",
        address := JsVal.null }
      rfl rfl (by norm_num) rfl rfl rfl rfl (by decide) rfl
  exact ⟨pre, post, hsplit, hno rfl⟩

/-- C25: `updateItem` and `removeItem` give the same response and the same store whichever
authenticated user calls them: the user id is only tested for presence. So for any caller,
whenever an item with the id exists, in whosever cart, `removeItem` drops its row and
`updateItem` with a positive quantity overwrites its quantity. -/
theorem item_routes_ignore_caller (store : CartStore) (itemId : String) (q : Option Int)
    (env : CartEnv) (u1 u2 : String) (h1 : u1 ≠ "") (h2 : u2 ≠ "") :
    updateItem store (some u1) itemId q env = updateItem store (some u2) itemId q env ∧
    removeItem store (some u1) itemId env = removeItem store (some u2) itemId env ∧
    ((∃ it ∈ store.items, it.id = itemId) →
      (removeItem store (some u1) itemId env).store.items =
        deleteItemRow store.items itemId ∧
      ∀ n : Int, 0 < n →
        (updateItem store (some u1) itemId (some n) env).store.items =
          setQuantityRow store.items itemId n) := by
  refine ⟨?_, ?_, fun hex => ?_⟩
  · simp only [updateItem, authenticatedUser_some u1 h1, authenticatedUser_some u2 h2]
  · simp only [removeItem, authenticatedUser_some u1 h1, authenticatedUser_some u2 h2]
  · cases hfind : store.findItem itemId with
    | none => exact absurd hex ((CartStore.findItem_eq_none_iff store itemId).mp hfind)
    | some item =>
      constructor
      · simp only [removeItem, authenticatedUser_some u1 h1, hfind]
        split <;> rfl
      · intro n hn
        have hn0 : n ≠ 0 := ne_of_gt hn
        have hn1 : ¬ n ≤ 0 := not_le.mpr hn
        simp only [updateItem, authenticatedUser_some u1 h1, hfind]
        rw [if_neg (by simp [hn0, hn1])]
        split <;> rfl

/-- C25 at a concrete store: `u1` removes item `i2`, which lies in the cart of `u2`, and the
answer and store are those `u2` would get. -/
theorem item_routes_ignore_caller_witness :
    (removeItem exampleCarts (some "u1") "i2" (exampleCartEnv "c9" "i9")).store.items =
      [{ id := "i1", cartId := "c1", productId := "1", quantity := 2 },
       { id := "i3", cartId := "c1", productId := "2", quantity := 5 }] ∧
    removeItem exampleCarts (some "u1") "i2" (exampleCartEnv "c9" "i9") =
      removeItem exampleCarts (some "u2") "i2" (exampleCartEnv "c9" "i9") := by
  have h := item_routes_ignore_caller exampleCarts "i2" (some 3) (exampleCartEnv "c9" "i9")
    "u1" "u2" (by decide) (by decide)
  have hex : ∃ it ∈ exampleCarts.items, it.id = "i2" := by
    simp [exampleCarts]
  refine ⟨?_, h.2.1⟩
  rw [(h.2.2 hex).1]
  rfl

/-- C24: with integer `limit` and `skip`, the cache key determines the request: two
different requests, be they calls of different gateway methods or calls of one method with
different parameters (categories, ids and queries being arbitrary strings, underscores and
digits included), have different keys. Hence running one request never reads, writes or
evicts the cache entry of another. -/
theorem cacheKey_injective (r1 r2 : Request) (h : r1 ≠ r2) :
    r1.cacheKey ≠ r2.cacheKey ∧
    ∀ (w : World) (svc : ProductService),
      (r1.run w svc).service.cache.get r2.cacheKey = svc.cache.get r2.cacheKey := by
  have hk : r1.cacheKey ≠ r2.cacheKey := fun hk => h (Request.cacheKey_inj r1 r2 hk)
  refine ⟨hk, fun w svc => ?_⟩
  rcases Request.run_service r1 w svc with hs | ⟨v, _, hs⟩
  · rw [hs]
    exact ProductService.getFromCache_get_other svc _ _ _ (Ne.symm hk)
  · rw [hs, ProductService.setCache_get_other _ _ _ _ _ (Ne.symm hk)]
    exact ProductService.getFromCache_get_other svc _ _ _ (Ne.symm hk)

/-- C24 on two category requests whose names and numbers run into each other: the keys
`category_x_1_2_3` and `category_x_1_2` are different. -/
theorem cacheKey_injective_witness :
    Request.byCategory "x_1" 2 3 ≠ Request.byCategory "x" 1 2 ∧
    (Request.byCategory "x_1" 2 3).cacheKey ≠ (Request.byCategory "x" 1 2).cacheKey :=
  ⟨by simp, (cacheKey_injective (Request.byCategory "x_1" 2 3) (Request.byCategory "x" 1 2)
    (by simp)).1⟩

/-! ## Properties of failing gateway calls and of the source of enrichment -/

/-- C21, the claim as stated fails: answered with a `null` body, which is malformed data
for a list of categories, `getCategories()` raises nothing: it returns `[]` and stores `[]`
under `categories`; likewise `getAllProducts(100, 0)` returns `[]` for a body without a
`products` array. -/
theorem gateway_malformed_not_raised :
    (Request.categories.run (emptyBodyWorld 1000 1001) exampleService).result =
      .ok (JsVal.arr []) ∧
    (Request.categories.run (emptyBodyWorld 1000 1001) exampleService).service.cache.get
      "categories" = some { data := JsVal.arr [], timestamp := 1001 } ∧
    ((Request.allProducts 100 0).run (emptyBodyWorld 1000 1001) exampleService).result =
      .ok (JsVal.arr []) :=
  ⟨rfl, rfl, rfl⟩

/-- C21 as amended: on a cache miss, if the external request is rejected, or, for the four
product methods, its body is `null`/`undefined` or a record to be mapped has no `category`,
the method raises its own error instead of returning a value, requests one URL, and leaves no
entry under its key (an expired one is evicted by the lookup) and every other entry as it
was. For `getProductById` the error is `Product not found`, which `GET /:id` answers as 404.
By design `getCategories` raises on a rejected request only: any resolved body is returned,
an empty `[]` in place of a falsy one, and stored; and the listing methods treat a body
without `products` as the empty list. -/
theorem gateway_failure_raises (req : Request) (w : World) (svc : ProductService)
    (hmiss : ∀ e, svc.cache.get req.cacheKey = some e → e.fresh w.now = false)
    (hfail : req.failing w) :
    (req.run w svc).result = .error req.errorMessage ∧
    (req.run w svc).requests.length = 1 ∧
    (req.run w svc).service.cache.get req.cacheKey = none ∧
    (∀ key, key ≠ req.cacheKey →
      (req.run w svc).service.cache.get key = svc.cache.get key) ∧
    (∀ id, req = Request.byId id →
      (req.run w svc).result = .error "Product not found" ∧
      (getProductRoute svc id w.now w.productResponse w.random w.storeTime).status = 404 ∧
      (getProductRoute svc id w.now w.productResponse w.random w.storeTime).message =
        "Product not found") ∧
    (∀ data, w.categoriesResponse = HttpResult.resolved data →
      Request.categories.fetch w = some (if data.truthy then data else JsVal.arr [])) ∧
    (w.listResponse = HttpResult.resolved (some { products := none }) →
      fetchProductList w.listResponse w.random = some (JsVal.arr [])) := by
  have hnull : (svc.getFromCache req.cacheKey w.now).1.truthy = false := by
    rw [ProductService.getFromCache_miss svc _ _ hmiss]
    rfl
  obtain ⟨hres, hreq, hsvc⟩ :=
    Request.run_of_failed req w svc hnull (Request.fetch_none_of_failing req w hfail)
  refine ⟨hres, hreq, ?_, fun key hkey => ?_, fun id hid => ?_, fun data hdata => ?_,
    fun hlist => ?_⟩
  · rw [hsvc]
    exact ProductService.getFromCache_miss_get svc _ _ hmiss
  · rw [hsvc]
    exact ProductService.getFromCache_get_other svc _ _ _ hkey
  · subst hid
    have hrun : (svc.getProductById id w.now w.productResponse w.random w.storeTime).result =
        .error "Product not found" := hres
    refine ⟨hres, ?_, ?_⟩
    · simp [getProductRoute, hrun]
    · simp [getProductRoute, hrun]
  · simp [Request.fetch, fetchCategories, hdata]
  · simp [fetchProductList, hlist, transformProducts]

/-- C21 as amended, at a concrete call: `getProductById("999")` with a rejected request on
a service that has nothing cached for it raises `Product not found`, and the route answers
404. -/
theorem gateway_failure_raises_witness :
    ((Request.byId "999").run (emptyBodyWorld 1000 1001) exampleService).result =
      .error "Product not found" ∧
    (getProductRoute exampleService "999" 1000 HttpResult.rejected (fun _ => 0) 1001).status =
      404 := by
  have h := gateway_failure_raises (Request.byId "999") (emptyBodyWorld 1000 1001)
    exampleService
    (by
      intro e he
      have hk : (Request.byId "999").cacheKey = "product_999" := by decide
      rw [hk] at he
      simp [exampleService, JsMap.get] at he)
    (Or.inl rfl)
  exact ⟨h.1, (h.2.2.2.2.1 "999" rfl).2.1⟩

/-- C22, the claim as stated fails: for the same catalog record, the product enrichment
attaches is the raw response body and not what the gateway method `getProductById("7")`
returns; and where the gateway, holding a valid entry, requests nothing, enrichment still
sends its request. -/
theorem enrichment_not_via_gateway :
    (detailItem rawCatalog exampleItem).product ≠
      (gatewayDetailItem (ProductService.new "https://dummyjson.com/products") exampleItem
        1000 (.resolved (some exampleRaw)) (fun _ => 3 / 4) 1001).1.product ∧
    (gatewayDetailItem warmProductService exampleItem 2000 (.resolved (some exampleRaw))
      (fun _ => 3 / 4) 2001).2.requests = [] ∧
    enrichmentRequests [exampleItem] = ["https://dummyjson.com/products/7"] := by
  refine ⟨?_, rfl, rfl⟩
  have hraw : (detailItem rawCatalog exampleItem).product = exampleRaw.toJs := rfl
  have hgw : ∃ rest, (gatewayDetailItem (ProductService.new "https://dummyjson.com/products")
      exampleItem 1000 (.resolved (some exampleRaw)) (fun _ => 3 / 4) 1001).1.product =
      JsVal.obj (("id", JsVal.num 7) :: ("name", JsVal.str "Oxford Shirt") :: rest) :=
    ⟨_, rfl⟩
  obtain ⟨rest, hrest⟩ := hgw
  rw [hraw, hrest]
  simp [RawProduct.toJs, exampleRaw]

/-- C22 as amended: enrichment does not go through the gateway. For every cart item it
requests `https://dummyjson.com/products/<productId>` itself and, when that lookup resolves,
attaches the response body as it came. `GET /` sends one such request per item of the cart,
and sends the same requests again when called again: nothing is cached. -/
theorem enrichment_direct (http : String → HttpResult JsVal) (items : List CartItem) :
    enrichmentRequests items =
      items.map (fun i => "https://dummyjson.com/products/" ++ i.productId) ∧
    (∀ item ∈ items, ∀ data,
      http ("https://dummyjson.com/products/" ++ item.productId) = HttpResult.resolved data →
      (detailItem http item).product = data) ∧
    (∀ (store : CartStore) (uid : String) (env env' : CartEnv), uid ≠ "" →
      (getCart store (some uid) env).requests =
        ((getCart store (some uid) env).store.itemsOfCart
          (getOrCreateCart store uid env.newCartId).1.id).map
            (fun i => "https://dummyjson.com/products/" ++ i.productId) ∧
      (getCart (getCart store (some uid) env).store (some uid) env').requests =
        (getCart store (some uid) env).requests) := by
  refine ⟨rfl, fun item _ data h => ?_, fun store uid env env' hu => ?_⟩
  · have h' : fetchProductDetails http item.productId = HttpResult.resolved data := h
    simp [detailItem, h']
  · have hfirst : getCart store (some uid) env =
        cartResponse "Cart retrieved successfully" (getOrCreateCart store uid env.newCartId).1
          (getOrCreateCart store uid env.newCartId).2 env := by
      simp [getCart, authenticatedUser_some uid hu]
    have hsecond : getCart (getOrCreateCart store uid env.newCartId).2 (some uid) env' =
        cartResponse "Cart retrieved successfully" (getOrCreateCart store uid env.newCartId).1
          (getOrCreateCart store uid env.newCartId).2 env' := by
      simp [getCart, authenticatedUser_some uid hu, getOrCreateCart_again]
    rw [hfirst]
    refine ⟨rfl, ?_⟩
    have hstore : (cartResponse "Cart retrieved successfully"
        (getOrCreateCart store uid env.newCartId).1
        (getOrCreateCart store uid env.newCartId).2 env).store =
        (getOrCreateCart store uid env.newCartId).2 := rfl
    rw [hstore, hsecond]
    rfl

/-- C22 as amended, at a concrete cart: the product attached to the item of product `7` is
the raw body, with `title` and without the derived fields. -/
theorem enrichment_direct_witness :
    (detailItem rawCatalog exampleItem).product = exampleRaw.toJs :=
  (enrichment_direct rawCatalog [exampleItem]).2.1 exampleItem (List.mem_singleton.mpr rfl)
    exampleRaw.toJs rfl

end PrimePicks
